import Mathlib

/-!
# gostPanel: reconciliation, orchestration and telemetry ingestion

A shallow embedding of the Go sources under `backend/internal` (packages `utils`,
`model`, `repository`, `service`) together with theorems about them.

Conventions of the embedding

* Go `string` values are Lean `String`s (valid Unicode text).  `strings.HasPrefix`,
  `strings.TrimPrefix`, `strings.Index` and slicing are modelled on the list of
  characters; every separator the code looks for (`/`, `:`, `-`, the decimal digits) is
  ASCII, so positions by character and by byte cut the text at the same places.
* Go `uint` / `int` are 64 bit wide.  Record ids are natural numbers, `int` and `int64`
  values are integers, and every arithmetic operation the code performs on them is
  followed by an explicit wrap to the machine range.
* Stateful code is written in state-passing style over `World`.
-/

namespace GostPanel

/-! ## package model -/

/-- ForwardStatus is `type ForwardStatus string`. -/
abbrev ForwardStatus := String

def ForwardStatusRunning : ForwardStatus := "running"
def ForwardStatusStopped : ForwardStatus := "stopped"
def ForwardStatusError : ForwardStatus := "error"

/-- TunnelStatus is `type TunnelStatus string`. -/
abbrev TunnelStatus := String

def TunnelStatusStopped : TunnelStatus := "stopped"
def TunnelStatusRunning : TunnelStatus := "running"
def TunnelStatusError : TunnelStatus := "error"

/-- NodeStatus is `type NodeStatus string`. -/
abbrev NodeStatus := String

def NodeStatusOnline : NodeStatus := "online"
def NodeStatusOffline : NodeStatus := "offline"
def NodeStatusError : NodeStatus := "error"

/-- ForwardProtocol is `type ForwardProtocol string`. -/
abbrev ForwardProtocol := String

def ForwardProtocolTCP : ForwardProtocol := "tcp"
def ForwardProtocolUDP : ForwardProtocol := "udp"

/-- GostNode (`model/node.go`); timestamps, the soft-delete mark and the preloaded
associations are left out, no function embedded here reads them. -/
structure GostNode where
  ID : Nat
  Name : String
  APIURL : String
  Username : String
  Password : String
  Status : NodeStatus
  RelayPort : Int
  Remark : String
deriving DecidableEq, Repr

/-- GostForward (`model/forward.go`), same omissions as `GostNode`. -/
structure GostForward where
  ID : Nat
  NodeID : Nat
  Name : String
  Protocol : ForwardProtocol
  ListenPort : Int
  Targets : List String
  Strategy : String
  EnableTLS : Bool
  Status : ForwardStatus
  ServiceID : String
  ObserverID : String
  InputBytes : Int
  OutputBytes : Int
  TotalBytes : Int
  TotalRequests : Int
  Remark : String
deriving DecidableEq, Repr

/-- GostTunnel (`model/tunnel.go`), same omissions as `GostNode`. -/
structure GostTunnel where
  ID : Nat
  Name : String
  EntryNodeID : Nat
  ExitNodeID : Nat
  Protocol : String
  ListenPort : Int
  Targets : List String
  Strategy : String
  RelayPort : Int
  Status : TunnelStatus
  ServiceID : String
  ChainID : String
  ObserverID : String
  InputBytes : Int
  OutputBytes : Int
  TotalBytes : Int
  TotalRequests : Int
  Remark : String
deriving DecidableEq, Repr

/-- SystemConfig: the one field of the system configuration record that the embedded code
reads (`sysConfig.PanelURL`). -/
structure SystemConfig where
  PanelURL : String
deriving DecidableEq, Repr

/-! ## package dto -/

/-- Modelled from the spec: `dto.ObserverStats` is declared in a file that is not among the
sources; the fields are the ones `observer_service.go` reads, with the spec's JSON names
`input_bytes`, `output_bytes`, `total_conns`. They are passed to `int64` parameters. -/
structure ObserverStats where
  InputBytes : Int
  OutputBytes : Int
  TotalConns : Int
deriving DecidableEq, Repr

/-- Modelled from the spec: `dto.ObserverEvent` (`{ type, service, stats }`); `Stats` is a
pointer in the source (`event.Stats == nil`), hence an `Option`; the field `Type` is
spelled `Type_`. -/
structure ObserverEvent where
  Type_ : String
  Service : String
  Stats : Option ObserverStats
deriving DecidableEq, Repr

/-- Modelled from the spec: `dto.ObserverReportReq` (`{ events: [...] }`). -/
structure ObserverReportReq where
  Events : List ObserverEvent
deriving DecidableEq, Repr

/-- CreateForwardReq of `dto/forward.go` (the binding tags are checked by the web layer
before the service is called). -/
structure CreateForwardReq where
  NodeID : Nat
  Name : String
  Protocol : String
  ListenPort : Int
  Targets : List String
  Strategy : String
  EnableTLS : Bool
  Remark : String
deriving DecidableEq, Repr

/-- UpdateForwardReq of `dto/forward.go`. -/
structure UpdateForwardReq where
  Name : String
  Protocol : String
  ListenPort : Int
  Targets : List String
  Strategy : String
  EnableTLS : Bool
  Remark : String
deriving DecidableEq, Repr

/-- Modelled from the spec: `dto.CreateTunnelReq` is declared in a file that is not among the
sources; the fields are the ones `TunnelService.Create` reads. -/
structure CreateTunnelReq where
  Name : String
  EntryNodeID : Nat
  ExitNodeID : Nat
  Protocol : String
  EntryPort : Int
  Targets : List String
  Strategy : String
  Remark : String
deriving DecidableEq, Repr

/-- Modelled from the spec: `dto.UpdateTunnelReq`, the fields `TunnelService.Update` reads. -/
structure UpdateTunnelReq where
  Name : String
  EntryNodeID : Nat
  ExitNodeID : Nat
  Protocol : String
  EntryPort : Int
  Targets : List String
  Strategy : String
  Remark : String
deriving DecidableEq, Repr

/-! ## package errors

The error values of package `errors` are declared outside the sources; each one the embedded
code returns is a constructor here, together with `gorm.ErrRecordNotFound` and one value
standing for any other error reported by the database driver. -/

inductive Err where
  | ErrRecordNotFound
  | ErrDatabase
  | ErrNodeOffline
  | ErrForwardStartFailed
  | ErrPanelURLNotFound
  | ErrObserverCreateFailed
  | ErrOperationFailed
  | ErrExtractHostFailed
  | ErrTunnelChainCreateFailed
  | ErrTunnelServiceCreateFailed
  | ErrNodeNotFound
  | ErrForwardPortExists
  | ErrForwardNotFound
  | ErrForwardRunning
  | ErrTunnelNodeSame
  | ErrEntryNodeNotFound
  | ErrExitNodeNotFound
  | ErrPortInUse
  | ErrExitNodeNoRelayPort
  | ErrTunnelNotFound
  | ErrTunnelRunning
deriving DecidableEq, Repr

/-! ## package gost: configuration objects sent to a node -/

/-- Value is a Go value of type `any` as it occurs in a column update or in service
metadata. -/
inductive Value where
  | str (s : String)
  | int (i : Int)
  | bool (b : Bool)
deriving DecidableEq, Repr

/-- PluginConfig as built by `CreateObserver` (field `Type` spelled `Type_`). -/
structure PluginConfig where
  Type_ : String
  Addr : String
  Timeout : String
deriving DecidableEq, Repr

/-- ObserverConfig as built by `CreateObserver`. -/
structure ObserverConfig where
  Name : String
  Plugin : PluginConfig
deriving DecidableEq, Repr

/-- NodeConfig: a node of a hop; `Connector` and `Dialer` carry only a type. -/
structure NodeConfig where
  Name : String
  Addr : String
  ConnectorType : String
  DialerType : String
deriving DecidableEq, Repr

/-- HopConfig as built by `TunnelService.Start`. -/
structure HopConfig where
  Name : String
  Nodes : List NodeConfig
deriving DecidableEq, Repr

/-- ChainConfig as built by `TunnelService.Start`. -/
structure ChainConfig where
  Name : String
  Hops : List HopConfig
deriving DecidableEq, Repr

/-- Modelled from the spec: `gost.ServiceConfig` and its builders live in package `pkg/gost`,
which is not among the sources. Per the spec a service is "described by name, listen
address, protocol, an ordered list of target addresses with a named distribution strategy
... and an optional telemetry observer binding"; `Observer` and `Metadata` are the two
fields the embedded code assigns. -/
structure ServiceConfig where
  Name : String
  Protocol : String
  ListenPort : Int
  Targets : List String
  Strategy : String
  Observer : String
  Metadata : List (String × Value)
deriving DecidableEq, Repr

/-- Modelled from the spec: `gost.BuildTCPForwardService(name, listenPort, targets, strategy)`
is missing from the sources; it returns the TCP service description carrying its four
arguments, with no observer bound and no metadata. -/
def BuildTCPForwardService (name : String) (listenPort : Int) (targets : List String)
    (strategy : String) : ServiceConfig :=
  { Name := name, Protocol := "tcp", ListenPort := listenPort, Targets := targets,
    Strategy := strategy, Observer := "", Metadata := [] }

/-- Modelled from the spec: `gost.BuildUDPForwardService`, the UDP counterpart of
`BuildTCPForwardService`, missing from the sources as well. -/
def BuildUDPForwardService (name : String) (listenPort : Int) (targets : List String)
    (strategy : String) : ServiceConfig :=
  { Name := name, Protocol := "udp", ListenPort := listenPort, Targets := targets,
    Strategy := strategy, Observer := "", Metadata := [] }

/-- mapSet is the Go map assignment `m[k] = v` on an association list: the binding of `k`
is replaced, or added when there is none. -/
def mapSet {β : Type} (m : List (String × β)) (k : String) (v : β) : List (String × β) :=
  match m with
  | [] => [(k, v)]
  | (k0, v0) :: rest => if k0 = k then (k, v) :: rest else (k0, v0) :: mapSet rest k v

/-! ## The world: the rule state store, the system configuration and the calls issued -/

/-- Table names the two tables the embedded code updates (`&model.GostForward{}`,
`&model.GostTunnel{}`). -/
inductive Table where
  | gost_forwards
  | gost_tunnels
deriving DecidableEq, Repr

/-- Call is one call that leaves the process and may fail: a call of the per-node client
(`utils.GetGostClient(node)`, identified by the node id) or a write sent to the store (a
column update, the insertion of a row, the saving of a whole row). -/
inductive Call where
  | CreateObserver (node : Nat) (observer : ObserverConfig)
  | CreateChain (node : Nat) (chain : ChainConfig)
  | CreateService (node : Nat) (svc : ServiceConfig)
  | DeleteService (node : Nat) (name : String)
  | DeleteChain (node : Nat) (name : String)
  | SaveConfig (node : Nat)
  | UpdateFields (table : Table) (id : Nat) (fields : List (String × Value))
  | CreateForward (row : GostForward)
  | SaveForward (row : GostForward)
  | CreateTunnel (row : GostTunnel)
  | SaveTunnel (row : GostTunnel)
  | DeleteRow (table : Table) (id : Nat)
deriving DecidableEq, Repr

/-- Call.isRemote tells the calls of the per-node client from the writes sent to the
store. -/
def Call.isRemote : Call → Bool
  | .UpdateFields _ _ _ => false
  | .CreateForward _ => false
  | .SaveForward _ => false
  | .CreateTunnel _ => false
  | .SaveTunnel _ => false
  | .DeleteRow _ _ => false
  | _ => true

/-- World is the state the services run against. `forwards`, `tunnels`, `nodes` are the rows
of the three tables (soft-deleted rows are not listed), `sysConfig` is what
`sysRepo.Get()` yields (`none`: it returns an error), `calls` is the log of the calls
issued so far, oldest first, and `fails k c` tells whether call `c`, issued as the `k`-th
call, returns an error. `deletedForwards` and `deletedTunnels` are the keys of the
soft-deleted rows (`DeletedAt` set): such a row is no longer listed, but it stays in its
table and its key stays taken. -/
structure World where
  forwards : List GostForward
  tunnels : List GostTunnel
  nodes : List GostNode
  sysConfig : Option SystemConfig
  calls : List Call
  fails : Nat → Call → Bool
  deletedForwards : List Nat := []
  deletedTunnels : List Nat := []

/-- World.logged is the world after call `c` has been issued: the call is appended to the
log. -/
def World.logged (w : World) (c : Call) : World :=
  { w with calls := w.calls ++ [c] }

/-- World.issue performs one call: it is appended to the log and its outcome is read from
`fails`; the result is `true` when the call returned no error. -/
def World.issue (w : World) (c : Call) : Bool × World :=
  (!(w.fails w.calls.length c), w.logged c)

/-- World.storeReliable says that no column update is failed by the store. -/
def World.storeReliable (w : World) : Prop :=
  ∀ k table id fields, w.fails k (.UpdateFields table id fields) = false

/-! ## package repository -/

/-- setForwardField assigns one column of a forward row. -/
def setForwardField (f : GostForward) (column : String) (v : Value) : GostForward :=
  match v with
  | .str s =>
    if column = "status" then { f with Status := s }
    else if column = "service_id" then { f with ServiceID := s }
    else if column = "observer_id" then { f with ObserverID := s }
    else f
  | .int i =>
    if column = "input_bytes" then { f with InputBytes := i }
    else if column = "output_bytes" then { f with OutputBytes := i }
    else if column = "total_bytes" then { f with TotalBytes := i }
    else if column = "total_requests" then { f with TotalRequests := i }
    else f
  | .bool _ => f

/-- setTunnelField assigns one column of a tunnel row. -/
def setTunnelField (t : GostTunnel) (column : String) (v : Value) : GostTunnel :=
  match v with
  | .str s =>
    if column = "status" then { t with Status := s }
    else if column = "service_id" then { t with ServiceID := s }
    else if column = "chain_id" then { t with ChainID := s }
    else if column = "observer_id" then { t with ObserverID := s }
    else t
  | .int i =>
    if column = "input_bytes" then { t with InputBytes := i }
    else if column = "output_bytes" then { t with OutputBytes := i }
    else if column = "total_bytes" then { t with TotalBytes := i }
    else if column = "total_requests" then { t with TotalRequests := i }
    else t
  | .bool _ => t

/-- World.applyUpdate is the effect of `UPDATE table SET fields WHERE id = ?` on the rows. -/
def World.applyUpdate (w : World) (table : Table) (id : Nat) (fields : List (String × Value)) :
    World :=
  match table with
  | .gost_forwards =>
    { w with forwards := w.forwards.map fun f =>
        if f.ID = id then fields.foldl (fun r kv => setForwardField r kv.1 kv.2) f else f }
  | .gost_tunnels =>
    { w with tunnels := w.tunnels.map fun t =>
        if t.ID = id then fields.foldl (fun r kv => setTunnelField r kv.1 kv.2) t else t }

/-- Modelled from the spec: `BaseRepository.UpdateFields(model, id, fields)` is declared in
a file that is not among the sources. Per the spec the store "persists" the records and an
update overwrites the named columns of the row with that id: the update is issued to the
store; when the store reports an error nothing changes and that error is returned,
otherwise the columns are overwritten (no row with that id: nothing changes, no error). -/
def BaseRepository.UpdateFields (w : World) (table : Table) (id : Nat)
    (fields : List (String × Value)) : Option Err × World :=
  match w.issue (.UpdateFields table id fields) with
  | (true, w1) => (none, w1.applyUpdate table id fields)
  | (false, w1) => (some .ErrDatabase, w1)

/-- Modelled from the spec: `BaseRepository.UpdateField(model, id, column, value)`, the
one-column case of `UpdateFields`, missing from the sources as well. -/
def BaseRepository.UpdateField (w : World) (table : Table) (id : Nat) (column : String)
    (value : Value) : Option Err × World :=
  BaseRepository.UpdateFields w table id [(column, value)]

/-- FindByID of `ForwardRepository`: `First(&forward, id)`; `none` stands for
`gorm.ErrRecordNotFound`. -/
def ForwardRepository.FindByID (w : World) (id : Nat) : Option GostForward :=
  w.forwards.find? fun f => f.ID == id

/-- UpdateStatus of `ForwardRepository`. -/
def ForwardRepository.UpdateStatus (w : World) (id : Nat) (status : ForwardStatus) :
    Option Err × World :=
  BaseRepository.UpdateField w .gost_forwards id "status" (.str status)

/-- UpdateServiceID of `ForwardRepository`. -/
def ForwardRepository.UpdateServiceID (w : World) (id : Nat) (serviceID : String) :
    Option Err × World :=
  BaseRepository.UpdateField w .gost_forwards id "service_id" (.str serviceID)

/-- UpdateObserverID of `ForwardRepository`. -/
def ForwardRepository.UpdateObserverID (w : World) (id : Nat) (observerID : String) :
    Option Err × World :=
  BaseRepository.UpdateField w .gost_forwards id "observer_id" (.str observerID)

/-- wrapInt64 brings the result of an `int` / `int64` operation back into the range of the
machine type (two's complement, 64 bits). -/
def wrapInt64 (x : Int) : Int := (x + 2 ^ 63) % 2 ^ 64 - 2 ^ 63

/-- UpdateStats of `ForwardRepository`; `inputBytes + outputBytes` is an `int64` sum. -/
def ForwardRepository.UpdateStats (w : World) (id : Nat)
    (inputBytes outputBytes totalRequests : Int) : Option Err × World :=
  BaseRepository.UpdateFields w .gost_forwards id
    [("input_bytes", .int inputBytes),
     ("output_bytes", .int outputBytes),
     ("total_bytes", .int (wrapInt64 (inputBytes + outputBytes))),
     ("total_requests", .int totalRequests)]

/-- FindByID of `TunnelRepository`. -/
def TunnelRepository.FindByID (w : World) (id : Nat) : Option GostTunnel :=
  w.tunnels.find? fun t => t.ID == id

/-- UpdateStatus of `TunnelRepository`. -/
def TunnelRepository.UpdateStatus (w : World) (id : Nat) (status : TunnelStatus) :
    Option Err × World :=
  BaseRepository.UpdateField w .gost_tunnels id "status" (.str status)

/-- UpdateServiceInfo of `TunnelRepository`. -/
def TunnelRepository.UpdateServiceInfo (w : World) (id : Nat) (serviceID chainID : String) :
    Option Err × World :=
  BaseRepository.UpdateFields w .gost_tunnels id
    [("service_id", .str serviceID), ("chain_id", .str chainID)]

/-- UpdateObserverID of `TunnelRepository`. -/
def TunnelRepository.UpdateObserverID (w : World) (id : Nat) (observerID : String) :
    Option Err × World :=
  BaseRepository.UpdateField w .gost_tunnels id "observer_id" (.str observerID)

/-- UpdateStats of `TunnelRepository`. -/
def TunnelRepository.UpdateStats (w : World) (id : Nat)
    (inputBytes outputBytes totalRequests : Int) : Option Err × World :=
  BaseRepository.UpdateFields w .gost_tunnels id
    [("input_bytes", .int inputBytes),
     ("output_bytes", .int outputBytes),
     ("total_bytes", .int (wrapInt64 (inputBytes + outputBytes))),
     ("total_requests", .int totalRequests)]

/-- The primary key the store gives to an inserted row whose key is unset: one more than the
largest key among `ids`, the keys of the rows of the table, the soft-deleted ones included. -/
def nextID (ids : List Nat) : Nat := ids.foldl max 0 + 1

/-- The column defaults of the `gorm` tags of `model/forward.go` (`default:tcp`,
`default:round`, `default:stopped`), which an insertion applies to the columns the record
leaves at their zero value; `default:false` and `default:0` are the zero values themselves. -/
def forwardDefaults (f : GostForward) : GostForward :=
  { f with
    Protocol := if f.Protocol = "" then "tcp" else f.Protocol,
    Strategy := if f.Strategy = "" then "round" else f.Strategy,
    Status := if f.Status = "" then "stopped" else f.Status }

/-- The column defaults of the `gorm` tags of `model/tunnel.go` (`default:tcp`,
`default:round`, `default:8443`, `default:stopped`). -/
def tunnelDefaults (t : GostTunnel) : GostTunnel :=
  { t with
    Protocol := if t.Protocol = "" then "tcp" else t.Protocol,
    Strategy := if t.Strategy = "" then "round" else t.Strategy,
    RelayPort := if t.RelayPort = 0 then 8443 else t.RelayPort,
    Status := if t.Status = "" then "stopped" else t.Status }

/-- ExistsByPort of `ForwardRepository`: whether a forward of the node listens on the port;
`excludeID` is the optional variadic argument (`none`: not given). -/
def ForwardRepository.ExistsByPort (w : World) (nodeID : Nat) (port : Int)
    (excludeID : Option Nat) : Bool :=
  decide (0 < (w.forwards.filter fun f =>
    f.NodeID == nodeID && f.ListenPort == port &&
      (match excludeID with
       | some ex => f.ID != ex
       | none => true)).length)

/-- Create of `ForwardRepository` (`DB.Create`): the insertion is sent to the store; when
it is accepted the column defaults are applied and the row joins the table under the key it
carries or, that key being unset (zero), under a new key that no row of the table has, the
soft-deleted rows included; the stored row is returned. -/
def ForwardRepository.Create (w : World) (forward : GostForward) :
    Except Err GostForward × World :=
  match w.issue (.CreateForward forward) with
  | (false, w1) => (.error .ErrDatabase, w1)
  | (true, w1) =>
    let filled := forwardDefaults forward
    let row : GostForward :=
      if filled.ID = 0 then
        { filled with ID := nextID ((w.forwards.map fun f => f.ID) ++ w.deletedForwards) }
      else filled
    (.ok row, { w1 with forwards := w1.forwards ++ [row] })

/-- Update of `ForwardRepository` (`DB.Save`): every column of the row with that key is
overwritten with the record. -/
def ForwardRepository.Update (w : World) (forward : GostForward) : Option Err × World :=
  match w.issue (.SaveForward forward) with
  | (false, w1) => (some .ErrDatabase, w1)
  | (true, w1) =>
    (none, { w1 with forwards := w1.forwards.map fun f =>
      if f.ID = forward.ID then forward else f })

/-- ExistsByPort of `TunnelRepository`: whether a tunnel entering at the node listens on the
port. -/
def TunnelRepository.ExistsByPort (w : World) (entryNodeID : Nat) (port : Int)
    (excludeID : Option Nat) : Bool :=
  decide (0 < (w.tunnels.filter fun t =>
    t.EntryNodeID == entryNodeID && t.ListenPort == port &&
      (match excludeID with
       | some ex => t.ID != ex
       | none => true)).length)

/-- Create of `TunnelRepository` (`DB.Create`), of the same shape as Create of
`ForwardRepository`. -/
def TunnelRepository.Create (w : World) (tunnel : GostTunnel) :
    Except Err GostTunnel × World :=
  match w.issue (.CreateTunnel tunnel) with
  | (false, w1) => (.error .ErrDatabase, w1)
  | (true, w1) =>
    let filled := tunnelDefaults tunnel
    let row : GostTunnel :=
      if filled.ID = 0 then
        { filled with ID := nextID ((w.tunnels.map fun t => t.ID) ++ w.deletedTunnels) }
      else filled
    (.ok row, { w1 with tunnels := w1.tunnels ++ [row] })

/-- Update of `TunnelRepository` (`DB.Save`). -/
def TunnelRepository.Update (w : World) (tunnel : GostTunnel) : Option Err × World :=
  match w.issue (.SaveTunnel tunnel) with
  | (false, w1) => (some .ErrDatabase, w1)
  | (true, w1) =>
    (none, { w1 with tunnels := w1.tunnels.map fun t =>
      if t.ID = tunnel.ID then tunnel else t })

/-- Delete of `ForwardRepository` (`DB.Delete(&model.GostForward{}, id)`): the deletion is
sent to the store; when it is accepted the listed row of that key is marked deleted
(the model has a `DeletedAt` column), so it is no longer listed and its key stays taken. -/
def ForwardRepository.Delete (w : World) (id : Nat) : Option Err × World :=
  match w.issue (.DeleteRow .gost_forwards id) with
  | (false, w1) => (some .ErrDatabase, w1)
  | (true, w1) =>
    (none,
      { w1 with
        forwards := w1.forwards.filter fun f => f.ID != id,
        deletedForwards :=
          w1.deletedForwards ++ (w1.forwards.filter fun f => f.ID == id).map fun f => f.ID })

/-- Delete of `TunnelRepository`. -/
def TunnelRepository.Delete (w : World) (id : Nat) : Option Err × World :=
  match w.issue (.DeleteRow .gost_tunnels id) with
  | (false, w1) => (some .ErrDatabase, w1)
  | (true, w1) =>
    (none,
      { w1 with
        tunnels := w1.tunnels.filter fun t => t.ID != id,
        deletedTunnels :=
          w1.deletedTunnels ++ (w1.tunnels.filter fun t => t.ID == id).map fun t => t.ID })

/-- Modelled from the spec: `NodeRepository.FindByID` is missing from the sources; it is the
node registry's find-by-id, `none` standing for `gorm.ErrRecordNotFound`. -/
def NodeRepository.FindByID (w : World) (id : Nat) : Option GostNode :=
  w.nodes.find? fun n => n.ID == id

/-! ## package utils: status.go -/

/-- GostStateToForwardStatus maps a service state reported by a node to a forward status
(`utils/status.go`, the `switch state` with cases `"ready", "running"`, `"failed"`, default). -/
def GostStateToForwardStatus (state : String) : ForwardStatus :=
  if state = "ready" ∨ state = "running" then ForwardStatusRunning
  else if state = "failed" then ForwardStatusError
  else ForwardStatusStopped

/-- GostStateToTunnelStatus maps a service state and the presence of the chain to a tunnel
status (`utils/status.go`). -/
def GostStateToTunnelStatus (state : String) (chainExists : Bool) : TunnelStatus :=
  if state = "ready" ∨ state = "running" then
    if chainExists then TunnelStatusRunning else TunnelStatusError
  else if state = "failed" then TunnelStatusError
  else TunnelStatusStopped

/-! ## package service: sync_service.go -/

/-- mapGet is the Go map read `m[k]`: the value bound to `k`, or the zero value of the value
type when `k` is absent. -/
def mapGet {β : Type} (zero : β) (m : List (String × β)) (k : String) : β :=
  (m.lookup k).getD zero

/-- ReportedService is the part of a service of the fetched node configuration that the
sync reads: its name and, when the node attached a status, the state in it. -/
structure ReportedService where
  Name : String
  Status : Option String
deriving DecidableEq, Repr

/-- Config is the part of `gostCfg` that `syncNodeRules` reads: the services and the names
of the chains. -/
structure Config where
  Services : List ReportedService
  Chains : List String
deriving DecidableEq, Repr

/-- The map `serviceStates` built by `syncNodeRules`: `"stopped"` for a service without
status, a later service of the same name overwriting an earlier one. -/
def buildServiceStates (services : List ReportedService) : List (String × String) :=
  services.foldl
    (fun m svc => mapSet m svc.Name (match svc.Status with | some st => st | none => "stopped"))
    []

/-- The map `runningChains` built by `syncNodeRules`. -/
def buildRunningChains (chains : List String) : List (String × Bool) :=
  chains.foldl (fun m name => mapSet m name true) []

/-- syncForwardStatus of `RuleSyncService`; the error of `UpdateStatus` is discarded. -/
def RuleSyncService.syncForwardStatus (w : World) (f : GostForward)
    (serviceStates : List (String × String)) : World :=
  let serviceID := if f.ServiceID = "" then "forward-" ++ toString f.ID else f.ServiceID
  let state := mapGet "" serviceStates serviceID
  let newStatus := GostStateToForwardStatus state
  if f.Status ≠ newStatus then (ForwardRepository.UpdateStatus w f.ID newStatus).2 else w

/-- syncTunnelStatus of `RuleSyncService`. -/
def RuleSyncService.syncTunnelStatus (w : World) (t : GostTunnel)
    (serviceStates : List (String × String)) (runningChains : List (String × Bool)) : World :=
  let serviceID := t.ServiceID
  let chainID := t.ChainID
  let state := mapGet "" serviceStates serviceID
  let newStatus := GostStateToTunnelStatus state (mapGet false runningChains chainID)
  if t.Status ≠ newStatus then (TunnelRepository.UpdateStatus w t.ID newStatus).2 else w

/-- FindByNodeID of `ForwardRepository`. -/
def ForwardRepository.FindByNodeID (w : World) (nodeID : Nat) : List GostForward :=
  w.forwards.filter fun f => f.NodeID == nodeID

/-- FindByNodeID of `TunnelRepository`: the tunnels entering or leaving the node. -/
def TunnelRepository.FindByNodeID (w : World) (nodeID : Nat) : List GostTunnel :=
  w.tunnels.filter fun t => t.EntryNodeID == nodeID || t.ExitNodeID == nodeID

/-- syncNodeRules of `RuleSyncService`; `gostCfg` is what `client.GetConfig()` returned
(`none`: an error). The rows read by the two `FindByNodeID` queries are synced one by one. -/
def RuleSyncService.syncNodeRules (w : World) (node : GostNode) (gostCfg : Option Config) :
    World :=
  if node.Status = NodeStatusOffline then w else
  match gostCfg with
  | none => w
  | some cfg =>
    let serviceStates := buildServiceStates cfg.Services
    let runningChains := buildRunningChains cfg.Chains
    let forwards := ForwardRepository.FindByNodeID w node.ID
    let w1 := forwards.foldl (fun acc f => RuleSyncService.syncForwardStatus acc f serviceStates) w
    let tunnels := TunnelRepository.FindByNodeID w1 node.ID
    tunnels.foldl
      (fun acc t =>
        if t.EntryNodeID = node.ID then
          RuleSyncService.syncTunnelStatus acc t serviceStates runningChains
        else acc)
      w1

/-! ## package strings -/

/-- HasPrefix is `strings.HasPrefix`. -/
def HasPrefix (s pfx : String) : Bool := pfx.data.isPrefixOf s.data

/-- TrimPrefix is `strings.TrimPrefix`: `s` without the leading `pfx`, or `s` itself when it
does not start with `pfx`. -/
def TrimPrefix (s pfx : String) : String :=
  if HasPrefix s pfx then ⟨s.data.drop pfx.data.length⟩ else s

/-! ## package service: observer_service.go -/

/-- uintOfInt is the conversion `uint(n)` of an `int`. -/
def uintOfInt (n : Int) : Nat := (n % 2 ^ 64).toNat

/-- The loop of `parseUint` over the characters of `s`, `n` being the `int` accumulated so
far: `none` when the loop leaves through `return false, nil`, otherwise the final `n`. -/
def parseUintLoop : List Char → Int → Option Int
  | [], n => some n
  | c :: cs, n =>
    if c < '0' ∨ c > '9' then none
    else parseUintLoop cs (wrapInt64 (n * 10 + ((c.toNat : Int) - ('0'.toNat : Int))))

/-- parseUint, `result` being the value behind the pointer before the call; the second
component is the value behind the pointer after it. The error returned is always `nil`. -/
def parseUint (s : String) (result : Nat) : (Bool × Option Err) × Nat :=
  match parseUintLoop s.data 0 with
  | none => ((false, none), result)
  | some n => ((true, none), uintOfInt n)

/-- parseServiceID, `id` being the value behind the pointer before the call. -/
def parseServiceID (serviceName pfx : String) (id : Nat) : (Bool × Option Err) × Nat :=
  if !HasPrefix serviceName pfx then ((false, none), id)
  else
    let idStr := TrimPrefix serviceName pfx
    match parseUint idStr 0 with
    | ((_, some err), _) => ((false, some err), id)
    | ((_, none), parsedID) => ((true, none), parsedID)

/-- updateForwardStats of `ObserverService`. -/
def ObserverService.updateForwardStats (w : World) (serviceName : String)
    (stats : ObserverStats) : Option Err × World :=
  match parseServiceID serviceName "forward-" 0 with
  | ((_, some err), _) => (some err, w)
  | ((_, none), id) =>
    match ForwardRepository.UpdateStats w id stats.InputBytes stats.OutputBytes
        stats.TotalConns with
    | (some err, w1) => (some err, w1)
    | (none, w1) => (none, w1)

/-- updateTunnelStats of `ObserverService`. -/
def ObserverService.updateTunnelStats (w : World) (serviceName : String)
    (stats : ObserverStats) : Option Err × World :=
  match parseServiceID serviceName "tunnel-" 0 with
  | ((_, some err), _) => (some err, w)
  | ((_, none), id) =>
    match TunnelRepository.UpdateStats w id stats.InputBytes stats.OutputBytes
        stats.TotalConns with
    | (some err, w1) => (some err, w1)
    | (none, w1) => (none, w1)

/-- processEvent of `ObserverService`. -/
def ObserverService.processEvent (w : World) (event : ObserverEvent) : Option Err × World :=
  if event.Type_ ≠ "stats" ∨ event.Stats = none then (none, w)
  else
    match event.Stats with
    | none => (none, w)
    | some stats =>
      let serviceName := event.Service
      if serviceName = "" then (none, w)
      else if HasPrefix serviceName "forward-" then
        ObserverService.updateForwardStats w serviceName stats
      else if HasPrefix serviceName "tunnel-" then
        ObserverService.updateTunnelStats w serviceName stats
      else (none, w)

/-- The loop of `HandleReport`: every event is processed in turn, its error is logged and
dropped. -/
def ObserverService.handleEvents (w : World) : List ObserverEvent → World
  | [] => w
  | event :: rest => ObserverService.handleEvents (ObserverService.processEvent w event).2 rest

/-- HandleReport of `ObserverService`. -/
def ObserverService.HandleReport (w : World) (req : ObserverReportReq) : Option Err × World :=
  (none, ObserverService.handleEvents w req.Events)

/-- Result of `ObserverHandler.Report` once the request has been bound: the HTTP status and
the `ok` flag of the body. -/
def ObserverHandler.Report (w : World) (req : ObserverReportReq) : (Nat × Bool) × World :=
  match ObserverService.HandleReport w req with
  | (some _, w1) => ((500, false), w1)
  | (none, w1) => ((200, true), w1)

/-! ## package utils: url.go -/

/-- Index is `strings.Index(s, sep)` for a one-character separator: the position of its
first occurrence, `none` standing for `-1`. -/
def Index (s : List Char) (sep : Char) : Option Nat :=
  match s with
  | [] => none
  | x :: xs => if x = sep then some 0 else (Index xs sep).map (· + 1)

/-- LastIndex is `strings.LastIndex(s, sep)` for a one-character separator. -/
def LastIndex (s : List Char) (sep : Char) : Option Nat :=
  match s with
  | [] => none
  | x :: xs =>
    match LastIndex xs sep with
    | some i => some (i + 1)
    | none => if x = sep then some 0 else none

/-- ExtractHostPort of `utils/url.go`; `url[:idx]` is `take idx`, `url[idx+1:]` is
`drop (idx + 1)`. -/
def ExtractHostPort (apiURL : String) : String × String :=
  let url := apiURL
  let url :=
    if HasPrefix url "http://" then TrimPrefix url "http://"
    else if HasPrefix url "https://" then TrimPrefix url "https://"
    else url
  let url : String :=
    match Index url.data '/' with
    | some idx => ⟨url.data.take idx⟩
    | none => url
  match LastIndex url.data ':' with
  | some idx => (⟨url.data.take idx⟩, ⟨url.data.drop (idx + 1)⟩)
  | none => (url, "")

/-- ExtractHost of `utils/url.go`. -/
def ExtractHost (apiURL : String) : String := (ExtractHostPort apiURL).1

/-! ## package service: observer creation -/

/-- CreateObserver of `observer_service.go`: `client` is the id of the node the client is
bound to; the result is the pair `(observerName, err)` and the new world. -/
def CreateObserver (w : World) (client : Nat) (nodeName : String) (resourceID : Nat) :
    (String × Option Err) × World :=
  match w.sysConfig with
  | none => (("", some .ErrPanelURLNotFound), w)
  | some sysConfig =>
    if sysConfig.PanelURL = "" then (("", some .ErrPanelURLNotFound), w)
    else
      let observerName := "observer-" ++ nodeName ++ "-" ++ toString resourceID
      let observer : ObserverConfig :=
        { Name := observerName,
          Plugin := { Type_ := "http", Addr := sysConfig.PanelURL ++ "/api/v1/observer/report",
                      Timeout := "10s" } }
      match w.issue (.CreateObserver client observer) with
      | (false, w1) => (("", some .ErrObserverCreateFailed), w1)
      | (true, w1) => ((observerName, none), w1)

/-- The assignments made to the service when an observer name is at hand: the observer is
bound and the three statistics entries are put into the metadata. -/
def attachObserver (svc : ServiceConfig) (observerName : String) : ServiceConfig :=
  if observerName ≠ "" then
    { svc with
      Observer := observerName,
      Metadata := mapSet (mapSet (mapSet svc.Metadata "enableStats" (.bool true))
        "observer.period" (.str "5s")) "observer.resetTraffic" (.bool true) }
  else svc

/-! ## package service: forward_service.go -/

/-- Start of `ForwardService`. The audit record written through `logService` on success is
not part of the world. The result is the returned error (`none` for `nil`) and the new
world. -/
def ForwardService.Start (w : World) (id : Nat) : Option Err × World :=
  match ForwardRepository.FindByID w id with
  | none => (some .ErrRecordNotFound, w)
  | some forward =>
    if forward.Status = ForwardStatusRunning then (none, w)
    else
      match NodeRepository.FindByID w forward.NodeID with
      | none => (some .ErrRecordNotFound, w)
      | some node =>
        if node.Status = NodeStatusOffline then (some .ErrNodeOffline, w)
        else
          let serviceName := "forward-" ++ toString forward.ID
          let targets := forward.Targets
          let strategy :=
            if forward.Strategy = "" ∨ targets.length = 1 then "round" else forward.Strategy
          let svc :=
            if forward.Protocol = ForwardProtocolTCP then
              BuildTCPForwardService serviceName forward.ListenPort targets strategy
            else
              BuildUDPForwardService serviceName forward.ListenPort targets strategy
          match CreateObserver w node.ID node.Name forward.ID with
          | ((_, some err), w1) => (some err, w1)
          | ((observerName, none), w1) =>
            let w2 := (ForwardRepository.UpdateObserverID w1 id observerName).2
            let svc := attachObserver svc observerName
            match w2.issue (.CreateService node.ID svc) with
            | (false, w3) =>
              let w4 := (ForwardRepository.UpdateStatus w3 id ForwardStatusError).2
              (some .ErrForwardStartFailed, w4)
            | (true, w3) =>
              let w4 := (w3.issue (.SaveConfig node.ID)).2
              let w5 := (ForwardRepository.UpdateStatus w4 id ForwardStatusRunning).2
              let w6 := (ForwardRepository.UpdateServiceID w5 id serviceName).2
              let w7 := (w6.issue (.SaveConfig node.ID)).2
              (none, w7)

/-- Create of `ForwardService`; the audit record is left out. -/
def ForwardService.Create (w : World) (req : CreateForwardReq) :
    Except Err GostForward × World :=
  match NodeRepository.FindByID w req.NodeID with
  | none => (.error .ErrNodeNotFound, w)
  | some _ =>
    if ForwardRepository.ExistsByPort w req.NodeID req.ListenPort none then
      (.error .ErrForwardPortExists, w)
    else
      let forward : GostForward :=
        { ID := 0, NodeID := req.NodeID, Name := req.Name, Protocol := req.Protocol,
          ListenPort := req.ListenPort, Targets := req.Targets, Strategy := req.Strategy,
          EnableTLS := req.EnableTLS, Remark := req.Remark, Status := ForwardStatusStopped,
          ServiceID := "", ObserverID := "", InputBytes := 0, OutputBytes := 0,
          TotalBytes := 0, TotalRequests := 0 }
      match ForwardRepository.Create w forward with
      | (.error err, w1) => (.error err, w1)
      | (.ok stored, w1) => (.ok stored, w1)

/-- Update of `ForwardService`. -/
def ForwardService.Update (w : World) (id : Nat) (req : UpdateForwardReq) :
    Except Err GostForward × World :=
  match ForwardRepository.FindByID w id with
  | none => (.error .ErrForwardNotFound, w)
  | some forward =>
    if forward.Status = ForwardStatusRunning then (.error .ErrForwardRunning, w)
    else if ForwardRepository.ExistsByPort w forward.NodeID req.ListenPort (some id) then
      (.error .ErrForwardPortExists, w)
    else
      let forward : GostForward :=
        { forward with
          Name := req.Name, Protocol := req.Protocol, ListenPort := req.ListenPort,
          Targets := req.Targets, Strategy := req.Strategy, EnableTLS := req.EnableTLS,
          Remark := req.Remark }
      match ForwardRepository.Update w forward with
      | (some err, w1) => (.error err, w1)
      | (none, w1) => (.ok forward, w1)

/-- Stop of `ForwardService`; the errors of `DeleteService`, `UpdateStatus` and
`SaveConfig` are logged or discarded. -/
def ForwardService.Stop (w : World) (id : Nat) : Option Err × World :=
  match ForwardRepository.FindByID w id with
  | none => (some .ErrRecordNotFound, w)
  | some forward =>
    if forward.Status ≠ ForwardStatusRunning then (none, w)
    else
      match NodeRepository.FindByID w forward.NodeID with
      | none => (some .ErrRecordNotFound, w)
      | some node =>
        if node.Status = NodeStatusOffline then (some .ErrNodeOffline, w)
        else
          let w1 :=
            if forward.ServiceID ≠ "" then (w.issue (.DeleteService node.ID forward.ServiceID)).2
            else w
          let w2 := (ForwardRepository.UpdateStatus w1 id ForwardStatusStopped).2
          let w3 := (w2.issue (.SaveConfig node.ID)).2
          (none, w3)

/-- Delete of `ForwardService`: the error of the implicit Stop is logged and dropped. -/
def ForwardService.Delete (w : World) (id : Nat) : Option Err × World :=
  match ForwardRepository.FindByID w id with
  | none => (some .ErrForwardNotFound, w)
  | some forward =>
    let w1 :=
      if forward.Status = ForwardStatusRunning then (ForwardService.Stop w id).2 else w
    match ForwardRepository.Delete w1 id with
    | (some err, w2) => (some err, w2)
    | (none, w2) => (none, w2)

/-! ## package service: tunnel_service.go -/

/-- Start of `TunnelService`. The slice `nodes` the source builds from the targets is never
read afterwards and is left out, as is the audit record. -/
def TunnelService.Start (w : World) (id : Nat) : Option Err × World :=
  match TunnelRepository.FindByID w id with
  | none => (some .ErrRecordNotFound, w)
  | some tunnel =>
    if tunnel.Status = TunnelStatusRunning then (none, w)
    else
      match NodeRepository.FindByID w tunnel.EntryNodeID with
      | none => (some .ErrOperationFailed, w)
      | some entryNode =>
        if entryNode.Status = NodeStatusOffline then (some .ErrNodeOffline, w)
        else
          match NodeRepository.FindByID w tunnel.ExitNodeID with
          | none => (some .ErrOperationFailed, w)
          | some exitNode =>
            if exitNode.Status = NodeStatusOffline then (some .ErrNodeOffline, w)
            else
              let exitHost := ExtractHost exitNode.APIURL
              if exitHost = "" then
                (some .ErrExtractHostFailed,
                  (TunnelRepository.UpdateStatus w id TunnelStatusError).2)
              else
                let relayAddr := exitHost ++ ":" ++ toString tunnel.RelayPort
                let chainName := "chain-tunnel-" ++ toString tunnel.ID
                let chain : ChainConfig :=
                  { Name := chainName,
                    Hops := [{ Name := "hop-0",
                               Nodes := [{ Name := "exit-relay", Addr := relayAddr,
                                           ConnectorType := "relay", DialerType := "tcp" }] }] }
                match w.issue (.CreateChain entryNode.ID chain) with
                | (false, w1) =>
                  (some .ErrTunnelChainCreateFailed,
                    (TunnelRepository.UpdateStatus w1 id TunnelStatusError).2)
                | (true, w1) =>
                  let serviceName := "tunnel-" ++ toString tunnel.ID
                  let targets := tunnel.Targets
                  let strategy :=
                    if tunnel.Strategy = "" ∨ targets.length = 1 then "round"
                    else tunnel.Strategy
                  let svc :=
                    if tunnel.Protocol = ForwardProtocolTCP then
                      BuildTCPForwardService serviceName tunnel.ListenPort targets strategy
                    else
                      BuildUDPForwardService serviceName tunnel.ListenPort targets strategy
                  match CreateObserver w1 entryNode.ID entryNode.Name tunnel.ID with
                  | ((_, some err), w2) => (some err, w2)
                  | ((observerName, none), w2) =>
                    let w3 := (TunnelRepository.UpdateObserverID w2 id observerName).2
                    let svc := attachObserver svc observerName
                    match w3.issue (.CreateService entryNode.ID svc) with
                    | (false, w4) =>
                      let w5 := (w4.issue (.DeleteChain entryNode.ID chainName)).2
                      let w6 := (TunnelRepository.UpdateStatus w5 id TunnelStatusError).2
                      (some .ErrTunnelServiceCreateFailed, w6)
                    | (true, w4) =>
                      let w5 := (w4.issue (.SaveConfig entryNode.ID)).2
                      let w6 := (TunnelRepository.UpdateStatus w5 id TunnelStatusRunning).2
                      let w7 := (TunnelRepository.UpdateServiceInfo w6 id serviceName
                        chainName).2
                      (none, w7)

/-- Create of `TunnelService`. -/
def TunnelService.Create (w : World) (req : CreateTunnelReq) :
    Except Err GostTunnel × World :=
  if req.EntryNodeID = req.ExitNodeID then (.error .ErrTunnelNodeSame, w)
  else
    match NodeRepository.FindByID w req.EntryNodeID with
    | none => (.error .ErrEntryNodeNotFound, w)
    | some _ =>
      match NodeRepository.FindByID w req.ExitNodeID with
      | none => (.error .ErrExitNodeNotFound, w)
      | some exitNode =>
        if TunnelRepository.ExistsByPort w req.EntryNodeID req.EntryPort none then
          (.error .ErrPortInUse, w)
        else
          let relayPort := exitNode.RelayPort
          if relayPort = 0 then (.error .ErrExitNodeNoRelayPort, w)
          else
            let tunnel : GostTunnel :=
              { ID := 0, Name := req.Name, EntryNodeID := req.EntryNodeID,
                ExitNodeID := req.ExitNodeID, Protocol := req.Protocol,
                ListenPort := req.EntryPort, Targets := req.Targets,
                Strategy := req.Strategy, RelayPort := relayPort, Remark := req.Remark,
                Status := TunnelStatusStopped, ServiceID := "", ChainID := "",
                ObserverID := "", InputBytes := 0, OutputBytes := 0, TotalBytes := 0,
                TotalRequests := 0 }
            match TunnelRepository.Create w tunnel with
            | (.error err, w1) => (.error err, w1)
            | (.ok stored, w1) => (.ok stored, w1)

/-- Update of `TunnelService`. -/
def TunnelService.Update (w : World) (id : Nat) (req : UpdateTunnelReq) :
    Except Err GostTunnel × World :=
  match TunnelRepository.FindByID w id with
  | none => (.error .ErrTunnelNotFound, w)
  | some tunnel =>
    if tunnel.Status = TunnelStatusRunning then (.error .ErrTunnelRunning, w)
    else if req.EntryNodeID = req.ExitNodeID then (.error .ErrTunnelNodeSame, w)
    else if TunnelRepository.ExistsByPort w req.EntryNodeID req.EntryPort (some id) then
      (.error .ErrPortInUse, w)
    else
      match NodeRepository.FindByID w req.ExitNodeID with
      | none => (.error .ErrExitNodeNotFound, w)
      | some exitNode =>
        let relayPort := exitNode.RelayPort
        if relayPort = 0 then (.error .ErrExitNodeNoRelayPort, w)
        else
          let tunnel : GostTunnel :=
            { tunnel with
              Name := req.Name, EntryNodeID := req.EntryNodeID,
              ExitNodeID := req.ExitNodeID, Protocol := req.Protocol,
              ListenPort := req.EntryPort, Targets := req.Targets,
              Strategy := req.Strategy, RelayPort := relayPort, Remark := req.Remark }
          match TunnelRepository.Update w tunnel with
          | (some err, w1) => (.error err, w1)
          | (none, w1) => (.ok tunnel, w1)

/-- Stop of `TunnelService`. -/
def TunnelService.Stop (w : World) (id : Nat) : Option Err × World :=
  match TunnelRepository.FindByID w id with
  | none => (some .ErrRecordNotFound, w)
  | some tunnel =>
    if tunnel.Status ≠ TunnelStatusRunning then (none, w)
    else
      match NodeRepository.FindByID w tunnel.EntryNodeID with
      | none => (some .ErrRecordNotFound, w)
      | some entryNode =>
        if entryNode.Status = NodeStatusOffline then (some .ErrNodeOffline, w)
        else
          let w1 :=
            if tunnel.ServiceID ≠ "" then
              (w.issue (.DeleteService entryNode.ID tunnel.ServiceID)).2
            else w
          let w2 :=
            if tunnel.ChainID ≠ "" then (w1.issue (.DeleteChain entryNode.ID tunnel.ChainID)).2
            else w1
          let w3 := (w2.issue (.SaveConfig entryNode.ID)).2
          let w4 := (TunnelRepository.UpdateStatus w3 id TunnelStatusStopped).2
          (none, w4)

/-- Delete of `TunnelService`. -/
def TunnelService.Delete (w : World) (id : Nat) : Option Err × World :=
  match TunnelRepository.FindByID w id with
  | none => (some .ErrTunnelNotFound, w)
  | some tunnel =>
    let w1 :=
      if tunnel.Status = TunnelStatusRunning then (TunnelService.Stop w id).2 else w
    match TunnelRepository.Delete w1 id with
    | (some err, w2) => (some err, w2)
    | (none, w2) => (none, w2)

/-! ## Auxiliary definitions used in the statements -/

/-- The value of a string of decimal digits read from the left, starting from `a`
(unbounded integers). -/
def digitsValue : List Char → Int → Int
  | [], a => a
  | c :: cs, a => digitsValue cs (a * 10 + ((c.toNat : Int) - ('0'.toNat : Int)))

/-- The name prefix of the services that carry the rules of a table. -/
def servicePrefix : Table → String
  | .gost_forwards => "forward-"
  | .gost_tunnels => "tunnel-"

/-- The columns written by `UpdateStats` for the values `i`, `o`, `c` of a report. -/
def statsFields (i o c : Int) : List (String × Value) :=
  [("input_bytes", .int i), ("output_bytes", .int o),
   ("total_bytes", .int (wrapInt64 (i + o))), ("total_requests", .int c)]

/-- The stats event a node sends for the service of rule `n` of a table. -/
def statsEvent (table : Table) (n : Nat) (i o c : Int) : ObserverEvent :=
  { Type_ := "stats", Service := servicePrefix table ++ toString n,
    Stats := some { InputBytes := i, OutputBytes := o, TotalConns := c } }

/-- The traffic counters (input_bytes, output_bytes, total_bytes, total_requests) stored
in row `n` of a table, `none` when there is no such row. -/
def rowStats (w : World) (table : Table) (n : Nat) : Option (Int × Int × Int × Int) :=
  match table with
  | .gost_forwards =>
    (ForwardRepository.FindByID w n).map fun f =>
      (f.InputBytes, f.OutputBytes, f.TotalBytes, f.TotalRequests)
  | .gost_tunnels =>
    (TunnelRepository.FindByID w n).map fun t =>
      (t.InputBytes, t.OutputBytes, t.TotalBytes, t.TotalRequests)

/-- The chains declared on node `node` after the calls `log` (the first of them issued as
call number `k`), starting from the chains `chains`: an accepted `createChain` declares the
chain it names, an accepted `deleteChain` removes the chain of that name (the contract of the
per-node client: "declare/remove a named ordered hop list"). -/
def nodeChains (fails : Nat → Call → Bool) (node : Nat) :
    List Call → Nat → List String → List String
  | [], _, chains => chains
  | c :: rest, k, chains =>
    nodeChains fails node rest (k + 1)
      (match c with
       | .CreateChain nd chain =>
         if nd = node ∧ fails k c = false then chain.Name :: chains else chains
       | .DeleteChain nd name =>
         if nd = node ∧ fails k c = false then chains.filter (fun x => x ≠ name) else chains
       | _ => chains)

/-- The attributes of a forward row that Stop is said to leave alone: service_id,
observer_id and the four traffic counters. -/
def forwardKept (f : GostForward) : String × String × Int × Int × Int × Int :=
  (f.ServiceID, f.ObserverID, f.InputBytes, f.OutputBytes, f.TotalBytes, f.TotalRequests)

/-- The attributes of a tunnel row that Stop is said to leave alone: service_id, chain_id,
observer_id and the four traffic counters. -/
def tunnelKept (t : GostTunnel) : String × String × String × Int × Int × Int × Int :=
  (t.ServiceID, t.ChainID, t.ObserverID, t.InputBytes, t.OutputBytes, t.TotalBytes,
    t.TotalRequests)

/-- The observers named in the `createObserver` calls of a call log, oldest first. -/
def observerNames (calls : List Call) : List String :=
  calls.filterMap fun c =>
    match c with
    | .CreateObserver _ observer => some observer.Name
    | _ => none

/-- The chain names of the `deleteChain` calls of a call log sent to node `node`. -/
def deletedChains (node : Nat) (calls : List Call) : List String :=
  calls.filterMap fun c =>
    match c with
    | .DeleteChain nd name => if nd = node then some name else none
    | _ => none

/-- The string `u` with one leading "http://" or "https://" removed, in the words of the
specification. -/
def withoutScheme (u : String) : String :=
  if "http://".data <+: u.data then ⟨u.data.drop 7⟩
  else if "https://".data <+: u.data then ⟨u.data.drop 8⟩
  else u

/-- The authority of `u` in the words of the specification: `u` with one leading scheme
removed and then cut before its first '/'. -/
def authorityOf (u : String) : String :=
  ⟨(withoutScheme u).data.takeWhile fun c => c ≠ '/'⟩

/-- The status syncForwardStatus computes for a forward row from the service-state map. -/
def mappedForwardStatus (m : List (String × String)) (f : GostForward) : ForwardStatus :=
  GostStateToForwardStatus
    (mapGet "" m (if f.ServiceID = "" then "forward-" ++ toString f.ID else f.ServiceID))

/-- The status syncTunnelStatus computes for a tunnel row from the service-state map and the
chain set. -/
def mappedTunnelStatus (m : List (String × String)) (rc : List (String × Bool))
    (t : GostTunnel) : TunnelStatus :=
  GostStateToTunnelStatus (mapGet "" m t.ServiceID) (mapGet false rc t.ChainID)

/-- A forward row as one reconciliation of node `nodeID` leaves it: the rows of that node get
the mapped status, the others are as they were. -/
def reconciledForward (nodeID : Nat) (m : List (String × String)) (f : GostForward) :
    GostForward :=
  if f.NodeID = nodeID then { f with Status := mappedForwardStatus m f } else f

/-- A tunnel row as one reconciliation of node `nodeID` leaves it: the rows entering at that
node get the mapped status, the others are as they were. -/
def reconciledTunnel (nodeID : Nat) (m : List (String × String)) (rc : List (String × Bool))
    (t : GostTunnel) : GostTunnel :=
  if t.EntryNodeID = nodeID then { t with Status := mappedTunnelStatus m rc t } else t

/-- The names of the services in the `createService` calls of a call log, oldest first. -/
def createdServices (calls : List Call) : List String :=
  calls.filterMap fun c =>
    match c with
    | .CreateService _ svc => some svc.Name
    | _ => none

/-- The state the fetched configuration reports for the service `name`, in the words of the
specification: the state of the last listed service of that name, "stopped" when the node
attached no status to it, and the empty state when no listed service bears the name. -/
def reportedState (services : List ReportedService) (name : String) : String :=
  match services.reverse.find? fun svc => svc.Name = name with
  | some svc =>
    (match svc.Status with
     | some st => st
     | none => "stopped")
  | none => ""

/-! ## Sample data used to evaluate the definitions -/

/-- A tunnel row from node 1 to node 2 whose service and chain ids follow the naming
convention. -/
def sampleTunnel (id : Nat) (status : TunnelStatus) : GostTunnel :=
  { ID := id, Name := "t", EntryNodeID := 1, ExitNodeID := 2, Protocol := "tcp",
    ListenPort := 9000, Targets := ["10.0.0.9:80"], Strategy := "round", RelayPort := 8443,
    Status := status, ServiceID := "tunnel-" ++ toString id,
    ChainID := "chain-tunnel-" ++ toString id, ObserverID := "",
    InputBytes := 0, OutputBytes := 0, TotalBytes := 0, TotalRequests := 0, Remark := "" }

/-- A forward row on node 1 that was never started (no service id on record). -/
def sampleForward (id : Nat) (status : ForwardStatus) : GostForward :=
  { ID := id, NodeID := 1, Name := "f", Protocol := "tcp", ListenPort := 8080,
    Targets := ["10.0.0.9:80"], Strategy := "round", EnableTLS := false, Status := status,
    ServiceID := "", ObserverID := "",
    InputBytes := 0, OutputBytes := 0, TotalBytes := 0, TotalRequests := 0, Remark := "" }

/-- Node 1, online, without relay port. -/
def sampleNode1 : GostNode :=
  { ID := 1, Name := "n1", APIURL := "http://10.0.0.1:18080", Username := "u", Password := "p",
    Status := "online", RelayPort := 0, Remark := "" }

/-- Node 2, online, offering a relay port. -/
def sampleNode2 : GostNode :=
  { ID := 2, Name := "n2", APIURL := "http://10.0.0.2:18080/api", Username := "u",
    Password := "p", Status := "online", RelayPort := 8443, Remark := "" }

/-- The two registered nodes. -/
def sampleNodes : List GostNode := [sampleNode1, sampleNode2]

/-- A world with the given rows in which no call has been issued yet and every call
succeeds. -/
def sampleWorld (forwards : List GostForward) (tunnels : List GostTunnel)
    (sysConfig : Option SystemConfig) : World :=
  { forwards := forwards, tunnels := tunnels, nodes := sampleNodes, sysConfig := sysConfig,
    calls := [], fails := fun _ _ => false }

/-- A world holding Forward 42 in which the first call issued fails and every later call
succeeds. -/
def flakyWorld : World :=
  { sampleWorld [sampleForward 42 "running"] [] none with fails := fun k _ => decide (k = 0) }

/-- A stats event whose service name does not follow the naming convention. -/
def malformedEvent (service : String) : ObserverEvent :=
  { Type_ := "stats", Service := service,
    Stats := some { InputBytes := 1, OutputBytes := 2, TotalConns := 3 } }

/-- A world with the given rows and a configured panel URL in which every `createService`
call fails and every other call succeeds. -/
def serviceFailingWorld (forwards : List GostForward) (tunnels : List GostTunnel) : World :=
  { sampleWorld forwards tunnels (some { PanelURL := "http://panel.example" }) with
    fails := fun _ c => match c with
      | .CreateService _ _ => true
      | _ => false }

/-- A world over the given registered nodes with a configured panel URL in which no call
has been issued yet and every call succeeds. -/
def worldOn (nodes : List GostNode) (forwards : List GostForward)
    (tunnels : List GostTunnel) : World :=
  { forwards := forwards, tunnels := tunnels, nodes := nodes,
    sysConfig := some { PanelURL := "http://panel.example" },
    calls := [], fails := fun _ _ => false }

/-- A world with the given rows and a configured panel URL in which every `createObserver`
call fails and every other call succeeds. -/
def observerFailingWorld (forwards : List GostForward) (tunnels : List GostTunnel) : World :=
  { sampleWorld forwards tunnels (some { PanelURL := "http://panel.example" }) with
    fails := fun _ c => match c with
      | .CreateObserver _ _ => true
      | _ => false }

/-- A world with the given rows in which every call of the per-node client fails and the
store accepts every write. -/
def remoteFailingWorld (forwards : List GostForward) (tunnels : List GostTunnel) : World :=
  { sampleWorld forwards tunnels (some { PanelURL := "http://panel.example" }) with
    fails := fun _ c => c.isRemote }

/-- A request for a forward of port 8080 on the given node. -/
def sampleCreateForwardReq (nodeID : Nat) : CreateForwardReq :=
  { NodeID := nodeID, Name := "web", Protocol := "tcp", ListenPort := 8080,
    Targets := ["10.0.0.9:80"], Strategy := "round", EnableTLS := false, Remark := "" }

/-- A request for a tunnel between the given nodes entering at port 9000. -/
def sampleCreateTunnelReq (entry exit : Nat) : CreateTunnelReq :=
  { Name := "t", EntryNodeID := entry, ExitNodeID := exit, Protocol := "tcp",
    EntryPort := 9000, Targets := ["10.0.0.9:80"], Strategy := "round", Remark := "" }

/-- An update request for a tunnel between the given nodes entering at port 9001. -/
def sampleUpdateTunnelReq (entry exit : Nat) : UpdateTunnelReq :=
  { Name := "t2", EntryNodeID := entry, ExitNodeID := exit, Protocol := "udp",
    EntryPort := 9001, Targets := ["10.0.0.8:53"], Strategy := "round", Remark := "r" }

/-- An update request for a forward. -/
def sampleUpdateForwardReq : UpdateForwardReq :=
  { Name := "web2", Protocol := "udp", ListenPort := 8081, Targets := ["10.0.0.8:53"],
    Strategy := "round", EnableTLS := true, Remark := "r" }

/-- Node 1 in status `error`. -/
def sampleNode1Error : GostNode := { sampleNode1 with Status := "error" }

/-- Node 2 in status `error`. -/
def sampleNode2Error : GostNode := { sampleNode2 with Status := "error" }

/-- Node 1 in status `offline`. -/
def sampleNode1Offline : GostNode := { sampleNode1 with Status := "offline" }

/-- Node 2 in status `offline`. -/
def sampleNode2Offline : GostNode := { sampleNode2 with Status := "offline" }

/-- A world in which a tunnel entering at node 2 already listens on port 9000 and node 1,
the exit node of the sample request from node 2 to node 1, has no relay port. -/
def portTakenWorld : World :=
  worldOn sampleNodes [] [{ sampleTunnel 3 "stopped" with EntryNodeID := 2, ExitNodeID := 1 }]

/-- A world in which every write sent to the store fails and every call of the per-node
client succeeds. -/
def storeFailingWorld (forwards : List GostForward) (tunnels : List GostTunnel) : World :=
  { sampleWorld forwards tunnels (some { PanelURL := "http://panel.example" }) with
    fails := fun _ c => !c.isRemote }

/-- A tunnel row from node 1 to node 2 that was never started: no service id and no chain
id on record. -/
def unstartedTunnel (id : Nat) (status : TunnelStatus) : GostTunnel :=
  { sampleTunnel id status with ServiceID := "", ChainID := "" }

/-- A node configuration reporting the one service `service` in state `state` and the one
chain `chain`. -/
def sampleConfig (service state chain : String) : Config :=
  { Services := [{ Name := service, Status := some state }], Chains := [chain] }

/-- A node configuration reporting the services "forward-7" (ready), "tunnel-3" (running)
and "tunnel-4" (running) and the one chain "chain-tunnel-3". -/
def reportedConfig : Config :=
  { Services := [{ Name := "forward-7", Status := some "ready" },
                 { Name := "tunnel-3", Status := some "running" },
                 { Name := "tunnel-4", Status := some "running" }],
    Chains := ["chain-tunnel-3"] }

/-! ## Theorems -/

/-! ### Rows and column updates -/

theorem find_map_update {α : Type} (key : α → Nat) (g : α → α) (hg : ∀ a, key (g a) = key a)
    (l : List α) (id j : Nat) :
    (l.map fun a => if key a = id then g a else a).find? (fun a => key a == j) =
      (l.find? fun a => key a == j).map fun a => if key a = id then g a else a := by
  induction l with
  | nil => rfl
  | cons a l ih =>
    have hk : key (if key a = id then g a else a) = key a := by
      split
      · exact hg a
      · rfl
    have hb : (key (if key a = id then g a else a) == j) = (key a == j) := by rw [hk]
    rw [List.map_cons, List.find?_cons, List.find?_cons, hb]
    cases hj : (key a == j)
    · simpa using ih
    · rfl

theorem setForwardField_ID (f : GostForward) (column : String) (v : Value) :
    (setForwardField f column v).ID = f.ID := by
  unfold setForwardField
  cases v <;> simp only [] <;> repeat (first | rfl | split)

theorem setTunnelField_ID (t : GostTunnel) (column : String) (v : Value) :
    (setTunnelField t column v).ID = t.ID := by
  unfold setTunnelField
  cases v <;> simp only [] <;> repeat (first | rfl | split)

theorem foldl_setForwardField_ID (fields : List (String × Value)) (f : GostForward) :
    (fields.foldl (fun r kv => setForwardField r kv.1 kv.2) f).ID = f.ID := by
  induction fields generalizing f with
  | nil => rfl
  | cons kv rest ih => simp only [List.foldl_cons]; rw [ih, setForwardField_ID]

theorem foldl_setTunnelField_ID (fields : List (String × Value)) (t : GostTunnel) :
    (fields.foldl (fun r kv => setTunnelField r kv.1 kv.2) t).ID = t.ID := by
  induction fields generalizing t with
  | nil => rfl
  | cons kv rest ih => simp only [List.foldl_cons]; rw [ih, setTunnelField_ID]

/-- Reading a forward row after a column update of the forwards table. -/
theorem findForward_applyUpdate (w : World) (id j : Nat) (fields : List (String × Value)) :
    ForwardRepository.FindByID (w.applyUpdate .gost_forwards id fields) j =
      (ForwardRepository.FindByID w j).map fun f =>
        if f.ID = id then fields.foldl (fun r kv => setForwardField r kv.1 kv.2) f else f := by
  unfold ForwardRepository.FindByID World.applyUpdate
  exact find_map_update GostForward.ID _ (foldl_setForwardField_ID fields) w.forwards id j

/-- Reading a tunnel row after a column update of the tunnels table. -/
theorem findTunnel_applyUpdate (w : World) (id j : Nat) (fields : List (String × Value)) :
    TunnelRepository.FindByID (w.applyUpdate .gost_tunnels id fields) j =
      (TunnelRepository.FindByID w j).map fun t =>
        if t.ID = id then fields.foldl (fun r kv => setTunnelField r kv.1 kv.2) t else t := by
  unfold TunnelRepository.FindByID World.applyUpdate
  exact find_map_update GostTunnel.ID _ (foldl_setTunnelField_ID fields) w.tunnels id j

theorem findForward_ID {w : World} {id : Nat} {f : GostForward}
    (h : ForwardRepository.FindByID w id = some f) : f.ID = id := by
  unfold ForwardRepository.FindByID at h
  have := List.find?_some h
  simpa using this

theorem findTunnel_ID {w : World} {id : Nat} {t : GostTunnel}
    (h : TunnelRepository.FindByID w id = some t) : t.ID = id := by
  unfold TunnelRepository.FindByID at h
  have := List.find?_some h
  simpa using this

/-- A column update accepted by the store: the call is logged and the columns are set. -/
theorem UpdateFields_ok (w : World) (table : Table) (id : Nat) (fields : List (String × Value))
    (h : w.fails w.calls.length (.UpdateFields table id fields) = false) :
    BaseRepository.UpdateFields w table id fields =
      (none, (w.logged (.UpdateFields table id fields)).applyUpdate table id fields) := by
  simp [BaseRepository.UpdateFields, World.issue, h]

/-- A column update refused by the store: the call is logged and no row changes. -/
theorem UpdateFields_fail (w : World) (table : Table) (id : Nat) (fields : List (String × Value))
    (h : w.fails w.calls.length (.UpdateFields table id fields) = true) :
    BaseRepository.UpdateFields w table id fields =
      (some .ErrDatabase, w.logged (.UpdateFields table id fields)) := by
  simp [BaseRepository.UpdateFields, World.issue, h]

theorem UpdateFields_calls (w : World) (table : Table) (id : Nat)
    (fields : List (String × Value)) :
    (BaseRepository.UpdateFields w table id fields).2.calls =
      w.calls ++ [.UpdateFields table id fields] := by
  cases h : w.fails w.calls.length (.UpdateFields table id fields)
  · rw [UpdateFields_ok w table id fields h]; cases table <;> rfl
  · rw [UpdateFields_fail w table id fields h]; rfl

theorem UpdateFields_fails (w : World) (table : Table) (id : Nat)
    (fields : List (String × Value)) :
    (BaseRepository.UpdateFields w table id fields).2.fails = w.fails := by
  cases h : w.fails w.calls.length (.UpdateFields table id fields)
  · rw [UpdateFields_ok w table id fields h]; cases table <;> rfl
  · rw [UpdateFields_fail w table id fields h]; rfl

theorem UpdateFields_nodes (w : World) (table : Table) (id : Nat)
    (fields : List (String × Value)) :
    (BaseRepository.UpdateFields w table id fields).2.nodes = w.nodes := by
  cases h : w.fails w.calls.length (.UpdateFields table id fields)
  · rw [UpdateFields_ok w table id fields h]; cases table <;> rfl
  · rw [UpdateFields_fail w table id fields h]; rfl

theorem UpdateFields_sysConfig (w : World) (table : Table) (id : Nat)
    (fields : List (String × Value)) :
    (BaseRepository.UpdateFields w table id fields).2.sysConfig = w.sysConfig := by
  cases h : w.fails w.calls.length (.UpdateFields table id fields)
  · rw [UpdateFields_ok w table id fields h]; cases table <;> rfl
  · rw [UpdateFields_fail w table id fields h]; rfl

/-- Reading a forward row after a column update of the forwards table, accepted or not. -/
theorem findForward_UpdateFields (w : World) (id j : Nat) (fields : List (String × Value)) :
    ForwardRepository.FindByID (BaseRepository.UpdateFields w .gost_forwards id fields).2 j =
      if w.fails w.calls.length (.UpdateFields .gost_forwards id fields) = true then
        ForwardRepository.FindByID w j
      else
        (ForwardRepository.FindByID w j).map fun f =>
          if f.ID = id then fields.foldl (fun r kv => setForwardField r kv.1 kv.2) f else f := by
  cases h : w.fails w.calls.length (.UpdateFields .gost_forwards id fields)
  · rw [UpdateFields_ok w _ id fields h, if_neg (by simp)]
    simp only []
    rw [findForward_applyUpdate]
    rfl
  · rw [UpdateFields_fail w _ id fields h, if_pos rfl]; rfl

/-- Reading a tunnel row after a column update of the tunnels table, accepted or not. -/
theorem findTunnel_UpdateFields (w : World) (id j : Nat) (fields : List (String × Value)) :
    TunnelRepository.FindByID (BaseRepository.UpdateFields w .gost_tunnels id fields).2 j =
      if w.fails w.calls.length (.UpdateFields .gost_tunnels id fields) = true then
        TunnelRepository.FindByID w j
      else
        (TunnelRepository.FindByID w j).map fun t =>
          if t.ID = id then fields.foldl (fun r kv => setTunnelField r kv.1 kv.2) t else t := by
  cases h : w.fails w.calls.length (.UpdateFields .gost_tunnels id fields)
  · rw [UpdateFields_ok w _ id fields h, if_neg (by simp)]
    simp only []
    rw [findTunnel_applyUpdate]
    rfl
  · rw [UpdateFields_fail w _ id fields h, if_pos rfl]; rfl

theorem setForwardField_ServiceID (f : GostForward) (column : String) (v : Value)
    (h : column ≠ "service_id") : (setForwardField f column v).ServiceID = f.ServiceID := by
  unfold setForwardField
  cases v <;> simp only [] <;> repeat (first | rfl | split | contradiction)

theorem setTunnelField_ServiceID (t : GostTunnel) (column : String) (v : Value)
    (h : column ≠ "service_id") : (setTunnelField t column v).ServiceID = t.ServiceID := by
  unfold setTunnelField
  cases v <;> simp only [] <;> repeat (first | rfl | split | contradiction)

theorem setTunnelField_ChainID (t : GostTunnel) (column : String) (v : Value)
    (h : column ≠ "chain_id") : (setTunnelField t column v).ChainID = t.ChainID := by
  unfold setTunnelField
  cases v <;> simp only [] <;> repeat (first | rfl | split | contradiction)

/-- A column update of the forwards table leaves every attribute of a row that the written
columns do not touch as it was, whether the store accepts the update or not. -/
theorem findForward_UpdateFields_frame {α : Type} (proj : GostForward → α) (w : World)
    (id j : Nat) (fields : List (String × Value))
    (h : ∀ f, proj (fields.foldl (fun r kv => setForwardField r kv.1 kv.2) f) = proj f) :
    (ForwardRepository.FindByID
        (BaseRepository.UpdateFields w .gost_forwards id fields).2 j).map proj =
      (ForwardRepository.FindByID w j).map proj := by
  rw [findForward_UpdateFields]
  split
  · rfl
  · cases ForwardRepository.FindByID w j with
    | none => rfl
    | some f =>
      simp only [Option.map_some']
      split
      · rw [h]
      · rfl

/-- The same frame property for the tunnels table. -/
theorem findTunnel_UpdateFields_frame {α : Type} (proj : GostTunnel → α) (w : World)
    (id j : Nat) (fields : List (String × Value))
    (h : ∀ t, proj (fields.foldl (fun r kv => setTunnelField r kv.1 kv.2) t) = proj t) :
    (TunnelRepository.FindByID
        (BaseRepository.UpdateFields w .gost_tunnels id fields).2 j).map proj =
      (TunnelRepository.FindByID w j).map proj := by
  rw [findTunnel_UpdateFields]
  split
  · rfl
  · cases TunnelRepository.FindByID w j with
    | none => rfl
    | some t =>
      simp only [Option.map_some']
      split
      · rw [h]
      · rfl

/-- The frame property for a one-column update of the forwards table. -/
theorem findForward_UpdateField_frame {α : Type} (proj : GostForward → α) (w : World)
    (id j : Nat) (column : String) (v : Value)
    (h : ∀ f, proj (setForwardField f column v) = proj f) :
    (ForwardRepository.FindByID
        (BaseRepository.UpdateFields w .gost_forwards id [(column, v)]).2 j).map proj =
      (ForwardRepository.FindByID w j).map proj :=
  findForward_UpdateFields_frame proj w id j [(column, v)] (fun f => h f)

/-- The frame property for a one-column update of the tunnels table. -/
theorem findTunnel_UpdateField_frame {α : Type} (proj : GostTunnel → α) (w : World)
    (id j : Nat) (column : String) (v : Value)
    (h : ∀ t, proj (setTunnelField t column v) = proj t) :
    (TunnelRepository.FindByID
        (BaseRepository.UpdateFields w .gost_tunnels id [(column, v)]).2 j).map proj =
      (TunnelRepository.FindByID w j).map proj :=
  findTunnel_UpdateFields_frame proj w id j [(column, v)] (fun t => h t)

theorem findForward_logged (w : World) (c : Call) (j : Nat) :
    ForwardRepository.FindByID (w.logged c) j = ForwardRepository.FindByID w j := rfl

theorem findTunnel_logged (w : World) (c : Call) (j : Nat) :
    TunnelRepository.FindByID (w.logged c) j = TunnelRepository.FindByID w j := rfl

theorem logged_calls (w : World) (c : Call) : (w.logged c).calls = w.calls ++ [c] := rfl

theorem logged_fails (w : World) (c : Call) : (w.logged c).fails = w.fails := rfl

theorem logged_sysConfig (w : World) (c : Call) : (w.logged c).sysConfig = w.sysConfig := rfl

theorem issue_ok (w : World) (c : Call) (h : w.fails w.calls.length c = false) :
    w.issue c = (true, w.logged c) := by
  simp [World.issue, h]

theorem issue_fail (w : World) (c : Call) (h : w.fails w.calls.length c = true) :
    w.issue c = (false, w.logged c) := by
  simp [World.issue, h]

theorem issue_snd (w : World) (c : Call) : (w.issue c).2 = w.logged c := rfl

/-! ### Status mapping and reconciliation -/

/-- C1: GostStateToForwardStatus is a total function; for every string `s` it returns
`running` exactly when `s` is "ready" or "running", `error` exactly when `s` is "failed",
and `stopped` exactly for every other string, the empty string (absent service) included. -/
theorem GostStateToForwardStatus_spec (s : String) :
    (GostStateToForwardStatus s = ForwardStatusRunning ↔ (s = "ready" ∨ s = "running")) ∧
    (GostStateToForwardStatus s = ForwardStatusError ↔ s = "failed") ∧
    (GostStateToForwardStatus s = ForwardStatusStopped ↔
      ¬ (s = "ready" ∨ s = "running" ∨ s = "failed")) ∧
    GostStateToForwardStatus "" = ForwardStatusStopped := by
  unfold GostStateToForwardStatus
  by_cases h1 : s = "ready" ∨ s = "running"
  · simp only [h1, if_true]
    rcases h1 with h | h <;> subst h <;> decide
  · by_cases h2 : s = "failed"
    · subst h2; decide
    · have h3 : ¬ (s = "ready" ∨ s = "running" ∨ s = "failed") := by
        intro h; rcases h with h | h | h
        · exact h1 (Or.inl h)
        · exact h1 (Or.inr h)
        · exact h2 h
      rw [if_neg h1, if_neg h2]
      refine ⟨?_, ?_, ?_, by decide⟩
      · exact ⟨fun h => absurd h (by decide), fun h => absurd h h1⟩
      · exact ⟨fun h => absurd h (by decide), fun h => absurd h h2⟩
      · exact ⟨fun _ => h3, fun _ => rfl⟩

/-- C2: GostStateToTunnelStatus returns `running` if and only if the state is "ready" or
"running" and the chain exists; for such a state without the chain it returns `error`, which
is neither `running` nor `stopped`. Consequently syncTunnelStatus, run on a stored tunnel
whose service is reported "ready" or "running" while its chain_id is not in the reported
chain set, leaves the row with status `error` (all other columns as they were), the store
accepting its updates. -/
theorem GostStateToTunnelStatus_spec :
    (∀ (s : String) (chainExists : Bool),
      (GostStateToTunnelStatus s chainExists = TunnelStatusRunning ↔
        (s = "ready" ∨ s = "running") ∧ chainExists = true) ∧
      ((s = "ready" ∨ s = "running") →
        GostStateToTunnelStatus s false = TunnelStatusError)) ∧
    TunnelStatusError ≠ TunnelStatusRunning ∧ TunnelStatusError ≠ TunnelStatusStopped ∧
    (∀ (w : World) (t : GostTunnel) (serviceStates : List (String × String))
        (runningChains : List (String × Bool)),
      TunnelRepository.FindByID w t.ID = some t →
      (mapGet "" serviceStates t.ServiceID = "ready" ∨
        mapGet "" serviceStates t.ServiceID = "running") →
      mapGet false runningChains t.ChainID = false →
      w.storeReliable →
      TunnelRepository.FindByID
          (RuleSyncService.syncTunnelStatus w t serviceStates runningChains) t.ID =
        some { t with Status := TunnelStatusError }) := by
  refine ⟨?_, by decide, by decide, ?_⟩
  · intro s chainExists
    refine ⟨?_, fun h1 => ?_⟩
    · unfold GostStateToTunnelStatus
      by_cases h1 : s = "ready" ∨ s = "running"
      · rw [if_pos h1]
        cases chainExists
        · exact ⟨fun h => absurd h (by decide), fun h => absurd h.2 (by decide)⟩
        · exact ⟨fun _ => ⟨h1, rfl⟩, fun _ => rfl⟩
      · rw [if_neg h1]
        refine ⟨fun h => ?_, fun h => absurd h.1 h1⟩
        by_cases h2 : s = "failed"
        · rw [if_pos h2] at h; exact absurd h (by decide)
        · rw [if_neg h2] at h; exact absurd h (by decide)
    · unfold GostStateToTunnelStatus
      rw [if_pos h1]; rfl
  · intro w t serviceStates runningChains hstored hstate hchain hrel
    have hnew : GostStateToTunnelStatus (mapGet "" serviceStates t.ServiceID)
        (mapGet false runningChains t.ChainID) = TunnelStatusError := by
      rw [hchain]; unfold GostStateToTunnelStatus; rw [if_pos hstate]; rfl
    unfold RuleSyncService.syncTunnelStatus
    simp only [hnew]
    by_cases hst : t.Status = TunnelStatusError
    · rw [if_neg (not_not.mpr hst), hstored, ← hst]
    · rw [if_pos hst]
      unfold TunnelRepository.UpdateStatus BaseRepository.UpdateField
      rw [UpdateFields_ok _ _ _ _ (hrel _ _ _ _), findTunnel_applyUpdate]
      have hfind : TunnelRepository.FindByID
          (w.logged
          (Call.UpdateFields Table.gost_tunnels t.ID [("status", Value.str TunnelStatusError)]))
          t.ID = some t := hstored
      rw [hfind]
      simp [setTunnelField]

/-- Witness of C2: tunnel 3, recorded as running with service "tunnel-3" and chain
"chain-tunnel-3", against a node that reports the service running and no chain. -/
theorem GostStateToTunnelStatus_spec_witness :
    TunnelRepository.FindByID
      (RuleSyncService.syncTunnelStatus (sampleWorld [] [sampleTunnel 3 "running"] none)
        (sampleTunnel 3 "running") [("tunnel-3", "running")] []) 3 =
      some { sampleTunnel 3 "running" with Status := "error" } :=
  GostStateToTunnelStatus_spec.2.2.2 (sampleWorld [] [sampleTunnel 3 "running"] none)
    (sampleTunnel 3 "running") [("tunnel-3", "running")] []
    (by decide) (by decide) (by decide) (fun _ _ _ _ => rfl)

/-- C3: for every stored Forward `f` and every service-state map `m`, after
syncForwardStatus(f, m) the stored row of `f` is `f` with status
GostStateToForwardStatus(m[name]), where name is `f.service_id` when that is non-empty and
"forward-<f.ID>" otherwise, a name missing from `m` reading as the empty state (the store
accepting its updates). -/
theorem syncForwardStatus_spec (w : World) (f : GostForward) (m : List (String × String))
    (hstored : ForwardRepository.FindByID w f.ID = some f) (hrel : w.storeReliable) :
    ForwardRepository.FindByID (RuleSyncService.syncForwardStatus w f m) f.ID =
      some { f with
        Status := GostStateToForwardStatus (mapGet "" m
          (if f.ServiceID = "" then "forward-" ++ toString f.ID else f.ServiceID)) } := by
  unfold RuleSyncService.syncForwardStatus
  simp only []
  generalize GostStateToForwardStatus
    (mapGet "" m (if f.ServiceID = "" then "forward-" ++ toString f.ID else f.ServiceID)) = st
  by_cases hst : f.Status = st
  · rw [if_neg (not_not.mpr hst), hstored, ← hst]
  · rw [if_pos hst]
    unfold ForwardRepository.UpdateStatus BaseRepository.UpdateField
    rw [UpdateFields_ok _ _ _ _ (hrel _ _ _ _), findForward_applyUpdate]
    have hfind : ForwardRepository.FindByID
        (w.logged
          (Call.UpdateFields Table.gost_forwards f.ID [("status", Value.str st)]))
        f.ID = some f := hstored
    rw [hfind]
    simp [setForwardField]

/-- Witness of C3: Forward 7 with empty service_id and stored status `stopped` becomes
`running` when the map binds "forward-7" to "ready", and stays `stopped` when "forward-7" is
absent from the map. -/
theorem syncForwardStatus_spec_witness :
    ForwardRepository.FindByID
        (RuleSyncService.syncForwardStatus (sampleWorld [sampleForward 7 "stopped"] [] none)
          (sampleForward 7 "stopped") [("forward-7", "ready")]) 7 =
      some { sampleForward 7 "stopped" with Status := "running" } ∧
    ForwardRepository.FindByID
        (RuleSyncService.syncForwardStatus (sampleWorld [sampleForward 7 "stopped"] [] none)
          (sampleForward 7 "stopped") [("forward-8", "ready")]) 7 =
      some { sampleForward 7 "stopped" with Status := "stopped" } :=
  ⟨syncForwardStatus_spec (sampleWorld [sampleForward 7 "stopped"] [] none)
      (sampleForward 7 "stopped") [("forward-7", "ready")] (by decide) (fun _ _ _ _ => rfl),
   syncForwardStatus_spec (sampleWorld [sampleForward 7 "stopped"] [] none)
      (sampleForward 7 "stopped") [("forward-8", "ready")] (by decide) (fun _ _ _ _ => rfl)⟩

/-! ### Telemetry ingestion: parsing the service name -/

theorem wrapInt64_emod (x : Int) : wrapInt64 x % 2 ^ 64 = x % 2 ^ 64 := by
  unfold wrapInt64; omega

theorem wrapInt64_of_fits (x : Int) (h1 : -(2 ^ 63) ≤ x) (h2 : x < 2 ^ 63) : wrapInt64 x = x := by
  unfold wrapInt64; omega

theorem digitChar_isDigit (d : Nat) (hd : d < 10) :
    ¬ (Nat.digitChar d < '0' ∨ Nat.digitChar d > '9') := by
  interval_cases d <;> decide

theorem digitChar_value (d : Nat) (hd : d < 10) :
    ((Nat.digitChar d).toNat : Int) - ('0'.toNat : Int) = d := by
  interval_cases d <;> decide

/-- On a string of decimal digits the loop of parseUint runs to the end and its result is
the value of the digits modulo 2^64. -/
theorem parseUintLoop_digits (cs : List Char) (hcs : ∀ c ∈ cs, ¬ (c < '0' ∨ c > '9')) :
    ∀ (n a : Int), n % 2 ^ 64 = a % 2 ^ 64 →
      ∃ r, parseUintLoop cs n = some r ∧ r % 2 ^ 64 = digitsValue cs a % 2 ^ 64 := by
  induction cs with
  | nil => intro n a h; exact ⟨n, rfl, h⟩
  | cons c cs ih =>
    intro n a h
    have hc := hcs c (List.mem_cons_self c cs)
    simp only [parseUintLoop, if_neg hc, digitsValue]
    apply ih (fun c hc => hcs c (List.mem_cons_of_mem _ hc))
    rw [wrapInt64_emod]
    omega

theorem toDigitsCore_isDigit (fuel : Nat) :
    ∀ (n : Nat) (ds : List Char), (∀ c ∈ ds, ¬ (c < '0' ∨ c > '9')) →
      ∀ c ∈ Nat.toDigitsCore 10 fuel n ds, ¬ (c < '0' ∨ c > '9') := by
  induction fuel with
  | zero => intro n ds h; simpa [Nat.toDigitsCore] using h
  | succ fuel ih =>
    intro n ds h
    have hd := digitChar_isDigit (n % 10) (Nat.mod_lt _ (by decide))
    have h2 : ∀ c ∈ Nat.digitChar (n % 10) :: ds, ¬ (c < '0' ∨ c > '9') := by
      intro c hc
      rcases List.mem_cons.mp hc with rfl | hc
      · exact hd
      · exact h c hc
    simp only [Nat.toDigitsCore]
    split
    · exact h2
    · exact ih _ _ h2

theorem toDigitsCore_value (fuel : Nat) :
    ∀ (n : Nat) (ds : List Char), n < fuel →
      digitsValue (Nat.toDigitsCore 10 fuel n ds) 0 = digitsValue ds n := by
  induction fuel with
  | zero => intro n ds h; omega
  | succ fuel ih =>
    intro n ds h
    have hv := digitChar_value (n % 10) (Nat.mod_lt _ (by decide))
    simp only [Nat.toDigitsCore]
    split
    · next h0 =>
      simp only [digitsValue, hv]
      congr 1
      omega
    · next h0 =>
      rw [ih (n / 10) _ (by omega)]
      simp only [digitsValue, hv]
      congr 1
      omega

/-- parseUint reads back the decimal representation of `n` as `n` modulo 2^64. -/
theorem parseUint_toString (n r : Nat) :
    parseUint (toString n) r = ((true, none), n % 2 ^ 64) := by
  have hdig : ∀ c ∈ (toString n).data, ¬ (c < '0' ∨ c > '9') :=
    toDigitsCore_isDigit (n + 1) n [] (by simp)
  obtain ⟨v, hv, hmod⟩ := parseUintLoop_digits (toString n).data hdig 0 0 rfl
  have hval : digitsValue (toString n).data 0 = n := by
    have := toDigitsCore_value (n + 1) n [] (Nat.lt_succ_self n)
    simpa [digitsValue] using this
  unfold parseUint
  rw [hv]
  have hnat : ((n : Int) % 2 ^ 64).toNat = n % 2 ^ 64 := by omega
  simp only [uintOfInt, hmod, hval, hnat]

theorem HasPrefix_append (pfx s : String) : HasPrefix (pfx ++ s) pfx = true := by
  unfold HasPrefix
  rw [String.data_append]
  exact List.isPrefixOf_iff_prefix.mpr (List.prefix_append _ _)

theorem TrimPrefix_append (pfx s : String) : TrimPrefix (pfx ++ s) pfx = s := by
  unfold TrimPrefix
  rw [HasPrefix_append, if_pos rfl, String.data_append, List.drop_left]

/-- The naming convention read back: the name derived from rule id `n` parses to `n`
modulo 2^64, without error. -/
theorem parseServiceID_toString (pfx : String) (n r : Nat) :
    parseServiceID (pfx ++ toString n) pfx r = ((true, none), n % 2 ^ 64) := by
  unfold parseServiceID
  simp only [HasPrefix_append, TrimPrefix_append, parseUint_toString]
  rfl

/-- Processing the stats event of rule `n` of a table is exactly one `UpdateStats` on row
`n` of that table. -/
theorem processEvent_statsEvent (w : World) (table : Table) (n : Nat) (hn : n < 2 ^ 64)
    (i o c : Int) :
    ObserverService.processEvent w (statsEvent table n i o c) =
      BaseRepository.UpdateFields w table n (statsFields i o c) := by
  have hmod : n % 2 ^ 64 = n := Nat.mod_eq_of_lt hn
  have hne : ∀ t : Table, servicePrefix t ++ toString n ≠ "" := by
    intro t h
    have := congrArg String.length h
    cases t <;> simp [servicePrefix, String.length_append] at this <;>
      exact absurd this.1 (by decide)
  cases table
  · have hpre : HasPrefix ("forward-" ++ toString n) "forward-" = true := HasPrefix_append _ _
    have hp := parseServiceID_toString "forward-" n 0
    have hne1 := hne .gost_forwards
    simp only [servicePrefix] at hne1
    simp only [ObserverService.processEvent, statsEvent, servicePrefix, hpre, hne1,
      ObserverService.updateForwardStats, hp, hmod, ForwardRepository.UpdateStats, statsFields]
    simp
    rcases BaseRepository.UpdateFields w Table.gost_forwards n _ with ⟨e, w1⟩
    cases e <;> rfl
  · have hpre : HasPrefix ("tunnel-" ++ toString n) "tunnel-" = true := HasPrefix_append _ _
    have hnot : HasPrefix ("tunnel-" ++ toString n) "forward-" = false := by
      unfold HasPrefix
      rw [String.data_append]
      rfl
    have hp := parseServiceID_toString "tunnel-" n 0
    have hne1 := hne .gost_tunnels
    simp only [servicePrefix] at hne1
    simp only [ObserverService.processEvent, statsEvent, servicePrefix, hpre, hnot, hne1,
      ObserverService.updateTunnelStats, hp, hmod, TunnelRepository.UpdateStats, statsFields]
    simp
    rcases BaseRepository.UpdateFields w Table.gost_tunnels n _ with ⟨e, w1⟩
    cases e <;> rfl

/-! ### Telemetry ingestion: the batch loop -/

/-- An event either leaves the world as it is or is exactly one column update. -/
theorem processEvent_cases (w : World) (e : ObserverEvent) :
    (ObserverService.processEvent w e).2 = w ∨
    ∃ table id fields,
      ObserverService.processEvent w e = BaseRepository.UpdateFields w table id fields := by
  unfold ObserverService.processEvent
  split
  · exact Or.inl rfl
  · split
    · exact Or.inl rfl
    · next stats _ =>
      simp only []
      split
      · exact Or.inl rfl
      · split
        · unfold ObserverService.updateForwardStats
          rcases parseServiceID e.Service "forward-" 0 with ⟨⟨b, err⟩, id⟩
          cases err with
          | some err => exact Or.inl rfl
          | none =>
            refine Or.inr ⟨.gost_forwards, id, statsFields stats.InputBytes stats.OutputBytes
              stats.TotalConns, ?_⟩
            simp only [ForwardRepository.UpdateStats, statsFields]
            rcases BaseRepository.UpdateFields w Table.gost_forwards id _ with ⟨r, w1⟩
            cases r <;> rfl
        · split
          · unfold ObserverService.updateTunnelStats
            rcases parseServiceID e.Service "tunnel-" 0 with ⟨⟨b, err⟩, id⟩
            cases err with
            | some err => exact Or.inl rfl
            | none =>
              refine Or.inr ⟨.gost_tunnels, id, statsFields stats.InputBytes stats.OutputBytes
                stats.TotalConns, ?_⟩
              simp only [TunnelRepository.UpdateStats, statsFields]
              rcases BaseRepository.UpdateFields w Table.gost_tunnels id _ with ⟨r, w1⟩
              cases r <;> rfl
          · exact Or.inl rfl

theorem processEvent_fails (w : World) (e : ObserverEvent) :
    (ObserverService.processEvent w e).2.fails = w.fails := by
  rcases processEvent_cases w e with h | ⟨table, id, fields, h⟩
  · rw [h]
  · rw [h, UpdateFields_fails]

theorem handleEvents_fails (es : List ObserverEvent) :
    ∀ w : World, (ObserverService.handleEvents w es).fails = w.fails := by
  induction es with
  | nil => intro w; rfl
  | cons e es ih => intro w; simp only [ObserverService.handleEvents]; rw [ih, processEvent_fails]

theorem handleEvents_append (a b : List ObserverEvent) :
    ∀ w : World, ObserverService.handleEvents w (a ++ b) =
      ObserverService.handleEvents (ObserverService.handleEvents w a) b := by
  induction a with
  | nil => intro w; rfl
  | cons e a ih => intro w; exact ih (ObserverService.processEvent w e).2

theorem processEvent_calls (w : World) (e : ObserverEvent) :
    ∃ l, (ObserverService.processEvent w e).2.calls = w.calls ++ l := by
  rcases processEvent_cases w e with h | ⟨table, id, fields, h⟩
  · exact ⟨[], by rw [h, List.append_nil]⟩
  · exact ⟨_, by rw [h, UpdateFields_calls]⟩

theorem handleEvents_calls (es : List ObserverEvent) :
    ∀ w : World, ∃ l, (ObserverService.handleEvents w es).calls = w.calls ++ l := by
  induction es with
  | nil => intro w; exact ⟨[], by simp [ObserverService.handleEvents]⟩
  | cons e es ih =>
    intro w
    obtain ⟨l1, h1⟩ := processEvent_calls w e
    obtain ⟨l2, h2⟩ := ih (ObserverService.processEvent w e).2
    exact ⟨l1 ++ l2, by simp only [ObserverService.handleEvents]; rw [h2, h1, List.append_assoc]⟩

theorem storeReliable_of_fails {w w1 : World} (h : w1.fails = w.fails) (hrel : w.storeReliable) :
    w1.storeReliable := by
  intro k table id fields
  rw [h]
  exact hrel k table id fields

/-- Processing events never removes a forward row. -/
theorem processEvent_findForward_isSome (w : World) (e : ObserverEvent) (n : Nat)
    (h : (ForwardRepository.FindByID w n).isSome) :
    (ForwardRepository.FindByID (ObserverService.processEvent w e).2 n).isSome := by
  rcases processEvent_cases w e with h1 | ⟨table, id, fields, h1⟩
  · rw [h1]; exact h
  · rw [h1]
    cases hf : w.fails w.calls.length (.UpdateFields table id fields)
    · rw [UpdateFields_ok w table id fields hf]
      cases table
      · simp only []
        rw [findForward_applyUpdate]
        simpa [ForwardRepository.FindByID] using h
      · exact h
    · rw [UpdateFields_fail w table id fields hf]; exact h

theorem handleEvents_findForward_isSome (es : List ObserverEvent) (n : Nat) :
    ∀ w : World, (ForwardRepository.FindByID w n).isSome →
      (ForwardRepository.FindByID (ObserverService.handleEvents w es) n).isSome := by
  induction es with
  | nil => intro w h; exact h
  | cons e es ih =>
    intro w h
    exact ih _ (processEvent_findForward_isSome w e n h)

/-- Row `n` of the forwards table after an accepted `UpdateStats` on it. -/
theorem findForward_UpdateStats (w : World) (n : Nat) (i o c : Int) (g : GostForward)
    (hg : ForwardRepository.FindByID w n = some g)
    (hok : w.fails w.calls.length (.UpdateFields .gost_forwards n (statsFields i o c)) = false) :
    ForwardRepository.FindByID
        (BaseRepository.UpdateFields w .gost_forwards n (statsFields i o c)).2 n =
      some { g with InputBytes := i, OutputBytes := o, TotalBytes := wrapInt64 (i + o),
                    TotalRequests := c } := by
  rw [UpdateFields_ok w _ _ _ hok]
  simp only []
  rw [findForward_applyUpdate]
  have hfind : ForwardRepository.FindByID
      (w.logged
          (Call.UpdateFields Table.gost_forwards n (statsFields i o c))) n = some g := hg
  rw [hfind]
  simp [statsFields, setForwardField, findForward_ID hg]

/-- C4: for every world in which Forward `n` exists and every report whose last event is
the stats event of service "forward-<n>" with stats (i, o, c), after HandleReport the row
of Forward `n` is the row it was when the event was reached with input_bytes = i,
output_bytes = o, total_bytes = i + o (the `int64` sum, which is the exact sum whenever
that fits 64 bits) and total_requests = c: the values are overwritten, whatever the
counters were before and whatever the earlier events of the report did, never added (the
store accepting the update of this event). -/
theorem HandleReport_forward_stats (w : World) (pre : List ObserverEvent) (n : Nat)
    (i o c : Int) (hn : n < 2 ^ 64) (hex : (ForwardRepository.FindByID w n).isSome)
    (hok : w.fails (ObserverService.handleEvents w pre).calls.length
      (.UpdateFields .gost_forwards n (statsFields i o c)) = false) :
    ∃ g, ForwardRepository.FindByID (ObserverService.handleEvents w pre) n = some g ∧
      ForwardRepository.FindByID
          (ObserverService.HandleReport w
            { Events := pre ++ [statsEvent .gost_forwards n i o c] }).2 n =
        some { g with InputBytes := i, OutputBytes := o, TotalBytes := wrapInt64 (i + o),
                      TotalRequests := c } ∧
      (-(2 ^ 63) ≤ i + o → i + o < 2 ^ 63 → wrapInt64 (i + o) = i + o) := by
  have hsome := handleEvents_findForward_isSome pre n w hex
  obtain ⟨g, hg⟩ := Option.isSome_iff_exists.mp hsome
  refine ⟨g, hg, ?_, fun h1 h2 => wrapInt64_of_fits _ h1 h2⟩
  simp only [ObserverService.HandleReport]
  rw [handleEvents_append]
  simp only [ObserverService.handleEvents]
  rw [processEvent_statsEvent _ _ _ hn]
  exact findForward_UpdateStats _ n i o c g hg (by rw [handleEvents_fails]; exact hok)

/-- Witness of C4: Forward 42 receives (100, 50, 3) and holds 100, 50, 150, 3; a second
report with the lower values (10, 5, 1) leaves 10, 5, 15, 1. -/
theorem HandleReport_forward_stats_witness :
    ForwardRepository.FindByID
        (ObserverService.HandleReport (sampleWorld [sampleForward 42 "running"] [] none)
          { Events := [statsEvent .gost_forwards 42 100 50 3] }).2 42 =
      some { sampleForward 42 "running" with
        InputBytes := 100, OutputBytes := 50, TotalBytes := 150, TotalRequests := 3 } ∧
    ForwardRepository.FindByID
        (ObserverService.HandleReport
          (ObserverService.HandleReport (sampleWorld [sampleForward 42 "running"] [] none)
            { Events := [statsEvent .gost_forwards 42 100 50 3] }).2
          { Events := [statsEvent .gost_forwards 42 10 5 1] }).2 42 =
      some { sampleForward 42 "running" with
        InputBytes := 10, OutputBytes := 5, TotalBytes := 15, TotalRequests := 1 } := by
  constructor
  · obtain ⟨g, hg, h, hfit⟩ := HandleReport_forward_stats
      (sampleWorld [sampleForward 42 "running"] [] none) [] 42 100 50 3
      (by decide) (by decide) rfl
    have h0 : g = sampleForward 42 "running" := by
      have h1 : ForwardRepository.FindByID (ObserverService.handleEvents
          (sampleWorld [sampleForward 42 "running"] [] none) []) 42 =
          some (sampleForward 42 "running") := by decide
      rw [h1] at hg
      exact (Option.some.inj hg).symm
    subst h0
    rw [List.nil_append] at h
    rw [h, hfit (by norm_num) (by norm_num)]
    rfl
  · obtain ⟨g, hg, h, hfit⟩ := HandleReport_forward_stats
      (ObserverService.HandleReport (sampleWorld [sampleForward 42 "running"] [] none)
        { Events := [statsEvent .gost_forwards 42 100 50 3] }).2 [] 42 10 5 1
      (by decide) (by decide) rfl
    have h0 : g = { sampleForward 42 "running" with
        InputBytes := 100, OutputBytes := 50, TotalBytes := 150, TotalRequests := 3 } := by
      have h1 : ForwardRepository.FindByID (ObserverService.handleEvents
          (ObserverService.HandleReport (sampleWorld [sampleForward 42 "running"] [] none)
            { Events := [statsEvent .gost_forwards 42 100 50 3] }).2 []) 42 =
          some { sampleForward 42 "running" with
            InputBytes := 100, OutputBytes := 50, TotalBytes := 150, TotalRequests := 3 } := by
        decide
      rw [h1] at hg
      exact (Option.some.inj hg).symm
    subst h0
    rw [List.nil_append] at h
    rw [h, hfit (by norm_num) (by norm_num)]
    rfl

/-- A column update leaves the counters of every other row as they were. -/
theorem rowStats_UpdateFields_other (w : World) (table : Table) (id : Nat)
    (fields : List (String × Value)) (table1 : Table) (n : Nat)
    (hne : ¬ (table1 = table ∧ n = id)) :
    rowStats (BaseRepository.UpdateFields w table id fields).2 table1 n =
      rowStats w table1 n := by
  cases hf : w.fails w.calls.length (.UpdateFields table id fields)
  · rw [UpdateFields_ok w table id fields hf]
    cases table <;> cases table1
    · have hn : n ≠ id := fun h => hne ⟨rfl, h⟩
      simp only [rowStats]
      rw [findForward_applyUpdate]
      have hfind : ForwardRepository.FindByID
          (w.logged
          (Call.UpdateFields Table.gost_forwards id fields)) n =
          ForwardRepository.FindByID w n := rfl
      rw [hfind]
      cases hg : ForwardRepository.FindByID w n with
      | none => rfl
      | some g => simp [findForward_ID hg, hn]
    · rfl
    · rfl
    · have hn : n ≠ id := fun h => hne ⟨rfl, h⟩
      simp only [rowStats]
      rw [findTunnel_applyUpdate]
      have hfind : TunnelRepository.FindByID
          (w.logged
          (Call.UpdateFields Table.gost_tunnels id fields)) n =
          TunnelRepository.FindByID w n := rfl
      rw [hfind]
      cases hg : TunnelRepository.FindByID w n with
      | none => rfl
      | some g => simp [findTunnel_ID hg, hn]
  · rw [UpdateFields_fail w table id fields hf]
    cases table1 <;> rfl

/-- An accepted `UpdateStats` on an existing row sets its four counters. -/
theorem rowStats_UpdateStats (w : World) (table : Table) (n : Nat) (i o c : Int)
    (hex : (rowStats w table n).isSome)
    (hok : w.fails w.calls.length (.UpdateFields table n (statsFields i o c)) = false) :
    rowStats (BaseRepository.UpdateFields w table n (statsFields i o c)).2 table n =
      some (i, o, wrapInt64 (i + o), c) := by
  rw [UpdateFields_ok w table n _ hok]
  cases table
  · simp only [rowStats] at hex ⊢
    rw [findForward_applyUpdate]
    have hfind : ForwardRepository.FindByID
        (w.logged
          (Call.UpdateFields Table.gost_forwards n (statsFields i o c))) n =
        ForwardRepository.FindByID w n := rfl
    rw [hfind]
    cases hg : ForwardRepository.FindByID w n with
    | none => rw [hg] at hex; exact absurd hex (by decide)
    | some g => simp [statsFields, setForwardField, findForward_ID hg]
  · simp only [rowStats] at hex ⊢
    rw [findTunnel_applyUpdate]
    have hfind : TunnelRepository.FindByID
        (w.logged
          (Call.UpdateFields Table.gost_tunnels n (statsFields i o c))) n =
        TunnelRepository.FindByID w n := rfl
    rw [hfind]
    cases hg : TunnelRepository.FindByID w n with
    | none => rw [hg] at hex; exact absurd hex (by decide)
    | some g => simp [statsFields, setTunnelField, findTunnel_ID hg]

/-- Events that issue no update of row `n` of a table leave its counters as they were. -/
theorem handleEvents_rowStats_quiet (table : Table) (n : Nat) (es : List ObserverEvent) :
    ∀ (w : World) (l : List Call),
      (ObserverService.handleEvents w es).calls = w.calls ++ l →
      (∀ call ∈ l, ∀ fields, call ≠ Call.UpdateFields table n fields) →
      rowStats (ObserverService.handleEvents w es) table n = rowStats w table n := by
  induction es with
  | nil => intro w l _ _; rfl
  | cons e es ih =>
    intro w l hl hquiet
    simp only [ObserverService.handleEvents] at hl ⊢
    obtain ⟨l2, h2⟩ := handleEvents_calls es (ObserverService.processEvent w e).2
    rcases processEvent_cases w e with h1 | ⟨t, id, fields, h1⟩
    · rw [h1] at hl ⊢
      exact ih w l hl hquiet
    · have hc : (ObserverService.processEvent w e).2.calls =
          w.calls ++ [Call.UpdateFields t id fields] := by rw [h1, UpdateFields_calls]
      have hl2 : l = Call.UpdateFields t id fields :: l2 := by
        rw [h2, hc, List.append_assoc] at hl
        exact (List.append_cancel_left hl).symm
      have hne : ¬ (table = t ∧ n = id) := by
        rintro ⟨rfl, rfl⟩
        exact hquiet _ (by rw [hl2]; exact List.mem_cons_self _ _) fields rfl
      rw [ih _ l2 h2 (fun call hcall => hquiet call (by rw [hl2]; exact List.mem_cons_of_mem _ hcall))]
      rw [h1]
      exact rowStats_UpdateFields_other w t id fields table n hne

/-- C5: HandleReport processes every event of a batch in order and returns no error: for
any event `e` between any events `pre` and any events `post`, and whatever calls fail, the
result is `post` processed after `e` processed after `pre`, the error of `e` being dropped.
An event that cannot be parsed or a store update that fails, at any position, therefore
does not keep a valid stats event from being processed. For the stats event of rule `n`
(Forward or Tunnel): the world after the batch is `post` processed after the `UpdateStats`
of that event applied after `pre`; that update is issued right after the calls of `pre`;
and when the store accepts it, the row exists and no later event updates that row, the row
ends with the counters of the event. -/
theorem HandleReport_processes_every_event (w : World) (pre post : List ObserverEvent)
    (table : Table) (n : Nat) (i o c : Int) (hn : n < 2 ^ 64) :
    (∀ e : ObserverEvent,
      ObserverService.HandleReport w { Events := pre ++ e :: post } =
        (none, ObserverService.handleEvents
          (ObserverService.processEvent (ObserverService.handleEvents w pre) e).2 post)) ∧
    (ObserverService.HandleReport w
      { Events := pre ++ statsEvent table n i o c :: post }).2 =
      ObserverService.handleEvents
        (BaseRepository.UpdateFields (ObserverService.handleEvents w pre) table n
          (statsFields i o c)).2 post ∧
    ∃ tail,
      (ObserverService.HandleReport w
        { Events := pre ++ statsEvent table n i o c :: post }).2.calls =
        (ObserverService.handleEvents w pre).calls ++
          Call.UpdateFields table n (statsFields i o c) :: tail ∧
      ((∀ call ∈ tail, ∀ fields, call ≠ Call.UpdateFields table n fields) →
        (ObserverService.handleEvents w pre).fails
          (ObserverService.handleEvents w pre).calls.length
          (.UpdateFields table n (statsFields i o c)) = false →
        (rowStats (ObserverService.handleEvents w pre) table n).isSome →
        rowStats (ObserverService.HandleReport w
          { Events := pre ++ statsEvent table n i o c :: post }).2 table n =
          some (i, o, wrapInt64 (i + o), c)) := by
  have hfinal : (ObserverService.HandleReport w
      { Events := pre ++ statsEvent table n i o c :: post }).2 =
      ObserverService.handleEvents
        (BaseRepository.UpdateFields (ObserverService.handleEvents w pre) table n
          (statsFields i o c)).2 post := by
    simp only [ObserverService.HandleReport]
    rw [handleEvents_append]
    simp only [ObserverService.handleEvents]
    rw [processEvent_statsEvent _ _ _ hn]
  refine ⟨fun e => ?_, hfinal, ?_⟩
  · simp only [ObserverService.HandleReport]
    rw [handleEvents_append]
    rfl
  obtain ⟨tail, htail⟩ := handleEvents_calls post
    (BaseRepository.UpdateFields (ObserverService.handleEvents w pre) table n
      (statsFields i o c)).2
  refine ⟨tail, ?_, ?_⟩
  · rw [hfinal, htail, UpdateFields_calls, List.append_assoc]; rfl
  · intro hquiet hok hex
    rw [hfinal, handleEvents_rowStats_quiet table n post _ tail htail hquiet]
    exact rowStats_UpdateStats _ table n i o c hex hok

/-- Witness of C5: a batch of a malformed event whose store update fails, the stats event
of Forward 42 and another malformed event; Forward 42 ends with 100, 50, 150, 3. -/
theorem HandleReport_processes_every_event_witness :
    ((∀ e : ObserverEvent,
      ObserverService.HandleReport flakyWorld
          { Events := [malformedEvent "forward-abc"] ++ e :: [malformedEvent "tunnel-"] } =
        (none, ObserverService.handleEvents
          (ObserverService.processEvent
            (ObserverService.handleEvents flakyWorld [malformedEvent "forward-abc"]) e).2
          [malformedEvent "tunnel-"])) ∧
    (ObserverService.HandleReport flakyWorld
      { Events := [malformedEvent "forward-abc"] ++
          statsEvent .gost_forwards 42 100 50 3 :: [malformedEvent "tunnel-"] }).2 =
      ObserverService.handleEvents
        (BaseRepository.UpdateFields
          (ObserverService.handleEvents flakyWorld [malformedEvent "forward-abc"])
          .gost_forwards 42 (statsFields 100 50 3)).2 [malformedEvent "tunnel-"] ∧
    ∃ tail,
      (ObserverService.HandleReport flakyWorld
        { Events := [malformedEvent "forward-abc"] ++
            statsEvent .gost_forwards 42 100 50 3 :: [malformedEvent "tunnel-"] }).2.calls =
        (ObserverService.handleEvents flakyWorld [malformedEvent "forward-abc"]).calls ++
          Call.UpdateFields .gost_forwards 42 (statsFields 100 50 3) :: tail ∧
      ((∀ call ∈ tail, ∀ fields, call ≠ Call.UpdateFields .gost_forwards 42 fields) →
        (ObserverService.handleEvents flakyWorld [malformedEvent "forward-abc"]).fails
          (ObserverService.handleEvents flakyWorld [malformedEvent "forward-abc"]).calls.length
          (.UpdateFields .gost_forwards 42 (statsFields 100 50 3)) = false →
        (rowStats (ObserverService.handleEvents flakyWorld [malformedEvent "forward-abc"])
          .gost_forwards 42).isSome →
        rowStats (ObserverService.HandleReport flakyWorld
          { Events := [malformedEvent "forward-abc"] ++
              statsEvent .gost_forwards 42 100 50 3 :: [malformedEvent "tunnel-"] }).2
          .gost_forwards 42 = some (100, 50, wrapInt64 (100 + 50), 3))) ∧
    rowStats (ObserverService.HandleReport flakyWorld
      { Events := [malformedEvent "forward-abc"] ++
          statsEvent .gost_forwards 42 100 50 3 :: [malformedEvent "tunnel-"] }).2
      .gost_forwards 42 = some (100, 50, 150, 3) :=
  ⟨HandleReport_processes_every_event flakyWorld [malformedEvent "forward-abc"]
      [malformedEvent "tunnel-"] .gost_forwards 42 100 50 3 (by decide),
   by decide⟩

/-- C6 (the code at the failing inputs): a stats event named "forward-abc", "forward-" or
"forward-12x" is not ignored. `parseUint` reports the bad character through its boolean
result with a nil error, the callers test the error only, and the event becomes
`UpdateStats(0, ...)` on the forwards table: an update for id 0 is issued, and a row with
id 0 takes the counters of the event. The same holds for "tunnel-abc" on the tunnels table.
Only a name with neither prefix issues nothing. -/
theorem processEvent_malformed_name_issues_update :
    (∀ (w : World) (i o c : Int),
      ObserverService.processEvent w
          { Type_ := "stats", Service := "forward-abc", Stats := some ⟨i, o, c⟩ } =
        BaseRepository.UpdateFields w .gost_forwards 0 (statsFields i o c) ∧
      ObserverService.processEvent w
          { Type_ := "stats", Service := "forward-", Stats := some ⟨i, o, c⟩ } =
        BaseRepository.UpdateFields w .gost_forwards 0 (statsFields i o c) ∧
      ObserverService.processEvent w
          { Type_ := "stats", Service := "forward-12x", Stats := some ⟨i, o, c⟩ } =
        BaseRepository.UpdateFields w .gost_forwards 0 (statsFields i o c) ∧
      ObserverService.processEvent w
          { Type_ := "stats", Service := "tunnel-abc", Stats := some ⟨i, o, c⟩ } =
        BaseRepository.UpdateFields w .gost_tunnels 0 (statsFields i o c)) ∧
    (ObserverService.processEvent (sampleWorld [sampleForward 0 "running"] [] none)
        (malformedEvent "forward-abc")).2.calls =
      [Call.UpdateFields .gost_forwards 0 (statsFields 1 2 3)] ∧
    rowStats (ObserverService.processEvent (sampleWorld [sampleForward 0 "running"] [] none)
        (malformedEvent "forward-abc")).2 .gost_forwards 0 = some (1, 2, 3, 3) ∧
    (ObserverService.processEvent (sampleWorld [sampleForward 0 "running"] [] none)
        (malformedEvent "bogus-1")).2.calls = [] := by
  refine ⟨fun w i o c => ⟨?_, ?_, ?_, ?_⟩, by decide, by decide, by decide⟩
  · have hp : parseServiceID "forward-abc" "forward-" 0 = ((true, none), 0) := by decide
    have hpre : HasPrefix "forward-abc" "forward-" = true := by decide
    simp only [ObserverService.processEvent, ObserverService.updateForwardStats, hp, hpre,
      ForwardRepository.UpdateStats, statsFields]
    simp
    rcases BaseRepository.UpdateFields w Table.gost_forwards 0 _ with ⟨e, w1⟩
    cases e <;> rfl
  · have hp : parseServiceID "forward-" "forward-" 0 = ((true, none), 0) := by decide
    have hpre : HasPrefix "forward-" "forward-" = true := by decide
    simp only [ObserverService.processEvent, ObserverService.updateForwardStats, hp, hpre,
      ForwardRepository.UpdateStats, statsFields]
    simp
    rcases BaseRepository.UpdateFields w Table.gost_forwards 0 _ with ⟨e, w1⟩
    cases e <;> rfl
  · have hp : parseServiceID "forward-12x" "forward-" 0 = ((true, none), 0) := by decide
    have hpre : HasPrefix "forward-12x" "forward-" = true := by decide
    simp only [ObserverService.processEvent, ObserverService.updateForwardStats, hp, hpre,
      ForwardRepository.UpdateStats, statsFields]
    simp
    rcases BaseRepository.UpdateFields w Table.gost_forwards 0 _ with ⟨e, w1⟩
    cases e <;> rfl
  · have hp : parseServiceID "tunnel-abc" "tunnel-" 0 = ((true, none), 0) := by decide
    have hpre : HasPrefix "tunnel-abc" "tunnel-" = true := by decide
    have hnot : HasPrefix "tunnel-abc" "forward-" = false := by decide
    simp only [ObserverService.processEvent, ObserverService.updateTunnelStats, hp, hpre, hnot,
      TunnelRepository.UpdateStats, statsFields]
    simp
    rcases BaseRepository.UpdateFields w Table.gost_tunnels 0 _ with ⟨e, w1⟩
    cases e <;> rfl

/-! ### Lifecycle orchestrator: starting a Forward -/

/-- C8: for every Forward that is not running and whose node exists and is not offline,
when observer creation succeeds (panel URL configured, createObserver accepted) and
createService succeeds, Start returns success; the service sent to createService is named
"forward-<id>"; the calls issued are createObserver, the observer_id update, createService,
saveConfig, the status update, the service_id update and saveConfig; and, the store
accepting its updates, the stored row is the old row with status `running`, service_id
"forward-<id>" and the observer id. -/
theorem ForwardStart_success (w : World) (id : Nat) (forward : GostForward)
    (node : GostNode) (cfg : SystemConfig)
    (hfind : ForwardRepository.FindByID w id = some forward)
    (hnot : forward.Status ≠ ForwardStatusRunning)
    (hnode : NodeRepository.FindByID w forward.NodeID = some node)
    (havail : node.Status ≠ NodeStatusOffline)
    (hcfg : w.sysConfig = some cfg) (hurl : cfg.PanelURL ≠ "")
    (hobs : ∀ k nd o, w.fails k (.CreateObserver nd o) = false)
    (hsvc : ∀ k nd svc, w.fails k (.CreateService nd svc) = false) :
    (ForwardService.Start w id).1 = none ∧
    (∃ obs svc, svc.Name = "forward-" ++ toString id ∧
      (ForwardService.Start w id).2.calls = w.calls ++
        [.CreateObserver node.ID obs,
         .UpdateFields .gost_forwards id [("observer_id", .str obs.Name)],
         .CreateService node.ID svc,
         .SaveConfig node.ID,
         .UpdateFields .gost_forwards id [("status", .str ForwardStatusRunning)],
         .UpdateFields .gost_forwards id [("service_id", .str ("forward-" ++ toString id))],
         .SaveConfig node.ID]) ∧
    (w.storeReliable →
      ForwardRepository.FindByID (ForwardService.Start w id).2 id =
        some { forward with
          Status := ForwardStatusRunning,
          ServiceID := "forward-" ++ toString id,
          ObserverID := "observer-" ++ node.Name ++ "-" ++ toString id }) := by
  have hid : forward.ID = id := findForward_ID hfind
  unfold ForwardService.Start
  simp only [hfind, hnot, hnode, havail, CreateObserver, hcfg, hurl, World.issue, hobs, hsvc,
    logged_fails, UpdateFields_fails, if_false, Bool.not_false, Bool.not_true,
    ForwardRepository.UpdateObserverID, ForwardRepository.UpdateStatus,
    ForwardRepository.UpdateServiceID, BaseRepository.UpdateField, hid]
  refine ⟨trivial, ?_, ?_⟩
  · simp only [UpdateFields_calls, logged_calls, List.append_assoc, List.singleton_append,
      List.cons_append, List.nil_append]
    refine ⟨_, _, ?_, rfl⟩
    unfold attachObserver
    split <;> split <;> rfl
  · intro hrel
    simp only [findForward_UpdateFields, findForward_logged, hfind, logged_fails, logged_calls,
      UpdateFields_fails, UpdateFields_calls, hrel _ _ _ _]
    simp [setForwardField, hid]

/-- Witness of C8: Forward 7 on node 1, panel URL configured, every call accepted. -/
theorem ForwardStart_success_witness :
    (ForwardService.Start
      (sampleWorld [sampleForward 7 "stopped"] [] (some { PanelURL := "http://panel.example" }))
      7).1 = none ∧
    ForwardRepository.FindByID
        (ForwardService.Start
          (sampleWorld [sampleForward 7 "stopped"] []
            (some { PanelURL := "http://panel.example" })) 7).2 7 =
      some { sampleForward 7 "stopped" with
        Status := "running", ServiceID := "forward-7", ObserverID := "observer-n1-7" } :=
  have h := ForwardStart_success
    (sampleWorld [sampleForward 7 "stopped"] [] (some { PanelURL := "http://panel.example" }))
    7 (sampleForward 7 "stopped") sampleNode1 { PanelURL := "http://panel.example" }
    (by decide) (by decide) (by decide) (by decide) rfl (by decide)
    (fun _ _ _ => rfl) (fun _ _ _ => rfl)
  ⟨h.1, h.2.2 (fun _ _ _ _ => rfl)⟩

/-- C9: for every Forward start that reaches the createService call (the rule exists and is
not running, its node exists and is not offline, the observer was created) and in which
every createService call fails, Start returns ErrForwardStartFailed; the calls issued are
createObserver, the observer_id update, createService and the status update, in this order;
the stored service_id is what it was before the call; and, the store accepting its updates,
the stored row is the old row with status `error` and the observer id. -/
theorem ForwardStart_createService_fails (w : World) (id : Nat) (forward : GostForward)
    (node : GostNode) (cfg : SystemConfig)
    (hfind : ForwardRepository.FindByID w id = some forward)
    (hnot : forward.Status ≠ ForwardStatusRunning)
    (hnode : NodeRepository.FindByID w forward.NodeID = some node)
    (havail : node.Status ≠ NodeStatusOffline)
    (hcfg : w.sysConfig = some cfg) (hurl : cfg.PanelURL ≠ "")
    (hobs : ∀ k nd o, w.fails k (.CreateObserver nd o) = false)
    (hsvc : ∀ k nd svc, w.fails k (.CreateService nd svc) = true) :
    (ForwardService.Start w id).1 = some .ErrForwardStartFailed ∧
    (∃ obs svc, svc.Name = "forward-" ++ toString id ∧
      (ForwardService.Start w id).2.calls = w.calls ++
        [.CreateObserver node.ID obs,
         .UpdateFields .gost_forwards id [("observer_id", .str obs.Name)],
         .CreateService node.ID svc,
         .UpdateFields .gost_forwards id [("status", .str ForwardStatusError)]]) ∧
    (ForwardRepository.FindByID (ForwardService.Start w id).2 id).map (fun f => f.ServiceID) =
      some forward.ServiceID ∧
    (w.storeReliable →
      ForwardRepository.FindByID (ForwardService.Start w id).2 id =
        some { forward with
          Status := ForwardStatusError,
          ObserverID := "observer-" ++ node.Name ++ "-" ++ toString id }) := by
  have hid : forward.ID = id := findForward_ID hfind
  unfold ForwardService.Start
  simp only [hfind, hnot, hnode, havail, CreateObserver, hcfg, hurl, World.issue, hobs, hsvc,
    logged_fails, UpdateFields_fails, if_false, Bool.not_false, Bool.not_true,
    ForwardRepository.UpdateObserverID, ForwardRepository.UpdateStatus,
    BaseRepository.UpdateField, hid]
  refine ⟨trivial, ?_, ?_, ?_⟩
  · simp only [UpdateFields_calls, logged_calls, List.append_assoc, List.singleton_append,
      List.cons_append, List.nil_append]
    refine ⟨_, _, ?_, rfl⟩
    unfold attachObserver
    split <;> split <;> rfl
  · rw [findForward_UpdateField_frame (fun f => f.ServiceID) _ _ _ "status" _
        (fun f => setForwardField_ServiceID f "status" _ (by decide)),
      findForward_logged,
      findForward_UpdateField_frame (fun f => f.ServiceID) _ _ _ "observer_id" _
        (fun f => setForwardField_ServiceID f "observer_id" _ (by decide)),
      findForward_logged, hfind]
    rfl
  · intro hrel
    simp only [findForward_UpdateFields, findForward_logged, hfind, logged_fails, logged_calls,
      UpdateFields_fails, UpdateFields_calls, hrel _ _ _ _]
    simp [setForwardField, hid]

/-- Witness of C9: Forward 7 on node 1 with the panel URL configured and a node that
refuses createService. -/
theorem ForwardStart_createService_fails_witness :
    (ForwardService.Start (serviceFailingWorld [sampleForward 7 "stopped"] []) 7).1 =
      some .ErrForwardStartFailed ∧
    ForwardRepository.FindByID
        (ForwardService.Start (serviceFailingWorld [sampleForward 7 "stopped"] []) 7).2 7 =
      some { sampleForward 7 "stopped" with Status := "error", ObserverID := "observer-n1-7" } :=
  have h := ForwardStart_createService_fails (serviceFailingWorld [sampleForward 7 "stopped"] [])
    7 (sampleForward 7 "stopped") sampleNode1 { PanelURL := "http://panel.example" }
    (by decide) (by decide) (by decide) (by decide) rfl (by decide)
    (fun _ _ _ => rfl) (fun _ _ _ => rfl)
  ⟨h.1, h.2.2.2 (fun _ _ _ _ => rfl)⟩

/-- C10 (counterexample): with the system configuration unreadable, or with an empty
panel URL, and a node that accepts every call, Start of the stopped Forward 7 returns
ErrPanelURLNotFound, issues no call at all (no createService) and the stored status stays
`stopped`. -/
theorem ForwardStart_panelURL_unconfigured_counterexample :
    (ForwardService.Start (sampleWorld [sampleForward 7 "stopped"] [] none) 7).1 =
      some .ErrPanelURLNotFound ∧
    (ForwardService.Start (sampleWorld [sampleForward 7 "stopped"] [] none) 7).2.calls = [] ∧
    (ForwardRepository.FindByID
        (ForwardService.Start (sampleWorld [sampleForward 7 "stopped"] [] none) 7).2 7).map
      (fun f => f.Status) = some "stopped" ∧
    (ForwardService.Start
      (sampleWorld [sampleForward 7 "stopped"] [] (some { PanelURL := "" })) 7).1 =
      some .ErrPanelURLNotFound ∧
    (ForwardService.Start
      (sampleWorld [sampleForward 7 "stopped"] [] (some { PanelURL := "" })) 7).2.calls = [] ∧
    (ForwardRepository.FindByID
        (ForwardService.Start
          (sampleWorld [sampleForward 7 "stopped"] [] (some { PanelURL := "" })) 7).2 7).map
      (fun f => f.Status) = some "stopped" := by
  decide

/-- C10 (amended): when the panel URL is not configured (the system configuration cannot
be read, or its panel URL is empty), Start of a Forward that is not running and whose node
exists and is not offline is failed by it: it returns ErrPanelURLNotFound and leaves the
world as it was, so no createObserver call is made, createService is not called and no
column of any row is written. -/
theorem ForwardStart_panelURL_unconfigured (w : World) (id : Nat) (forward : GostForward)
    (node : GostNode)
    (hfind : ForwardRepository.FindByID w id = some forward)
    (hnot : forward.Status ≠ ForwardStatusRunning)
    (hnode : NodeRepository.FindByID w forward.NodeID = some node)
    (havail : node.Status ≠ NodeStatusOffline)
    (hcfg : w.sysConfig = none ∨ ∃ cfg, w.sysConfig = some cfg ∧ cfg.PanelURL = "") :
    ForwardService.Start w id = (some .ErrPanelURLNotFound, w) := by
  unfold ForwardService.Start
  rcases hcfg with h | ⟨cfg, h, hurl⟩
  · simp only [hfind, hnot, hnode, havail, CreateObserver, h, if_false]
  · simp only [hfind, hnot, hnode, havail, CreateObserver, h, hurl, if_false, if_true]

/-- Witness of C10 (amended): Forward 9 with an empty panel URL. -/
theorem ForwardStart_panelURL_unconfigured_witness :
    ForwardService.Start
        (sampleWorld [sampleForward 9 "error"] [] (some { PanelURL := "" })) 9 =
      (some .ErrPanelURLNotFound,
        sampleWorld [sampleForward 9 "error"] [] (some { PanelURL := "" })) :=
  ForwardStart_panelURL_unconfigured
    (sampleWorld [sampleForward 9 "error"] [] (some { PanelURL := "" })) 9
    (sampleForward 9 "error") sampleNode1 (by decide) (by decide) (by decide) (by decide)
    (Or.inr ⟨{ PanelURL := "" }, rfl, rfl⟩)

/-! ### Lifecycle orchestrator: starting a Tunnel -/

/-- C7: for every Tunnel start that reaches createChain (the tunnel exists and is not
running, both nodes exist and are not offline, the exit host is known), in which createChain
succeeds, the observer is created and every createService call fails: Start returns
ErrTunnelServiceCreateFailed; the calls issued are createChain for "chain-tunnel-<id>",
createObserver, the observer_id update, createService, deleteChain("chain-tunnel-<id>") and
the status update, in this order, all remote ones on the entry node; service_id and chain_id
of the stored row are what they were; the store accepting its updates, the stored row is the
old row with status `error` and the observer id; and when the node accepts the deleteChain,
no chain named "chain-tunnel-<id>" is left on the entry node, whatever chains it had. -/
theorem TunnelStart_createService_fails (w : World) (id : Nat) (tunnel : GostTunnel)
    (entryNode exitNode : GostNode) (cfg : SystemConfig)
    (hfind : TunnelRepository.FindByID w id = some tunnel)
    (hnot : tunnel.Status ≠ TunnelStatusRunning)
    (hentry : NodeRepository.FindByID w tunnel.EntryNodeID = some entryNode)
    (hentryOn : entryNode.Status ≠ NodeStatusOffline)
    (hexit : NodeRepository.FindByID w tunnel.ExitNodeID = some exitNode)
    (hexitOn : exitNode.Status ≠ NodeStatusOffline)
    (hhost : ExtractHost exitNode.APIURL ≠ "")
    (hcfg : w.sysConfig = some cfg) (hurl : cfg.PanelURL ≠ "")
    (hchain : ∀ k nd c, w.fails k (.CreateChain nd c) = false)
    (hobs : ∀ k nd o, w.fails k (.CreateObserver nd o) = false)
    (hsvc : ∀ k nd svc, w.fails k (.CreateService nd svc) = true) :
    (TunnelService.Start w id).1 = some .ErrTunnelServiceCreateFailed ∧
    (∃ chain obs svc, chain.Name = "chain-tunnel-" ++ toString id ∧
      (TunnelService.Start w id).2.calls = w.calls ++
        [.CreateChain entryNode.ID chain,
         .CreateObserver entryNode.ID obs,
         .UpdateFields .gost_tunnels id [("observer_id", .str obs.Name)],
         .CreateService entryNode.ID svc,
         .DeleteChain entryNode.ID ("chain-tunnel-" ++ toString id),
         .UpdateFields .gost_tunnels id [("status", .str TunnelStatusError)]]) ∧
    (TunnelRepository.FindByID (TunnelService.Start w id).2 id).map
        (fun t => (t.ServiceID, t.ChainID)) = some (tunnel.ServiceID, tunnel.ChainID) ∧
    (w.storeReliable →
      TunnelRepository.FindByID (TunnelService.Start w id).2 id =
        some { tunnel with
          Status := TunnelStatusError,
          ObserverID := "observer-" ++ entryNode.Name ++ "-" ++ toString id }) ∧
    (∀ chains : List String,
      w.fails (w.calls.length + 4)
        (.DeleteChain entryNode.ID ("chain-tunnel-" ++ toString id)) = false →
      "chain-tunnel-" ++ toString id ∉
        nodeChains w.fails entryNode.ID
          ((TunnelService.Start w id).2.calls.drop w.calls.length) w.calls.length chains) := by
  have hid : tunnel.ID = id := findTunnel_ID hfind
  unfold TunnelService.Start
  simp only [hfind, hnot, hentry, hentryOn, hexit, hexitOn, hhost, CreateObserver, hcfg, hurl,
    World.issue, hchain, hobs, hsvc, logged_fails, logged_sysConfig, UpdateFields_fails,
    if_false, Bool.not_false, Bool.not_true, TunnelRepository.UpdateObserverID,
    TunnelRepository.UpdateStatus, BaseRepository.UpdateField, hid]
  refine ⟨trivial, ?_, ?_, ?_, ?_⟩
  · simp only [UpdateFields_calls, logged_calls, List.append_assoc, List.singleton_append,
      List.cons_append, List.nil_append]
    exact ⟨_, _, _, rfl, rfl⟩
  · rw [findTunnel_UpdateField_frame (fun t => (t.ServiceID, t.ChainID)) _ _ _ "status" _
        (fun t => Prod.ext (setTunnelField_ServiceID t "status" _ (by decide))
          (setTunnelField_ChainID t "status" _ (by decide))),
      findTunnel_logged, findTunnel_logged,
      findTunnel_UpdateField_frame (fun t => (t.ServiceID, t.ChainID)) _ _ _ "observer_id" _
        (fun t => Prod.ext (setTunnelField_ServiceID t "observer_id" _ (by decide))
          (setTunnelField_ChainID t "observer_id" _ (by decide))),
      findTunnel_logged, findTunnel_logged, hfind]
    rfl
  · intro hrel
    simp only [findTunnel_UpdateFields, findTunnel_logged, hfind, logged_fails, logged_calls,
      UpdateFields_fails, UpdateFields_calls, hrel _ _ _ _]
    simp [setTunnelField, hid]
  · intro chains hdel
    simp only [UpdateFields_calls, logged_calls, List.append_assoc, List.singleton_append,
      List.cons_append, List.nil_append, List.drop_left]
    simp [nodeChains, hchain, hdel, List.mem_filter]

/-- Witness of C7: tunnel 3 from node 1 to node 2, panel URL configured, a node that
accepts everything but createService. -/
theorem TunnelStart_createService_fails_witness :
    (TunnelService.Start (serviceFailingWorld [] [sampleTunnel 3 "stopped"]) 3).1 =
      some .ErrTunnelServiceCreateFailed ∧
    TunnelRepository.FindByID
        (TunnelService.Start (serviceFailingWorld [] [sampleTunnel 3 "stopped"]) 3).2 3 =
      some { sampleTunnel 3 "stopped" with Status := "error", ObserverID := "observer-n1-3" } ∧
    (TunnelService.Start (serviceFailingWorld [] [sampleTunnel 3 "stopped"]) 3).2.calls.getLast? =
      some (.UpdateFields .gost_tunnels 3 [("status", .str "error")]) ∧
    Call.DeleteChain 1 "chain-tunnel-3" ∈
      (TunnelService.Start (serviceFailingWorld [] [sampleTunnel 3 "stopped"]) 3).2.calls :=
  have h := TunnelStart_createService_fails (serviceFailingWorld [] [sampleTunnel 3 "stopped"])
    3 (sampleTunnel 3 "stopped") sampleNode1 sampleNode2 { PanelURL := "http://panel.example" }
    (by decide) (by decide) (by decide) (by decide) (by decide) (by decide) (by decide)
    rfl (by decide) (fun _ _ _ => rfl) (fun _ _ _ => rfl) (fun _ _ _ => rfl)
  ⟨h.1, h.2.2.2.1 (fun _ _ _ _ => rfl), by decide, by decide⟩

/-! ### Lifecycle orchestrator: no-op starts and stops -/

/-- C13: for every Forward and every Tunnel whose stored status is `running`, Start returns
success and leaves the world exactly as it was: the call log is unchanged (no createObserver,
createChain, createService, saveConfig, nor any store write) and so is every row of every
table. Nothing is assumed about the nodes. -/
theorem Start_running_noop :
    (∀ (w : World) (id : Nat) (forward : GostForward),
      ForwardRepository.FindByID w id = some forward →
      forward.Status = ForwardStatusRunning →
      ForwardService.Start w id = (none, w)) ∧
    (∀ (w : World) (id : Nat) (tunnel : GostTunnel),
      TunnelRepository.FindByID w id = some tunnel →
      tunnel.Status = TunnelStatusRunning →
      TunnelService.Start w id = (none, w)) := by
  constructor
  · intro w id forward hfind hrun
    unfold ForwardService.Start
    simp only [hfind, hrun, if_true]
  · intro w id tunnel hfind hrun
    unfold TunnelService.Start
    simp only [hfind, hrun, if_true]

/-- Witness of C13: a running Forward 7 and a running Tunnel 3 in a world whose nodes
refuse every call. -/
theorem Start_running_noop_witness :
    ForwardService.Start (remoteFailingWorld [sampleForward 7 "running"] []) 7 =
      (none, remoteFailingWorld [sampleForward 7 "running"] []) ∧
    TunnelService.Start (remoteFailingWorld [] [sampleTunnel 3 "running"]) 3 =
      (none, remoteFailingWorld [] [sampleTunnel 3 "running"]) :=
  ⟨Start_running_noop.1 (remoteFailingWorld [sampleForward 7 "running"] []) 7
      (sampleForward 7 "running") (by decide) (by decide),
   Start_running_noop.2 (remoteFailingWorld [] [sampleTunnel 3 "running"]) 3
      (sampleTunnel 3 "running") (by decide) (by decide)⟩

/-- C14: for every Forward and every Tunnel whose stored status is not `running`, Stop
returns success and leaves the world exactly as it was: the call log is unchanged (no
deleteService, deleteChain, saveConfig, nor any store write) and so is every row, the status
included. -/
theorem Stop_not_running_noop :
    (∀ (w : World) (id : Nat) (forward : GostForward),
      ForwardRepository.FindByID w id = some forward →
      forward.Status ≠ ForwardStatusRunning →
      ForwardService.Stop w id = (none, w)) ∧
    (∀ (w : World) (id : Nat) (tunnel : GostTunnel),
      TunnelRepository.FindByID w id = some tunnel →
      tunnel.Status ≠ TunnelStatusRunning →
      TunnelService.Stop w id = (none, w)) := by
  constructor
  · intro w id forward hfind hnot
    unfold ForwardService.Stop
    simp only [hfind, hnot, ne_eq, not_false_eq_true, if_true]
  · intro w id tunnel hfind hnot
    unfold TunnelService.Stop
    simp only [hfind, hnot, ne_eq, not_false_eq_true, if_true]

/-- Witness of C14: Forward 7 in status `stopped` and Tunnel 3 in status `error`. -/
theorem Stop_not_running_noop_witness :
    ForwardService.Stop (worldOn sampleNodes [sampleForward 7 "stopped"] []) 7 =
      (none, worldOn sampleNodes [sampleForward 7 "stopped"] []) ∧
    TunnelService.Stop (worldOn sampleNodes [] [sampleTunnel 3 "error"]) 3 =
      (none, worldOn sampleNodes [] [sampleTunnel 3 "error"]) :=
  ⟨Stop_not_running_noop.1 (worldOn sampleNodes [sampleForward 7 "stopped"] []) 7
      (sampleForward 7 "stopped") (by decide) (by decide),
   Stop_not_running_noop.2 (worldOn sampleNodes [] [sampleTunnel 3 "error"]) 3
      (sampleTunnel 3 "error") (by decide) (by decide)⟩

/-! ### Desired-state changes: guards of Create and Update -/

/-- C20: for every Forward whose stored status is `running`, Update returns
ErrForwardRunning whatever the request contains and leaves the world exactly as it was (no
write is sent to the store, every row keeps every field); Update of a running Tunnel does
the same with ErrTunnelRunning. -/
theorem Update_running_rejected :
    (∀ (w : World) (id : Nat) (req : UpdateForwardReq) (forward : GostForward),
      ForwardRepository.FindByID w id = some forward →
      forward.Status = ForwardStatusRunning →
      ForwardService.Update w id req = (.error .ErrForwardRunning, w)) ∧
    (∀ (w : World) (id : Nat) (req : UpdateTunnelReq) (tunnel : GostTunnel),
      TunnelRepository.FindByID w id = some tunnel →
      tunnel.Status = TunnelStatusRunning →
      TunnelService.Update w id req = (.error .ErrTunnelRunning, w)) := by
  constructor
  · intro w id req forward hfind hrun
    unfold ForwardService.Update
    simp only [hfind, hrun, if_true]
  · intro w id req tunnel hfind hrun
    unfold TunnelService.Update
    simp only [hfind, hrun, if_true]

/-- Witness of C20: update requests for the running Forward 7 and the running Tunnel 3. -/
theorem Update_running_rejected_witness :
    ForwardService.Update (worldOn sampleNodes [sampleForward 7 "running"] []) 7
        sampleUpdateForwardReq =
      (.error .ErrForwardRunning, worldOn sampleNodes [sampleForward 7 "running"] []) ∧
    TunnelService.Update (worldOn sampleNodes [] [sampleTunnel 3 "running"]) 3
        (sampleUpdateTunnelReq 1 2) =
      (.error .ErrTunnelRunning, worldOn sampleNodes [] [sampleTunnel 3 "running"]) :=
  ⟨Update_running_rejected.1 (worldOn sampleNodes [sampleForward 7 "running"] []) 7
      sampleUpdateForwardReq (sampleForward 7 "running") (by decide) (by decide),
   Update_running_rejected.2 (worldOn sampleNodes [] [sampleTunnel 3 "running"]) 3
      (sampleUpdateTunnelReq 1 2) (sampleTunnel 3 "running") (by decide) (by decide)⟩

/-- C18: for every create request with entry_node_id equal to exit_node_id, and for every
world (so whatever the node registry and the tunnel store hold), Create of a Tunnel returns
ErrTunnelNodeSame and leaves the world exactly as it was: no row is stored and no call is
issued. Update of an existing Tunnel that is not running, with equal entry and exit ids, is
rejected with the same error and leaves the world, the tunnel included, as it was. -/
theorem Tunnel_same_node_rejected :
    (∀ (w : World) (req : CreateTunnelReq),
      req.EntryNodeID = req.ExitNodeID →
      TunnelService.Create w req = (.error .ErrTunnelNodeSame, w)) ∧
    (∀ (w : World) (id : Nat) (req : UpdateTunnelReq) (tunnel : GostTunnel),
      TunnelRepository.FindByID w id = some tunnel →
      tunnel.Status ≠ TunnelStatusRunning →
      req.EntryNodeID = req.ExitNodeID →
      TunnelService.Update w id req = (.error .ErrTunnelNodeSame, w)) := by
  constructor
  · intro w req hsame
    unfold TunnelService.Create
    simp only [hsame, if_true]
  · intro w id req tunnel hfind hnot hsame
    unfold TunnelService.Update
    simp only [hfind, hnot, hsame, if_true, if_false]

/-- Witness of C18: a request from node 1 to node 1, against a world without any node, and
the same nodes in an update of the stopped Tunnel 3. -/
theorem Tunnel_same_node_rejected_witness :
    TunnelService.Create (worldOn [] [] []) (sampleCreateTunnelReq 1 1) =
      (.error .ErrTunnelNodeSame, worldOn [] [] []) ∧
    TunnelService.Update (worldOn sampleNodes [] [sampleTunnel 3 "stopped"]) 3
        (sampleUpdateTunnelReq 2 2) =
      (.error .ErrTunnelNodeSame, worldOn sampleNodes [] [sampleTunnel 3 "stopped"]) :=
  ⟨Tunnel_same_node_rejected.1 (worldOn [] [] []) (sampleCreateTunnelReq 1 1) rfl,
   Tunnel_same_node_rejected.2 (worldOn sampleNodes [] [sampleTunnel 3 "stopped"]) 3
      (sampleUpdateTunnelReq 2 2) (sampleTunnel 3 "stopped") (by decide) (by decide) rfl⟩

/-! ### Lifecycle orchestrator: the node status guard -/

/-- C11 (counterexample): with node 1 in status `error` (neither online nor offline) and
nodes that accept every call, Start of the stopped Forward 7 does not fail: it returns
success, issues seven calls and leaves the rule `running`. Start of the stopped Tunnel 3
succeeds as well when its entry node, or its exit node, is in status `error`. -/
theorem Start_node_error_counterexample :
    (ForwardService.Start
      (worldOn [sampleNode1Error, sampleNode2] [sampleForward 7 "stopped"] []) 7).1 = none ∧
    (ForwardService.Start
      (worldOn [sampleNode1Error, sampleNode2] [sampleForward 7 "stopped"] []) 7).2.calls.length
      = 7 ∧
    (ForwardRepository.FindByID
      (ForwardService.Start
        (worldOn [sampleNode1Error, sampleNode2] [sampleForward 7 "stopped"] []) 7).2 7).map
      (fun f => f.Status) = some "running" ∧
    (TunnelService.Start
      (worldOn [sampleNode1Error, sampleNode2] [] [sampleTunnel 3 "stopped"]) 3).1 = none ∧
    (TunnelRepository.FindByID
      (TunnelService.Start
        (worldOn [sampleNode1Error, sampleNode2] [] [sampleTunnel 3 "stopped"]) 3).2 3).map
      (fun t => t.Status) = some "running" ∧
    (TunnelService.Start
      (worldOn [sampleNode1, sampleNode2Error] [] [sampleTunnel 3 "stopped"]) 3).1 = none ∧
    (TunnelRepository.FindByID
      (TunnelService.Start
        (worldOn [sampleNode1, sampleNode2Error] [] [sampleTunnel 3 "stopped"]) 3).2 3).map
      (fun t => t.Status) = some "running" := by
  decide

/-- C11 (amended): for every Forward that is not running and whose node is `offline`, Start
returns ErrNodeOffline and leaves the world exactly as it was (no call of the per-node
client, no store write). Start of a Tunnel that is not running does the same when its entry
node is `offline`, and when its entry node is not offline and its exit node is `offline`. -/
theorem Start_node_offline :
    (∀ (w : World) (id : Nat) (forward : GostForward) (node : GostNode),
      ForwardRepository.FindByID w id = some forward →
      forward.Status ≠ ForwardStatusRunning →
      NodeRepository.FindByID w forward.NodeID = some node →
      node.Status = NodeStatusOffline →
      ForwardService.Start w id = (some .ErrNodeOffline, w)) ∧
    (∀ (w : World) (id : Nat) (tunnel : GostTunnel) (entryNode : GostNode),
      TunnelRepository.FindByID w id = some tunnel →
      tunnel.Status ≠ TunnelStatusRunning →
      NodeRepository.FindByID w tunnel.EntryNodeID = some entryNode →
      entryNode.Status = NodeStatusOffline →
      TunnelService.Start w id = (some .ErrNodeOffline, w)) ∧
    (∀ (w : World) (id : Nat) (tunnel : GostTunnel) (entryNode exitNode : GostNode),
      TunnelRepository.FindByID w id = some tunnel →
      tunnel.Status ≠ TunnelStatusRunning →
      NodeRepository.FindByID w tunnel.EntryNodeID = some entryNode →
      entryNode.Status ≠ NodeStatusOffline →
      NodeRepository.FindByID w tunnel.ExitNodeID = some exitNode →
      exitNode.Status = NodeStatusOffline →
      TunnelService.Start w id = (some .ErrNodeOffline, w)) := by
  refine ⟨?_, ?_, ?_⟩
  · intro w id forward node hfind hnot hnode hoff
    unfold ForwardService.Start
    simp only [hfind, hnot, hnode, hoff, if_true, if_false]
  · intro w id tunnel entryNode hfind hnot hentry hoff
    unfold TunnelService.Start
    simp only [hfind, hnot, hentry, hoff, if_true, if_false]
  · intro w id tunnel entryNode exitNode hfind hnot hentry hon hexit hoff
    unfold TunnelService.Start
    simp only [hfind, hnot, hentry, hon, hexit, hoff, if_true, if_false]

/-- Witness of C11 (amended): Forward 7 on the offline node 1; Tunnel 3 with its entry node
1 offline; Tunnel 3 with its exit node 2 offline. -/
theorem Start_node_offline_witness :
    ForwardService.Start
        (worldOn [sampleNode1Offline, sampleNode2] [sampleForward 7 "stopped"] []) 7 =
      (some .ErrNodeOffline,
        worldOn [sampleNode1Offline, sampleNode2] [sampleForward 7 "stopped"] []) ∧
    TunnelService.Start
        (worldOn [sampleNode1Offline, sampleNode2] [] [sampleTunnel 3 "stopped"]) 3 =
      (some .ErrNodeOffline,
        worldOn [sampleNode1Offline, sampleNode2] [] [sampleTunnel 3 "stopped"]) ∧
    TunnelService.Start
        (worldOn [sampleNode1, sampleNode2Offline] [] [sampleTunnel 3 "error"]) 3 =
      (some .ErrNodeOffline,
        worldOn [sampleNode1, sampleNode2Offline] [] [sampleTunnel 3 "error"]) :=
  ⟨Start_node_offline.1
      (worldOn [sampleNode1Offline, sampleNode2] [sampleForward 7 "stopped"] []) 7
      (sampleForward 7 "stopped") sampleNode1Offline
      (by decide) (by decide) (by decide) (by decide),
   Start_node_offline.2.1
      (worldOn [sampleNode1Offline, sampleNode2] [] [sampleTunnel 3 "stopped"]) 3
      (sampleTunnel 3 "stopped") sampleNode1Offline
      (by decide) (by decide) (by decide) (by decide),
   Start_node_offline.2.2
      (worldOn [sampleNode1, sampleNode2Offline] [] [sampleTunnel 3 "error"]) 3
      (sampleTunnel 3 "error") sampleNode1 sampleNode2Offline
      (by decide) (by decide) (by decide) (by decide) (by decide) (by decide)⟩

/-- Start of a Forward when the createObserver call is refused: the error of
CreateObserver is returned right after that call, and nothing is written. -/
theorem ForwardStart_observer_fails (w : World) (id : Nat) (forward : GostForward)
    (node : GostNode) (cfg : SystemConfig)
    (hfind : ForwardRepository.FindByID w id = some forward)
    (hnot : forward.Status ≠ ForwardStatusRunning)
    (hnode : NodeRepository.FindByID w forward.NodeID = some node)
    (havail : node.Status ≠ NodeStatusOffline)
    (hcfg : w.sysConfig = some cfg) (hurl : cfg.PanelURL ≠ "")
    (hobs : ∀ k nd o, w.fails k (.CreateObserver nd o) = true) :
    ForwardService.Start w id =
      (some .ErrObserverCreateFailed,
        w.logged (.CreateObserver node.ID
          { Name := "observer-" ++ node.Name ++ "-" ++ toString id,
            Plugin := { Type_ := "http", Addr := cfg.PanelURL ++ "/api/v1/observer/report",
                        Timeout := "10s" } })) := by
  have hid : forward.ID = id := findForward_ID hfind
  unfold ForwardService.Start
  simp only [hfind, hnot, hnode, havail, CreateObserver, hcfg, hurl, World.issue, hobs,
    if_false, Bool.not_true, hid]

/-- Start of a Tunnel when createChain is accepted and the createObserver call is refused:
the error of CreateObserver is returned right after these two calls; no deleteChain is
issued and nothing is written. -/
theorem TunnelStart_observer_fails (w : World) (id : Nat) (tunnel : GostTunnel)
    (entryNode exitNode : GostNode) (cfg : SystemConfig)
    (hfind : TunnelRepository.FindByID w id = some tunnel)
    (hnot : tunnel.Status ≠ TunnelStatusRunning)
    (hentry : NodeRepository.FindByID w tunnel.EntryNodeID = some entryNode)
    (hentryOn : entryNode.Status ≠ NodeStatusOffline)
    (hexit : NodeRepository.FindByID w tunnel.ExitNodeID = some exitNode)
    (hexitOn : exitNode.Status ≠ NodeStatusOffline)
    (hhost : ExtractHost exitNode.APIURL ≠ "")
    (hcfg : w.sysConfig = some cfg) (hurl : cfg.PanelURL ≠ "")
    (hchain : ∀ k nd c, w.fails k (.CreateChain nd c) = false)
    (hobs : ∀ k nd o, w.fails k (.CreateObserver nd o) = true) :
    ∃ chain obs, chain.Name = "chain-tunnel-" ++ toString id ∧
      TunnelService.Start w id =
        (some .ErrObserverCreateFailed,
          (w.logged (.CreateChain entryNode.ID chain)).logged
            (.CreateObserver entryNode.ID obs)) := by
  have hid : tunnel.ID = id := findTunnel_ID hfind
  unfold TunnelService.Start
  simp only [hfind, hnot, hentry, hentryOn, hexit, hexitOn, hhost, CreateObserver, hcfg, hurl,
    World.issue, hchain, hobs, logged_fails, logged_sysConfig, if_false, Bool.not_false,
    Bool.not_true, hid]
  exact ⟨_, _, rfl, rfl⟩

/-- C12 (the code at the failing inputs): with the panel URL configured and a node that
refuses createObserver, Start of the stopped Forward 7 returns ErrObserverCreateFailed
after the one createObserver call and the stored status is still `stopped`, not `error`.
Start of the stopped Tunnel 3 returns the same error after createChain and createObserver;
its stored status is still `stopped`, and no deleteChain was issued. -/
theorem Start_observer_failure_keeps_status :
    (ForwardService.Start (observerFailingWorld [sampleForward 7 "stopped"] []) 7).1 =
      some .ErrObserverCreateFailed ∧
    (ForwardService.Start (observerFailingWorld [sampleForward 7 "stopped"] []) 7).2.calls =
      [.CreateObserver 1
        { Name := "observer-n1-7",
          Plugin := { Type_ := "http", Addr := "http://panel.example/api/v1/observer/report",
                      Timeout := "10s" } }] ∧
    (ForwardRepository.FindByID
      (ForwardService.Start (observerFailingWorld [sampleForward 7 "stopped"] []) 7).2 7).map
      (fun f => f.Status) = some "stopped" ∧
    (TunnelService.Start (observerFailingWorld [] [sampleTunnel 3 "stopped"]) 3).1 =
      some .ErrObserverCreateFailed ∧
    (TunnelService.Start (observerFailingWorld [] [sampleTunnel 3 "stopped"]) 3).2.calls =
      [.CreateChain 1
        { Name := "chain-tunnel-3",
          Hops := [{ Name := "hop-0",
                     Nodes := [{ Name := "exit-relay", Addr := "10.0.0.2:8443",
                                 ConnectorType := "relay", DialerType := "tcp" }] }] },
       .CreateObserver 1
        { Name := "observer-n1-3",
          Plugin := { Type_ := "http", Addr := "http://panel.example/api/v1/observer/report",
                      Timeout := "10s" } }] ∧
    (TunnelRepository.FindByID
      (TunnelService.Start (observerFailingWorld [] [sampleTunnel 3 "stopped"]) 3).2 3).map
      (fun t => t.Status) = some "stopped" := by
  decide

/-! ### Lifecycle orchestrator: stopping -/

theorem logged_forwards (w : World) (c : Call) : (w.logged c).forwards = w.forwards := rfl

theorem logged_tunnels (w : World) (c : Call) : (w.logged c).tunnels = w.tunnels := rfl

theorem logged_nodes (w : World) (c : Call) : (w.logged c).nodes = w.nodes := rfl

/-- What a status update does to the rows of the forwards table: nothing when the store
refuses it, otherwise the status of the rows with that id is set. -/
theorem UpdateStatus_forwards (w : World) (id : Nat) (st : ForwardStatus) :
    (ForwardRepository.UpdateStatus w id st).2.forwards =
      if w.fails w.calls.length (.UpdateFields .gost_forwards id [("status", .str st)]) = true
      then w.forwards
      else w.forwards.map fun f => if f.ID = id then { f with Status := st } else f := by
  unfold ForwardRepository.UpdateStatus BaseRepository.UpdateField
  cases h : w.fails w.calls.length (.UpdateFields .gost_forwards id [("status", .str st)])
  · rw [UpdateFields_ok w _ _ _ h, if_neg (by simp)]
    simp [World.applyUpdate, logged_forwards, setForwardField]
  · rw [UpdateFields_fail w _ _ _ h, if_pos rfl]
    rfl

/-- The same for the tunnels table. -/
theorem UpdateStatus_tunnels (w : World) (id : Nat) (st : TunnelStatus) :
    (TunnelRepository.UpdateStatus w id st).2.tunnels =
      if w.fails w.calls.length (.UpdateFields .gost_tunnels id [("status", .str st)]) = true
      then w.tunnels
      else w.tunnels.map fun t => if t.ID = id then { t with Status := st } else t := by
  unfold TunnelRepository.UpdateStatus BaseRepository.UpdateField
  cases h : w.fails w.calls.length (.UpdateFields .gost_tunnels id [("status", .str st)])
  · rw [UpdateFields_ok w _ _ _ h, if_neg (by simp)]
    simp [World.applyUpdate, logged_tunnels, setTunnelField]
  · rw [UpdateFields_fail w _ _ _ h, if_pos rfl]
    rfl

theorem UpdateFields_forwards_other (w : World) (id : Nat) (fields : List (String × Value)) :
    (BaseRepository.UpdateFields w .gost_tunnels id fields).2.forwards = w.forwards := by
  cases h : w.fails w.calls.length (.UpdateFields .gost_tunnels id fields)
  · rw [UpdateFields_ok w _ id fields h]; rfl
  · rw [UpdateFields_fail w _ id fields h]; rfl

theorem UpdateFields_tunnels_other (w : World) (id : Nat) (fields : List (String × Value)) :
    (BaseRepository.UpdateFields w .gost_forwards id fields).2.tunnels = w.tunnels := by
  cases h : w.fails w.calls.length (.UpdateFields .gost_forwards id fields)
  · rw [UpdateFields_ok w _ id fields h]; rfl
  · rw [UpdateFields_fail w _ id fields h]; rfl

/-- C15: for every running Forward whose node exists and is not offline and whose
service_id is not empty, Stop issues deleteService with that service_id, then the status
update, then saveConfig, and returns success, whatever the outcome of deleteService (no
assumption is made on which calls fail); when the store accepts the status update the
stored row is the old row with status `stopped`. -/
theorem ForwardStop_deleteService_best_effort (w : World) (id : Nat) (forward : GostForward)
    (node : GostNode)
    (hfind : ForwardRepository.FindByID w id = some forward)
    (hrun : forward.Status = ForwardStatusRunning)
    (hnode : NodeRepository.FindByID w forward.NodeID = some node)
    (hon : node.Status ≠ NodeStatusOffline)
    (hsid : forward.ServiceID ≠ "") :
    (ForwardService.Stop w id).1 = none ∧
    (ForwardService.Stop w id).2.calls = w.calls ++
      [.DeleteService node.ID forward.ServiceID,
       .UpdateFields .gost_forwards id [("status", .str ForwardStatusStopped)],
       .SaveConfig node.ID] ∧
    (w.fails (w.calls.length + 1)
        (.UpdateFields .gost_forwards id [("status", .str ForwardStatusStopped)]) = false →
      ForwardRepository.FindByID (ForwardService.Stop w id).2 id =
        some { forward with Status := ForwardStatusStopped }) := by
  have hid : forward.ID = id := findForward_ID hfind
  unfold ForwardService.Stop
  simp only [hfind, hrun, hnode, hon, hsid, ne_eq, not_true_eq_false, not_false_eq_true,
    if_true, if_false, issue_snd, ForwardRepository.UpdateStatus, BaseRepository.UpdateField]
  refine ⟨trivial, ?_, ?_⟩
  · simp only [UpdateFields_calls, logged_calls, List.append_assoc, List.singleton_append,
      List.cons_append, List.nil_append]
  · intro hok
    simp only [findForward_UpdateFields, findForward_logged, hfind, logged_fails, logged_calls,
      List.length_append, List.length_singleton, hok]
    simp [setForwardField, hid]

/-- Witness of C15: the running Forward 7 with service "forward-7", once with a node that
refuses every call (deleteService fails) and once with a node that accepts every call. -/
theorem ForwardStop_deleteService_best_effort_witness :
    ((ForwardService.Stop
        (remoteFailingWorld [{ sampleForward 7 "running" with ServiceID := "forward-7" }] [])
        7).1 = none ∧
      ForwardRepository.FindByID
        (ForwardService.Stop
          (remoteFailingWorld [{ sampleForward 7 "running" with ServiceID := "forward-7" }] [])
          7).2 7 =
        some { sampleForward 7 "stopped" with ServiceID := "forward-7" }) ∧
    ((ForwardService.Stop
        (worldOn sampleNodes [{ sampleForward 7 "running" with ServiceID := "forward-7" }] [])
        7).1 = none ∧
      ForwardRepository.FindByID
        (ForwardService.Stop
          (worldOn sampleNodes [{ sampleForward 7 "running" with ServiceID := "forward-7" }] [])
          7).2 7 =
        some { sampleForward 7 "stopped" with ServiceID := "forward-7" }) :=
  have h1 := ForwardStop_deleteService_best_effort
    (remoteFailingWorld [{ sampleForward 7 "running" with ServiceID := "forward-7" }] []) 7
    { sampleForward 7 "running" with ServiceID := "forward-7" } sampleNode1
    (by decide) (by decide) (by decide) (by decide) (by decide)
  have h2 := ForwardStop_deleteService_best_effort
    (worldOn sampleNodes [{ sampleForward 7 "running" with ServiceID := "forward-7" }] []) 7
    { sampleForward 7 "running" with ServiceID := "forward-7" } sampleNode1
    (by decide) (by decide) (by decide) (by decide) (by decide)
  ⟨⟨h1.1, h1.2.2 rfl⟩, ⟨h2.1, h2.2.2 rfl⟩⟩

theorem findForward_congr {w1 w2 : World} (h : w1.forwards = w2.forwards) (j : Nat) :
    ForwardRepository.FindByID w1 j = ForwardRepository.FindByID w2 j := by
  unfold ForwardRepository.FindByID; rw [h]

theorem findTunnel_congr {w1 w2 : World} (h : w1.tunnels = w2.tunnels) (j : Nat) :
    TunnelRepository.FindByID w1 j = TunnelRepository.FindByID w2 j := by
  unfold TunnelRepository.FindByID; rw [h]

/-- The rows after Stop of a Forward: the tables are untouched, or the forwards table is
the old one with the status of the rows of that id set to `stopped`. -/
theorem ForwardStop_rows (w : World) (id : Nat) :
    ((ForwardService.Stop w id).2.forwards = w.forwards ∨
      (ForwardService.Stop w id).2.forwards =
        w.forwards.map fun f =>
          if f.ID = id then { f with Status := ForwardStatusStopped } else f) ∧
    (ForwardService.Stop w id).2.tunnels = w.tunnels ∧
    (ForwardService.Stop w id).2.nodes = w.nodes := by
  unfold ForwardService.Stop
  cases hfind : ForwardRepository.FindByID w id with
  | none => exact ⟨Or.inl rfl, rfl, rfl⟩
  | some forward =>
    simp only []
    by_cases hrun : forward.Status ≠ ForwardStatusRunning
    · rw [if_pos hrun]; exact ⟨Or.inl rfl, rfl, rfl⟩
    · rw [if_neg hrun]
      cases hnode : NodeRepository.FindByID w forward.NodeID with
      | none => exact ⟨Or.inl rfl, rfl, rfl⟩
      | some node =>
        simp only []
        by_cases hoff : node.Status = NodeStatusOffline
        · rw [if_pos hoff]; exact ⟨Or.inl rfl, rfl, rfl⟩
        · rw [if_neg hoff]
          simp only [issue_snd, logged_forwards, logged_tunnels, logged_nodes]
          have hw1 : ∀ w1 : World, w1.forwards = w.forwards → w1.tunnels = w.tunnels →
              w1.nodes = w.nodes →
              ((ForwardRepository.UpdateStatus w1 id ForwardStatusStopped).2.forwards =
                  w.forwards ∨
                (ForwardRepository.UpdateStatus w1 id ForwardStatusStopped).2.forwards =
                  w.forwards.map fun f =>
                    if f.ID = id then { f with Status := ForwardStatusStopped } else f) ∧
              (ForwardRepository.UpdateStatus w1 id ForwardStatusStopped).2.tunnels =
                w.tunnels ∧
              (ForwardRepository.UpdateStatus w1 id ForwardStatusStopped).2.nodes =
                w.nodes := by
            intro w1 hf ht hn
            refine ⟨?_, ?_, ?_⟩
            · rw [UpdateStatus_forwards, hf]
              split
              · exact Or.inl rfl
              · exact Or.inr rfl
            · unfold ForwardRepository.UpdateStatus BaseRepository.UpdateField
              rw [UpdateFields_tunnels_other, ht]
            · unfold ForwardRepository.UpdateStatus BaseRepository.UpdateField
              rw [UpdateFields_nodes, hn]
          split
          · exact hw1 _ rfl rfl rfl
          · exact hw1 _ rfl rfl rfl

/-- The rows after Stop of a Tunnel. -/
theorem TunnelStop_rows (w : World) (id : Nat) :
    ((TunnelService.Stop w id).2.tunnels = w.tunnels ∨
      (TunnelService.Stop w id).2.tunnels =
        w.tunnels.map fun t =>
          if t.ID = id then { t with Status := TunnelStatusStopped } else t) ∧
    (TunnelService.Stop w id).2.forwards = w.forwards ∧
    (TunnelService.Stop w id).2.nodes = w.nodes := by
  unfold TunnelService.Stop
  cases hfind : TunnelRepository.FindByID w id with
  | none => exact ⟨Or.inl rfl, rfl, rfl⟩
  | some tunnel =>
    simp only []
    by_cases hrun : tunnel.Status ≠ TunnelStatusRunning
    · rw [if_pos hrun]; exact ⟨Or.inl rfl, rfl, rfl⟩
    · rw [if_neg hrun]
      cases hnode : NodeRepository.FindByID w tunnel.EntryNodeID with
      | none => exact ⟨Or.inl rfl, rfl, rfl⟩
      | some entryNode =>
        simp only []
        by_cases hoff : entryNode.Status = NodeStatusOffline
        · rw [if_pos hoff]; exact ⟨Or.inl rfl, rfl, rfl⟩
        · rw [if_neg hoff]
          simp only [issue_snd]
          have hw1 : ∀ w1 : World, w1.forwards = w.forwards → w1.tunnels = w.tunnels →
              w1.nodes = w.nodes →
              ((TunnelRepository.UpdateStatus w1 id TunnelStatusStopped).2.tunnels =
                  w.tunnels ∨
                (TunnelRepository.UpdateStatus w1 id TunnelStatusStopped).2.tunnels =
                  w.tunnels.map fun t =>
                    if t.ID = id then { t with Status := TunnelStatusStopped } else t) ∧
              (TunnelRepository.UpdateStatus w1 id TunnelStatusStopped).2.forwards =
                w.forwards ∧
              (TunnelRepository.UpdateStatus w1 id TunnelStatusStopped).2.nodes =
                w.nodes := by
            intro w1 hf ht hn
            refine ⟨?_, ?_, ?_⟩
            · rw [UpdateStatus_tunnels, ht]
              split
              · exact Or.inl rfl
              · exact Or.inr rfl
            · unfold TunnelRepository.UpdateStatus BaseRepository.UpdateField
              rw [UpdateFields_forwards_other, hf]
            · unfold TunnelRepository.UpdateStatus BaseRepository.UpdateField
              rw [UpdateFields_nodes, hn]
          apply hw1
          · split <;> split <;> rfl
          · split <;> split <;> rfl
          · split <;> split <;> rfl

/-- C16: Stop changes at most the status of the stopped rule, for every world, every id and
whatever calls fail. After Stop of a Forward the forwards table is the old one, or the old
one with the status of the rule of that id set to `stopped`; the tunnels and the nodes are
untouched; hence for every rule the service_id, observer_id and traffic counters are what
they were, and the row of every other rule is what it was. The same holds for Stop of a
Tunnel, chain_id included, with the forwards untouched. -/
theorem Stop_changes_only_status :
    (∀ (w : World) (id : Nat),
      ((ForwardService.Stop w id).2.forwards = w.forwards ∨
        (ForwardService.Stop w id).2.forwards =
          w.forwards.map fun f =>
            if f.ID = id then { f with Status := ForwardStatusStopped } else f) ∧
      (ForwardService.Stop w id).2.tunnels = w.tunnels ∧
      (ForwardService.Stop w id).2.nodes = w.nodes ∧
      (∀ j, (ForwardRepository.FindByID (ForwardService.Stop w id).2 j).map forwardKept =
        (ForwardRepository.FindByID w j).map forwardKept) ∧
      (∀ j, j ≠ id →
        ForwardRepository.FindByID (ForwardService.Stop w id).2 j =
          ForwardRepository.FindByID w j)) ∧
    (∀ (w : World) (id : Nat),
      ((TunnelService.Stop w id).2.tunnels = w.tunnels ∨
        (TunnelService.Stop w id).2.tunnels =
          w.tunnels.map fun t =>
            if t.ID = id then { t with Status := TunnelStatusStopped } else t) ∧
      (TunnelService.Stop w id).2.forwards = w.forwards ∧
      (TunnelService.Stop w id).2.nodes = w.nodes ∧
      (∀ j, (TunnelRepository.FindByID (TunnelService.Stop w id).2 j).map tunnelKept =
        (TunnelRepository.FindByID w j).map tunnelKept) ∧
      (∀ j, j ≠ id →
        TunnelRepository.FindByID (TunnelService.Stop w id).2 j =
          TunnelRepository.FindByID w j)) := by
  constructor
  · intro w id
    obtain ⟨hrows, htun, hnodes⟩ := ForwardStop_rows w id
    refine ⟨hrows, htun, hnodes, ?_, ?_⟩
    · intro j
      rcases hrows with h | h
      · rw [findForward_congr h]
      · unfold ForwardRepository.FindByID
        rw [h, find_map_update GostForward.ID
          (fun f => { f with Status := ForwardStatusStopped }) (fun _ => rfl)]
        cases w.forwards.find? (fun f => f.ID == j) with
        | none => rfl
        | some f =>
          simp only [Option.map_some']
          split <;> rfl
    · intro j hj
      rcases hrows with h | h
      · rw [findForward_congr h]
      · unfold ForwardRepository.FindByID
        rw [h, find_map_update GostForward.ID
          (fun f => { f with Status := ForwardStatusStopped }) (fun _ => rfl)]
        cases hf : w.forwards.find? (fun f => f.ID == j) with
        | none => rfl
        | some f =>
          have hfj : f.ID = j := by
            have := List.find?_some hf
            simpa using this
          simp only [Option.map_some']
          rw [if_neg (by rw [hfj]; exact hj)]
  · intro w id
    obtain ⟨hrows, hfw, hnodes⟩ := TunnelStop_rows w id
    refine ⟨hrows, hfw, hnodes, ?_, ?_⟩
    · intro j
      rcases hrows with h | h
      · rw [findTunnel_congr h]
      · unfold TunnelRepository.FindByID
        rw [h, find_map_update GostTunnel.ID
          (fun t => { t with Status := TunnelStatusStopped }) (fun _ => rfl)]
        cases w.tunnels.find? (fun t => t.ID == j) with
        | none => rfl
        | some t =>
          simp only [Option.map_some']
          split <;> rfl
    · intro j hj
      rcases hrows with h | h
      · rw [findTunnel_congr h]
      · unfold TunnelRepository.FindByID
        rw [h, find_map_update GostTunnel.ID
          (fun t => { t with Status := TunnelStatusStopped }) (fun _ => rfl)]
        cases hf : w.tunnels.find? (fun t => t.ID == j) with
        | none => rfl
        | some t =>
          have htj : t.ID = j := by
            have := List.find?_some hf
            simpa using this
          simp only [Option.map_some']
          rw [if_neg (by rw [htj]; exact hj)]

/-- Witness of C16: Stop of the running Tunnel 3 and of the running Forward 7 (with a
service id on record) leaves the attributes other than the status as they were, also when
the node refuses every call. -/
theorem Stop_changes_only_status_witness :
    (ForwardRepository.FindByID
        (ForwardService.Stop
          (remoteFailingWorld [{ sampleForward 7 "running" with ServiceID := "forward-7" }]
            [sampleTunnel 3 "running"]) 7).2 7).map forwardKept =
      (ForwardRepository.FindByID
        (remoteFailingWorld [{ sampleForward 7 "running" with ServiceID := "forward-7" }]
          [sampleTunnel 3 "running"]) 7).map forwardKept ∧
    TunnelRepository.FindByID
        (TunnelService.Stop
          (remoteFailingWorld [] [sampleTunnel 3 "running", sampleTunnel 4 "running"]) 3).2 4 =
      TunnelRepository.FindByID
        (remoteFailingWorld [] [sampleTunnel 3 "running", sampleTunnel 4 "running"]) 4 :=
  ⟨(Stop_changes_only_status.1
      (remoteFailingWorld [{ sampleForward 7 "running" with ServiceID := "forward-7" }]
        [sampleTunnel 3 "running"]) 7).2.2.2.1 7,
   (Stop_changes_only_status.2
      (remoteFailingWorld [] [sampleTunnel 3 "running", sampleTunnel 4 "running"])
      3).2.2.2.2 4 (by decide)⟩

/-! ### Desired-state changes: creating rules -/

theorem le_foldl_max_init (l : List Nat) : ∀ b : Nat, b ≤ l.foldl max b := by
  induction l with
  | nil => intro b; exact le_refl b
  | cons z zs ih => intro b; exact le_trans (le_max_left b z) (ih (max b z))

theorem le_foldl_max_of_mem (ids : List Nat) :
    ∀ (a x : Nat), x ∈ ids → x ≤ ids.foldl max a := by
  induction ids with
  | nil => intro a x h; cases h
  | cons y ys ih =>
    intro a x h
    simp only [List.foldl_cons]
    rcases List.mem_cons.mp h with rfl | h
    · exact le_trans (le_max_right a x) (le_foldl_max_init ys (max a x))
    · exact ih _ _ h

/-- The key given to a new row is the key of no listed row. -/
theorem forwardDefaults_ID (f : GostForward) : (forwardDefaults f).ID = f.ID := rfl

theorem tunnelDefaults_ID (t : GostTunnel) : (tunnelDefaults t).ID = t.ID := rfl

theorem nextID_fresh (ids : List Nat) (x : Nat) (h : x ∈ ids) : x ≠ nextID ids := by
  have := le_foldl_max_of_mem ids 0 x h
  unfold nextID
  omega

theorem forward_ExistsByPort_of_mem (w : World) (f : GostForward) (nodeID : Nat) (port : Int)
    (hmem : f ∈ w.forwards) (hnode : f.NodeID = nodeID) (hport : f.ListenPort = port) :
    ForwardRepository.ExistsByPort w nodeID port none = true := by
  unfold ForwardRepository.ExistsByPort
  apply decide_eq_true
  apply List.length_pos_of_mem (a := f)
  rw [List.mem_filter]
  exact ⟨hmem, by simp [hnode, hport]⟩

theorem forward_ExistsByPort_of_free (w : World) (nodeID : Nat) (port : Int)
    (hfree : ∀ f ∈ w.forwards, f.NodeID = nodeID → f.ListenPort ≠ port) :
    ForwardRepository.ExistsByPort w nodeID port none = false := by
  unfold ForwardRepository.ExistsByPort
  have hnil : (w.forwards.filter fun f =>
      f.NodeID == nodeID && f.ListenPort == port &&
        (match (none : Option Nat) with
         | some ex => f.ID != ex
         | none => true)) = [] := by
    rw [List.filter_eq_nil_iff]
    intro f hf
    by_cases hn : f.NodeID = nodeID
    · simp [hn, hfree f hf hn]
    · simp [hn]
  rw [hnil]
  rfl

/-- C17: for every world in which a listed (non-deleted) Forward on node A has listen_port
p and node A is registered, Create with node A and port p returns ErrForwardPortExists and
leaves the world exactly as it was (no row is added, no write is sent). For every
registered node B on which no listed Forward uses p, Create with node B and port p, the
store accepting the insertion, returns the stored row: it is on node B with port p and
status `stopped`, it is appended to the forwards table under a key no other row has, and it
is the row found under that key. -/
theorem ForwardCreate_port_conflict :
    (∀ (w : World) (req : CreateForwardReq) (f : GostForward) (nodeA : GostNode),
      f ∈ w.forwards → f.NodeID = req.NodeID → f.ListenPort = req.ListenPort →
      NodeRepository.FindByID w req.NodeID = some nodeA →
      ForwardService.Create w req = (.error .ErrForwardPortExists, w)) ∧
    (∀ (w : World) (req : CreateForwardReq) (nodeB : GostNode),
      NodeRepository.FindByID w req.NodeID = some nodeB →
      (∀ f ∈ w.forwards, f.NodeID = req.NodeID → f.ListenPort ≠ req.ListenPort) →
      (∀ row, w.fails w.calls.length (.CreateForward row) = false) →
      ∃ stored,
        (ForwardService.Create w req).1 = .ok stored ∧
        stored.NodeID = req.NodeID ∧ stored.ListenPort = req.ListenPort ∧
        stored.Status = ForwardStatusStopped ∧
        (ForwardService.Create w req).2.forwards = w.forwards ++ [stored] ∧
        (∀ f ∈ w.forwards, f.ID ≠ stored.ID) ∧
        ForwardRepository.FindByID (ForwardService.Create w req).2 stored.ID = some stored) := by
  constructor
  · intro w req f nodeA hmem hnode hport hA
    unfold ForwardService.Create
    simp only [hA, forward_ExistsByPort_of_mem w f req.NodeID req.ListenPort hmem hnode hport,
      if_true]
  · intro w req nodeB hB hfree hok
    have hfresh : ∀ f ∈ w.forwards,
        f.ID ≠ nextID ((w.forwards.map fun f => f.ID) ++ w.deletedForwards) :=
      fun f hf => nextID_fresh _ f.ID (List.mem_append_left _ (List.mem_map_of_mem _ hf))
    unfold ForwardService.Create
    simp only [hB, forward_ExistsByPort_of_free w req.NodeID req.ListenPort hfree,
      ForwardRepository.Create, World.issue, hok, Bool.not_false, forwardDefaults_ID, if_true,
      logged_forwards, Bool.false_eq_true, if_false]
    refine ⟨_, rfl, rfl, rfl, rfl, rfl, hfresh, ?_⟩
    unfold ForwardRepository.FindByID
    simp only [List.find?_append]
    have hnone : w.forwards.find?
        (fun f => f.ID == nextID ((w.forwards.map fun f => f.ID) ++ w.deletedForwards)) =
          none := by
      rw [List.find?_eq_none]
      intro f hf
      simpa using hfresh f hf
    rw [hnone]
    simp

/-- Witness of C17: port 8080 on node 1 twice, then on node 2. -/
theorem ForwardCreate_port_conflict_witness :
    (ForwardService.Create (worldOn sampleNodes [] []) (sampleCreateForwardReq 1)).1 =
      .ok { sampleForward 1 "stopped" with Name := "web" } ∧
    ForwardService.Create
        (ForwardService.Create (worldOn sampleNodes [] []) (sampleCreateForwardReq 1)).2
        (sampleCreateForwardReq 1) =
      (.error .ErrForwardPortExists,
        (ForwardService.Create (worldOn sampleNodes [] []) (sampleCreateForwardReq 1)).2) ∧
    (∃ stored,
      (ForwardService.Create
        (ForwardService.Create (worldOn sampleNodes [] []) (sampleCreateForwardReq 1)).2
        (sampleCreateForwardReq 2)).1 = .ok stored ∧
      stored.NodeID = 2 ∧ stored.ListenPort = 8080 ∧ stored.Status = "stopped") :=
  ⟨rfl,
   ForwardCreate_port_conflict.1
      (ForwardService.Create (worldOn sampleNodes [] []) (sampleCreateForwardReq 1)).2
      (sampleCreateForwardReq 1) { sampleForward 1 "stopped" with Name := "web" } sampleNode1
      (by decide) (by decide) (by decide) (by decide),
   by
    obtain ⟨stored, h1, h2, h3, h4, _⟩ := ForwardCreate_port_conflict.2
      (ForwardService.Create (worldOn sampleNodes [] []) (sampleCreateForwardReq 1)).2
      (sampleCreateForwardReq 2) sampleNode2 (by decide) (by decide) (fun _ => rfl)
    exact ⟨stored, h1, h2, h3, h4⟩⟩

/-- C19 (counterexample): nodes 2 and 1 are distinct and registered, the exit node 1 has
relay_port 0, and a tunnel entering at node 2 already listens on port 9000: Create from
node 2 to node 1 at port 9000 fails with ErrPortInUse, not with ErrExitNodeNoRelayPort. -/
theorem TunnelCreate_relay_port_counterexample :
    (NodeRepository.FindByID portTakenWorld 2).map (fun n => n.RelayPort) = some 8443 ∧
    (NodeRepository.FindByID portTakenWorld 1).map (fun n => n.RelayPort) = some 0 ∧
    TunnelService.Create portTakenWorld (sampleCreateTunnelReq 2 1) =
      (.error .ErrPortInUse, portTakenWorld) ∧
    (Except.error Err.ErrPortInUse : Except Err GostTunnel) ≠
      .error .ErrExitNodeNoRelayPort :=
  ⟨by decide, by decide, rfl, fun h => absurd (Except.error.inj h) (by decide)⟩

/-- C19 (amended): for every create request whose entry and exit nodes are distinct and
both registered and whose exit node has relay_port 0, Create fails and leaves the world
exactly as it was (no tunnel is stored): with ErrExitNodeNoRelayPort when no tunnel entering
at the entry node listens on the entry port, with ErrPortInUse when one does. A tunnel that
Create returns as stored has the relay_port of the registered exit node, which is not 0,
and is a row of the tunnels table afterwards. -/
theorem TunnelCreate_relay_port :
    (∀ (w : World) (req : CreateTunnelReq) (entryNode exitNode : GostNode),
      req.EntryNodeID ≠ req.ExitNodeID →
      NodeRepository.FindByID w req.EntryNodeID = some entryNode →
      NodeRepository.FindByID w req.ExitNodeID = some exitNode →
      exitNode.RelayPort = 0 →
      (TunnelRepository.ExistsByPort w req.EntryNodeID req.EntryPort none = false →
        TunnelService.Create w req = (.error .ErrExitNodeNoRelayPort, w)) ∧
      (TunnelRepository.ExistsByPort w req.EntryNodeID req.EntryPort none = true →
        TunnelService.Create w req = (.error .ErrPortInUse, w))) ∧
    (∀ (w : World) (req : CreateTunnelReq) (stored : GostTunnel),
      (TunnelService.Create w req).1 = .ok stored →
      ∃ exitNode,
        NodeRepository.FindByID w req.ExitNodeID = some exitNode ∧
        exitNode.RelayPort ≠ 0 ∧ stored.RelayPort = exitNode.RelayPort ∧
        stored ∈ (TunnelService.Create w req).2.tunnels) := by
  constructor
  · intro w req entryNode exitNode hne hentry hexit hrelay
    constructor
    · intro hfree
      unfold TunnelService.Create
      simp only [hne, hentry, hexit, hfree, hrelay, if_true, if_false, Bool.false_eq_true]
    · intro htaken
      unfold TunnelService.Create
      simp only [hne, hentry, hexit, htaken, if_true, if_false]
  · intro w req stored h
    unfold TunnelService.Create at h ⊢
    by_cases hsame : req.EntryNodeID = req.ExitNodeID
    · rw [if_pos hsame] at h; cases h
    · rw [if_neg hsame] at h ⊢
      cases hentry : NodeRepository.FindByID w req.EntryNodeID with
      | none => rw [hentry] at h; cases h
      | some entryNode =>
        rw [hentry] at h
        simp only [] at h ⊢
        cases hexit : NodeRepository.FindByID w req.ExitNodeID with
        | none => rw [hexit] at h; cases h
        | some exitNode =>
          rw [hexit] at h
          simp only [] at h ⊢
          by_cases hport : TunnelRepository.ExistsByPort w req.EntryNodeID req.EntryPort none
              = true
          · rw [if_pos hport] at h; cases h
          · rw [if_neg hport] at h ⊢
            by_cases hrelay : exitNode.RelayPort = 0
            · rw [if_pos hrelay] at h; cases h
            · rw [if_neg hrelay] at h ⊢
              refine ⟨exitNode, rfl, hrelay, ?_, ?_⟩
              · unfold TunnelRepository.Create at h
                cases hf : w.fails w.calls.length (.CreateTunnel
                    { ID := 0, Name := req.Name, EntryNodeID := req.EntryNodeID,
                      ExitNodeID := req.ExitNodeID, Protocol := req.Protocol,
                      ListenPort := req.EntryPort, Targets := req.Targets,
                      Strategy := req.Strategy, RelayPort := exitNode.RelayPort,
                      Remark := req.Remark, Status := TunnelStatusStopped, ServiceID := "",
                      ChainID := "", ObserverID := "", InputBytes := 0, OutputBytes := 0,
                      TotalBytes := 0, TotalRequests := 0 })
                · simp only [World.issue, hf, Bool.not_false, tunnelDefaults_ID, if_true] at h
                  have := Except.ok.inj h
                  rw [← this]
                  show (if exitNode.RelayPort = 0 then 8443 else exitNode.RelayPort) =
                    exitNode.RelayPort
                  rw [if_neg hrelay]
                · simp only [World.issue, hf, Bool.not_true] at h
                  cases h
              · unfold TunnelRepository.Create at h ⊢
                cases hf : w.fails w.calls.length (.CreateTunnel
                    { ID := 0, Name := req.Name, EntryNodeID := req.EntryNodeID,
                      ExitNodeID := req.ExitNodeID, Protocol := req.Protocol,
                      ListenPort := req.EntryPort, Targets := req.Targets,
                      Strategy := req.Strategy, RelayPort := exitNode.RelayPort,
                      Remark := req.Remark, Status := TunnelStatusStopped, ServiceID := "",
                      ChainID := "", ObserverID := "", InputBytes := 0, OutputBytes := 0,
                      TotalBytes := 0, TotalRequests := 0 })
                · simp only [World.issue, hf, Bool.not_false, tunnelDefaults_ID, if_true] at h ⊢
                  have := Except.ok.inj h
                  rw [← this]
                  simp [logged_tunnels]
                · simp only [World.issue, hf, Bool.not_true] at h
                  cases h

/-- Witness of C19 (amended): from node 2 to node 1 (relay_port 0) at the free port 9000
and at the taken port 9000; a tunnel stored from node 1 to node 2 carries relay port 8443. -/
theorem TunnelCreate_relay_port_witness :
    TunnelService.Create (worldOn sampleNodes [] []) (sampleCreateTunnelReq 2 1) =
      (.error .ErrExitNodeNoRelayPort, worldOn sampleNodes [] []) ∧
    TunnelService.Create portTakenWorld (sampleCreateTunnelReq 2 1) =
      (.error .ErrPortInUse, portTakenWorld) ∧
    (∃ exitNode,
      NodeRepository.FindByID (worldOn sampleNodes [] []) 2 = some exitNode ∧
      exitNode.RelayPort ≠ 0 ∧
      ({ sampleTunnel 1 "stopped" with ServiceID := "", ChainID := "" } : GostTunnel).RelayPort =
        exitNode.RelayPort ∧
      { sampleTunnel 1 "stopped" with ServiceID := "", ChainID := "" } ∈
        (TunnelService.Create (worldOn sampleNodes [] []) (sampleCreateTunnelReq 1 2)).2.tunnels) :=
  ⟨(TunnelCreate_relay_port.1 (worldOn sampleNodes [] []) (sampleCreateTunnelReq 2 1)
      sampleNode2 sampleNode1 (by decide) (by decide) (by decide) (by decide)).1 (by decide),
   (TunnelCreate_relay_port.1 portTakenWorld (sampleCreateTunnelReq 2 1)
      sampleNode2 sampleNode1 (by decide) (by decide) (by decide) (by decide)).2 (by decide),
   TunnelCreate_relay_port.2 (worldOn sampleNodes [] []) (sampleCreateTunnelReq 1 2)
      { sampleTunnel 1 "stopped" with ServiceID := "", ChainID := "" } rfl⟩

/-! ### Telemetry ingestion: acknowledgement and the naming convention -/

/-- Events leave the rows as they were when the store refuses every column update. -/
theorem handleEvents_rows_of_store_failing (es : List ObserverEvent) :
    ∀ w : World, (∀ k table id fields, w.fails k (.UpdateFields table id fields) = true) →
      (ObserverService.handleEvents w es).forwards = w.forwards ∧
      (ObserverService.handleEvents w es).tunnels = w.tunnels := by
  induction es with
  | nil => intro w _; exact ⟨rfl, rfl⟩
  | cons e es ih =>
    intro w hfail
    simp only [ObserverService.handleEvents]
    have hfail1 : ∀ k table id fields,
        (ObserverService.processEvent w e).2.fails k (.UpdateFields table id fields) = true := by
      intro k table id fields
      rw [processEvent_fails]
      exact hfail k table id fields
    obtain ⟨h1, h2⟩ := ih _ hfail1
    rw [h1, h2]
    rcases processEvent_cases w e with h | ⟨table, id, fields, h⟩
    · rw [h]; exact ⟨rfl, rfl⟩
    · rw [h, UpdateFields_fail w table id fields (hfail _ _ _ _)]
      exact ⟨rfl, rfl⟩

/-- C22: for every world (so whatever calls fail) and every request, HandleReport returns
no error, and the Report handler, once the request is bound, answers 200 with ok = true,
never 500 with ok = false. This holds in particular when the store refuses every update, in
which case no row of the forwards and tunnels tables changes. -/
theorem HandleReport_always_acknowledges (w : World) (req : ObserverReportReq) :
    (ObserverService.HandleReport w req).1 = none ∧
    (ObserverHandler.Report w req).1 = (200, true) ∧
    (ObserverHandler.Report w req).1 ≠ (500, false) ∧
    ((∀ k table id fields, w.fails k (.UpdateFields table id fields) = true) →
      (ObserverService.HandleReport w req).2.forwards = w.forwards ∧
      (ObserverService.HandleReport w req).2.tunnels = w.tunnels) := by
  have hreport : (ObserverHandler.Report w req).1 = (200, true) := rfl
  refine ⟨rfl, hreport, ?_, fun hfail => ?_⟩
  · rw [hreport]; decide
  · exact handleEvents_rows_of_store_failing req.Events w hfail

/-- Witness of C22: a report for Forward 42 and a malformed event against a store that
refuses every write. -/
theorem HandleReport_always_acknowledges_witness :
    (ObserverHandler.Report (storeFailingWorld [sampleForward 42 "running"] [])
      { Events := [statsEvent .gost_forwards 42 100 50 3, malformedEvent "forward-abc"] }).1 =
      (200, true) ∧
    (ObserverService.HandleReport (storeFailingWorld [sampleForward 42 "running"] [])
      { Events := [statsEvent .gost_forwards 42 100 50 3, malformedEvent "forward-abc"]
      }).2.forwards = [sampleForward 42 "running"] :=
  have h := HandleReport_always_acknowledges
    (storeFailingWorld [sampleForward 42 "running"] [])
    { Events := [statsEvent .gost_forwards 42 100 50 3, malformedEvent "forward-abc"] }
  ⟨h.2.1, (h.2.2.2 (fun _ _ _ _ => rfl)).1⟩

/-! ### Status mapping: Forward against Tunnel -/

/-- C28: for every state string s, GostStateToTunnelStatus(s, true) is the same status name
as GostStateToForwardStatus(s); GostStateToTunnelStatus(s, false) is never `running`; and
GostStateToTunnelStatus(s, false) differs from GostStateToTunnelStatus(s, true) exactly when
s is "ready" or "running". -/
theorem status_mappings_agree (s : String) :
    GostStateToTunnelStatus s true = GostStateToForwardStatus s ∧
    GostStateToTunnelStatus s false ≠ TunnelStatusRunning ∧
    (GostStateToTunnelStatus s false ≠ GostStateToTunnelStatus s true ↔
      (s = "ready" ∨ s = "running")) := by
  unfold GostStateToTunnelStatus GostStateToForwardStatus
  by_cases h1 : s = "ready" ∨ s = "running"
  · simp only [if_pos h1, if_true]
    refine ⟨rfl, by decide, ?_⟩
    exact ⟨fun _ => h1, fun _ => by decide⟩
  · simp only [if_neg h1]
    by_cases h2 : s = "failed"
    · simp only [if_pos h2]
      exact ⟨rfl, by decide, ⟨fun h => absurd rfl h, fun h => absurd h h1⟩⟩
    · simp only [if_neg h2]
      exact ⟨rfl, by decide, ⟨fun h => absurd rfl h, fun h => absurd h h1⟩⟩

/-! ### Observer names and the chain of a failed tunnel start -/

/-- C29: whenever CreateObserver returns no error, the name it returns is "observer-"
followed by the node name, "-" and the resource id in decimal, whatever the kind of the rule
it is created for. For Forward 5 on node 1 and Tunnel 5 entering at node 1, both starts
succeed, both issue createObserver with the one name "observer-n1-5", and both rows store
that name as their observer id. -/
theorem observer_name_ignores_rule_kind :
    (∀ (w : World) (client : Nat) (nodeName : String) (resourceID : Nat),
      (CreateObserver w client nodeName resourceID).1.2 = none →
      (CreateObserver w client nodeName resourceID).1.1 =
        "observer-" ++ nodeName ++ "-" ++ toString resourceID) ∧
    (ForwardService.Start
      (worldOn sampleNodes [sampleForward 5 "stopped"] [sampleTunnel 5 "stopped"]) 5).1 = none ∧
    (TunnelService.Start
      (worldOn sampleNodes [sampleForward 5 "stopped"] [sampleTunnel 5 "stopped"]) 5).1 = none ∧
    observerNames (ForwardService.Start
      (worldOn sampleNodes [sampleForward 5 "stopped"] [sampleTunnel 5 "stopped"]) 5).2.calls =
      ["observer-n1-5"] ∧
    observerNames (TunnelService.Start
      (worldOn sampleNodes [sampleForward 5 "stopped"] [sampleTunnel 5 "stopped"]) 5).2.calls =
      ["observer-n1-5"] ∧
    (ForwardRepository.FindByID (ForwardService.Start
      (worldOn sampleNodes [sampleForward 5 "stopped"] [sampleTunnel 5 "stopped"]) 5).2 5).map
      (fun f => f.ObserverID) = some "observer-n1-5" ∧
    (TunnelRepository.FindByID (TunnelService.Start
      (worldOn sampleNodes [sampleForward 5 "stopped"] [sampleTunnel 5 "stopped"]) 5).2 5).map
      (fun t => t.ObserverID) = some "observer-n1-5" := by
  refine ⟨?_, by decide, by decide, by decide, by decide, by decide, by decide⟩
  intro w client nodeName resourceID h
  unfold CreateObserver at h ⊢
  cases hc : w.sysConfig with
  | none => simp [hc] at h
  | some cfg =>
    simp only [hc] at h ⊢
    by_cases hu : cfg.PanelURL = ""
    · simp [hu] at h
    · simp only [hu, if_false] at h ⊢
      cases hf : w.fails w.calls.length (.CreateObserver client
          { Name := "observer-" ++ nodeName ++ "-" ++ toString resourceID,
            Plugin := { Type_ := "http", Addr := cfg.PanelURL ++ "/api/v1/observer/report",
                        Timeout := "10s" } }) with
      | true => simp [World.issue, hf] at h
      | false => simp [World.issue, hf]

/-- Witness of C29: the observer created for resource 5 on the node named "n1" in a world
where every call succeeds. -/
theorem observer_name_ignores_rule_kind_witness :
    (CreateObserver (worldOn sampleNodes [] []) 1 "n1" 5).1.1 = "observer-n1-5" :=
  observer_name_ignores_rule_kind.1 (worldOn sampleNodes [] []) 1 "n1" 5 (by decide)

/-- C26 (the code at the failing input): Start of the stopped Tunnel 3 on a node that accepts
createChain and refuses createObserver returns ErrObserverCreateFailed; the createChain call
for "chain-tunnel-3" was accepted, no deleteChain call was sent to the entry node, and the
chain is still declared there when Start returns. The same happens when the panel URL is not
configured (ErrPanelURLNotFound). When it is createService that fails, deleteChain is
called with "chain-tunnel-3" and no chain is left. -/
theorem TunnelStart_observer_failure_leaves_chain :
    (TunnelService.Start (observerFailingWorld [] [sampleTunnel 3 "stopped"]) 3).1 =
      some .ErrObserverCreateFailed ∧
    deletedChains 1
      (TunnelService.Start (observerFailingWorld [] [sampleTunnel 3 "stopped"]) 3).2.calls =
      [] ∧
    nodeChains (observerFailingWorld [] [sampleTunnel 3 "stopped"]).fails 1
      (TunnelService.Start (observerFailingWorld [] [sampleTunnel 3 "stopped"]) 3).2.calls 0
      [] = ["chain-tunnel-3"] ∧
    (TunnelService.Start (sampleWorld [] [sampleTunnel 3 "stopped"] none) 3).1 =
      some .ErrPanelURLNotFound ∧
    deletedChains 1
      (TunnelService.Start (sampleWorld [] [sampleTunnel 3 "stopped"] none) 3).2.calls = [] ∧
    nodeChains (sampleWorld [] [sampleTunnel 3 "stopped"] none).fails 1
      (TunnelService.Start (sampleWorld [] [sampleTunnel 3 "stopped"] none) 3).2.calls 0
      [] = ["chain-tunnel-3"] ∧
    (TunnelService.Start (serviceFailingWorld [] [sampleTunnel 3 "stopped"]) 3).1 =
      some .ErrTunnelServiceCreateFailed ∧
    deletedChains 1
      (TunnelService.Start (serviceFailingWorld [] [sampleTunnel 3 "stopped"]) 3).2.calls =
      ["chain-tunnel-3"] ∧
    nodeChains (serviceFailingWorld [] [sampleTunnel 3 "stopped"]).fails 1
      (TunnelService.Start (serviceFailingWorld [] [sampleTunnel 3 "stopped"]) 3).2.calls 0
      [] = [] := by
  decide

/-! ### Lifecycle orchestrator: deletion -/

/-- Stop of a Forward leaves the failure oracle as it was. -/
theorem ForwardStop_fails (w : World) (id : Nat) :
    (ForwardService.Stop w id).2.fails = w.fails := by
  unfold ForwardService.Stop
  cases hfind : ForwardRepository.FindByID w id with
  | none => rfl
  | some forward =>
    simp only []
    by_cases hrun : forward.Status ≠ ForwardStatusRunning
    · rw [if_pos hrun]
    · rw [if_neg hrun]
      cases hnode : NodeRepository.FindByID w forward.NodeID with
      | none => rfl
      | some node =>
        simp only []
        by_cases hoff : node.Status = NodeStatusOffline
        · rw [if_pos hoff]
        · rw [if_neg hoff]
          simp only [issue_snd, logged_fails, ForwardRepository.UpdateStatus,
            BaseRepository.UpdateField, UpdateFields_fails]
          split <;> rfl

/-- Stop of a Tunnel leaves the failure oracle as it was. -/
theorem TunnelStop_fails (w : World) (id : Nat) :
    (TunnelService.Stop w id).2.fails = w.fails := by
  unfold TunnelService.Stop
  cases hfind : TunnelRepository.FindByID w id with
  | none => rfl
  | some tunnel =>
    simp only []
    by_cases hrun : tunnel.Status ≠ TunnelStatusRunning
    · rw [if_pos hrun]
    · rw [if_neg hrun]
      cases hnode : NodeRepository.FindByID w tunnel.EntryNodeID with
      | none => rfl
      | some node =>
        simp only []
        by_cases hoff : node.Status = NodeStatusOffline
        · rw [if_pos hoff]
        · rw [if_neg hoff]
          simp only [issue_snd, logged_fails, TunnelRepository.UpdateStatus,
            BaseRepository.UpdateField, UpdateFields_fails]
          split <;> split <;> rfl

/-- An accepted delete of a forward row: no error, the call is logged, and no row of that id
is found afterwards. -/
theorem ForwardDelete_accepted (w : World) (id : Nat)
    (h : w.fails w.calls.length (.DeleteRow .gost_forwards id) = false) :
    (ForwardRepository.Delete w id).1 = none ∧
    (ForwardRepository.Delete w id).2.calls = w.calls ++ [.DeleteRow .gost_forwards id] ∧
    ForwardRepository.FindByID (ForwardRepository.Delete w id).2 id = none := by
  unfold ForwardRepository.Delete
  rw [issue_ok w _ h]
  refine ⟨rfl, rfl, ?_⟩
  unfold ForwardRepository.FindByID
  simp [World.logged]

/-- An accepted delete of a tunnel row: no error, the call is logged, and no row of that id
is found afterwards. -/
theorem TunnelDelete_accepted (w : World) (id : Nat)
    (h : w.fails w.calls.length (.DeleteRow .gost_tunnels id) = false) :
    (TunnelRepository.Delete w id).1 = none ∧
    (TunnelRepository.Delete w id).2.calls = w.calls ++ [.DeleteRow .gost_tunnels id] ∧
    TunnelRepository.FindByID (TunnelRepository.Delete w id).2 id = none := by
  unfold TunnelRepository.Delete
  rw [issue_ok w _ h]
  refine ⟨rfl, rfl, ?_⟩
  unfold TunnelRepository.FindByID
  simp [World.logged]

/-- C21: for every existing Forward whose status is running, whatever Stop returns and
whichever of its calls fail, Delete runs Stop first and then the delete of the row on the
world Stop left; when the store accepts that delete, Delete returns no error, the delete is
the last call issued, and no Forward of that id is found afterwards. The same holds for
Delete of a Tunnel. -/
theorem Delete_running_stop_best_effort :
    (∀ (w : World) (id : Nat) (forward : GostForward),
      ForwardRepository.FindByID w id = some forward →
      forward.Status = ForwardStatusRunning →
      (∀ k, w.fails k (.DeleteRow .gost_forwards id) = false) →
      (ForwardService.Delete w id).1 = none ∧
      (ForwardService.Delete w id).2 =
        (ForwardRepository.Delete (ForwardService.Stop w id).2 id).2 ∧
      (ForwardService.Delete w id).2.calls =
        (ForwardService.Stop w id).2.calls ++ [.DeleteRow .gost_forwards id] ∧
      ForwardRepository.FindByID (ForwardService.Delete w id).2 id = none) ∧
    (∀ (w : World) (id : Nat) (tunnel : GostTunnel),
      TunnelRepository.FindByID w id = some tunnel →
      tunnel.Status = TunnelStatusRunning →
      (∀ k, w.fails k (.DeleteRow .gost_tunnels id) = false) →
      (TunnelService.Delete w id).1 = none ∧
      (TunnelService.Delete w id).2 =
        (TunnelRepository.Delete (TunnelService.Stop w id).2 id).2 ∧
      (TunnelService.Delete w id).2.calls =
        (TunnelService.Stop w id).2.calls ++ [.DeleteRow .gost_tunnels id] ∧
      TunnelRepository.FindByID (TunnelService.Delete w id).2 id = none) := by
  constructor
  · intro w id forward hfind hrun hdel
    have hacc := ForwardDelete_accepted (ForwardService.Stop w id).2 id
      (by rw [ForwardStop_fails]; exact hdel _)
    have hD : ForwardService.Delete w id =
        (none, (ForwardRepository.Delete (ForwardService.Stop w id).2 id).2) := by
      unfold ForwardService.Delete
      simp only [hfind, hrun, if_true]
      cases hres : ForwardRepository.Delete (ForwardService.Stop w id).2 id with
      | mk e w2 =>
        have he : e = none := by have := hacc.1; rw [hres] at this; exact this
        subst he
        rfl
    rw [hD]
    exact ⟨rfl, rfl, hacc.2.1, hacc.2.2⟩
  · intro w id tunnel hfind hrun hdel
    have hacc := TunnelDelete_accepted (TunnelService.Stop w id).2 id
      (by rw [TunnelStop_fails]; exact hdel _)
    have hD : TunnelService.Delete w id =
        (none, (TunnelRepository.Delete (TunnelService.Stop w id).2 id).2) := by
      unfold TunnelService.Delete
      simp only [hfind, hrun, if_true]
      cases hres : TunnelRepository.Delete (TunnelService.Stop w id).2 id with
      | mk e w2 =>
        have he : e = none := by have := hacc.1; rw [hres] at this; exact this
        subst he
        rfl
    rw [hD]
    exact ⟨rfl, rfl, hacc.2.1, hacc.2.2⟩

/-- Witness of C21: the running Forward 7 on the offline node 1 and the running Tunnel 3
entering at the offline node 1; Stop returns ErrNodeOffline in both cases, and Delete
succeeds and removes the row. -/
theorem Delete_running_stop_best_effort_witness :
    ((ForwardService.Stop
        (worldOn [sampleNode1Offline, sampleNode2] [sampleForward 7 "running"] []) 7).1 =
        some .ErrNodeOffline ∧
      (ForwardService.Delete
        (worldOn [sampleNode1Offline, sampleNode2] [sampleForward 7 "running"] []) 7).1 =
        none ∧
      ForwardRepository.FindByID (ForwardService.Delete
        (worldOn [sampleNode1Offline, sampleNode2] [sampleForward 7 "running"] []) 7).2 7 =
        none) ∧
    ((TunnelService.Stop
        (worldOn [sampleNode1Offline, sampleNode2] [] [sampleTunnel 3 "running"]) 3).1 =
        some .ErrNodeOffline ∧
      (TunnelService.Delete
        (worldOn [sampleNode1Offline, sampleNode2] [] [sampleTunnel 3 "running"]) 3).1 =
        none ∧
      TunnelRepository.FindByID (TunnelService.Delete
        (worldOn [sampleNode1Offline, sampleNode2] [] [sampleTunnel 3 "running"]) 3).2 3 =
        none) :=
  have hf := Delete_running_stop_best_effort.1
    (worldOn [sampleNode1Offline, sampleNode2] [sampleForward 7 "running"] []) 7
    (sampleForward 7 "running") (by decide) (by decide) (fun _ => rfl)
  have ht := Delete_running_stop_best_effort.2
    (worldOn [sampleNode1Offline, sampleNode2] [] [sampleTunnel 3 "running"]) 3
    (sampleTunnel 3 "running") (by decide) (by decide) (fun _ => rfl)
  ⟨⟨by decide, hf.1, hf.2.2.2⟩, ⟨by decide, ht.1, ht.2.2.2⟩⟩

/-! ### Reconciliation of tunnels: the names looked up -/

/-- Reading a key from a map after an assignment to another key. -/
theorem lookup_mapSet_ne {β : Type} (m : List (String × β)) (k k1 : String) (v : β)
    (h : k ≠ k1) : (mapSet m k1 v).lookup k = m.lookup k := by
  have hb : (k == k1) = false := beq_false_of_ne h
  induction m with
  | nil => simp only [mapSet, List.lookup, hb]
  | cons kv rest ih =>
    obtain ⟨k0, v0⟩ := kv
    simp only [mapSet]
    by_cases h0 : k0 = k1
    · subst h0
      rw [if_pos rfl]
      simp only [List.lookup, hb]
    · rw [if_neg h0]
      simp only [List.lookup]
      rw [ih]

/-- A name borne by no reported service reads as the empty state from the service-state
map. -/
theorem buildServiceStates_absent (services : List ReportedService) (k : String)
    (h : ∀ svc ∈ services, svc.Name ≠ k) : mapGet "" (buildServiceStates services) k = "" := by
  have key : ∀ (l : List ReportedService) (m : List (String × String)),
      (∀ svc ∈ l, svc.Name ≠ k) → m.lookup k = none →
      (l.foldl (fun m svc =>
        mapSet m svc.Name (match svc.Status with | some st => st | none => "stopped"))
        m).lookup k = none := by
    intro l
    induction l with
    | nil => intro m _ hm; exact hm
    | cons svc l ih =>
      intro m hl hm
      simp only [List.foldl_cons]
      apply ih _ (fun x hx => hl x (List.mem_cons_of_mem _ hx))
      rw [lookup_mapSet_ne _ _ _ _ (fun e => hl svc (List.mem_cons_self _ _) e.symm)]
      exact hm
  unfold mapGet buildServiceStates
  rw [key services [] h rfl]
  rfl

/-- The row of a stored Tunnel after syncTunnelStatus, the store accepting its updates: the
status is the one mapped from the state read under the stored service id and the presence
read under the stored chain id. -/
theorem syncTunnelStatus_stored (w : World) (t : GostTunnel) (m : List (String × String))
    (rc : List (String × Bool))
    (hstored : TunnelRepository.FindByID w t.ID = some t) (hrel : w.storeReliable) :
    TunnelRepository.FindByID (RuleSyncService.syncTunnelStatus w t m rc) t.ID =
      some { t with
        Status := GostStateToTunnelStatus (mapGet "" m t.ServiceID)
          (mapGet false rc t.ChainID) } := by
  unfold RuleSyncService.syncTunnelStatus
  simp only []
  generalize GostStateToTunnelStatus (mapGet "" m t.ServiceID) (mapGet false rc t.ChainID) = st
  by_cases hst : t.Status = st
  · rw [if_neg (not_not.mpr hst), hstored, ← hst]
  · rw [if_pos hst]
    unfold TunnelRepository.UpdateStatus BaseRepository.UpdateField
    rw [UpdateFields_ok _ _ _ _ (hrel _ _ _ _), findTunnel_applyUpdate]
    have hfind : TunnelRepository.FindByID
        (w.logged (Call.UpdateFields Table.gost_tunnels t.ID [("status", Value.str st)]))
        t.ID = some t := hstored
    rw [hfind]
    simp [setTunnelField]

/-- C27: syncTunnelStatus reads the service state under the stored service_id and the chain
presence under the stored chain_id, as they are: for every stored Tunnel and every node
configuration, the stored status afterwards is the one mapped from these two reads (the
store accepting its updates). Hence for a Tunnel with empty service_id and a configuration
with no service of the empty name the stored status afterwards is `stopped`, whatever the
configuration says of "tunnel-<id>" and "chain-tunnel-<id>". -/
theorem syncTunnelStatus_no_name_fallback (w : World) (t : GostTunnel) (cfg : Config)
    (hstored : TunnelRepository.FindByID w t.ID = some t) (hrel : w.storeReliable) :
    TunnelRepository.FindByID
        (RuleSyncService.syncTunnelStatus w t (buildServiceStates cfg.Services)
          (buildRunningChains cfg.Chains)) t.ID =
      some { t with
        Status := GostStateToTunnelStatus
          (mapGet "" (buildServiceStates cfg.Services) t.ServiceID)
          (mapGet false (buildRunningChains cfg.Chains) t.ChainID) } ∧
    (t.ServiceID = "" → (∀ svc ∈ cfg.Services, svc.Name ≠ "") →
      TunnelRepository.FindByID
          (RuleSyncService.syncTunnelStatus w t (buildServiceStates cfg.Services)
            (buildRunningChains cfg.Chains)) t.ID =
        some { t with Status := TunnelStatusStopped }) := by
  have h := syncTunnelStatus_stored w t (buildServiceStates cfg.Services)
    (buildRunningChains cfg.Chains) hstored hrel
  refine ⟨h, fun hempty hnames => ?_⟩
  rw [h, hempty, buildServiceStates_absent cfg.Services "" hnames]
  rfl

/-- Witness of C27: Tunnel 3, recorded as running with no service id and no chain id, against
a node that reports service "tunnel-3" ready and chain "chain-tunnel-3" present, is set to
`stopped`; Forward 3 with no service id against a node reporting "forward-3" ready is
set to `running`. -/
theorem syncTunnelStatus_no_name_fallback_witness :
    TunnelRepository.FindByID
        (RuleSyncService.syncTunnelStatus (sampleWorld [] [unstartedTunnel 3 "running"] none)
          (unstartedTunnel 3 "running")
          (buildServiceStates (sampleConfig "tunnel-3" "ready" "chain-tunnel-3").Services)
          (buildRunningChains (sampleConfig "tunnel-3" "ready" "chain-tunnel-3").Chains)) 3 =
      some { unstartedTunnel 3 "running" with Status := "stopped" } ∧
    ForwardRepository.FindByID
        (RuleSyncService.syncForwardStatus (sampleWorld [sampleForward 3 "stopped"] [] none)
          (sampleForward 3 "stopped")
          (buildServiceStates (sampleConfig "forward-3" "ready" "").Services)) 3 =
      some { sampleForward 3 "stopped" with Status := "running" } :=
  ⟨(syncTunnelStatus_no_name_fallback (sampleWorld [] [unstartedTunnel 3 "running"] none)
      (unstartedTunnel 3 "running") (sampleConfig "tunnel-3" "ready" "chain-tunnel-3")
      (by decide) (fun _ _ _ _ => rfl)).2 (by decide) (by decide),
   by decide⟩

/-! ### The host and port of a node URL -/

/-- Cutting before the first occurrence of a character keeps the longest run free of it. -/
theorem Index_take (c : Char) (l : List Char) :
    (match Index l c with
     | some i => l.take i
     | none => l) = l.takeWhile fun x => x ≠ c := by
  induction l with
  | nil => rfl
  | cons x xs ih =>
    unfold Index
    by_cases hx : x = c
    · simp [hx]
    · rw [if_neg hx]
      cases hi : Index xs c with
      | none =>
        rw [hi] at ih
        simp only [Option.map_none']
        rw [List.takeWhile_cons_of_pos (by simpa using hx), ← ih]
      | some i =>
        rw [hi] at ih
        simp only [Option.map_some']
        rw [List.takeWhile_cons_of_pos (by simpa using hx), ← ih]
        rfl

/-- LastIndex finds nothing exactly when the character does not occur. -/
theorem LastIndex_none (c : Char) (l : List Char) : LastIndex l c = none ↔ c ∉ l := by
  induction l with
  | nil => simp [LastIndex]
  | cons x xs ih =>
    unfold LastIndex
    cases hi : LastIndex xs c with
    | some i =>
      have : c ∈ xs := by
        by_contra hc
        rw [ih.mpr hc] at hi
        exact Option.noConfusion hi
      simp [this]
    | none =>
      have hc : c ∉ xs := ih.mp hi
      by_cases hx : x = c
      · simp [hx]
      · simp [hx, hc, Ne.symm hx]

/-- LastIndex splits the string at an occurrence after which the character does not occur. -/
theorem LastIndex_some (c : Char) (l : List Char) :
    ∀ i, LastIndex l c = some i → l = l.take i ++ c :: l.drop (i + 1) ∧ c ∉ l.drop (i + 1) := by
  induction l with
  | nil => intro i h; simp [LastIndex] at h
  | cons x xs ih =>
    intro i h
    unfold LastIndex at h
    cases hi : LastIndex xs c with
    | some j =>
      rw [hi] at h
      simp only [Option.some.injEq] at h
      subst h
      obtain ⟨h1, h2⟩ := ih j hi
      refine ⟨?_, ?_⟩
      · simp only [List.take_succ_cons, List.drop_succ_cons, List.cons_append]
        rw [← h1]
      · simpa using h2
    | none =>
      rw [hi] at h
      simp only at h
      by_cases hx : x = c
      · rw [if_pos hx] at h
        simp only [Option.some.injEq] at h
        subst h
        subst hx
        simp only [List.take_zero, List.nil_append, zero_add, List.drop_succ_cons, List.drop_zero,
          true_and]
        exact (LastIndex_none x xs).mp hi
      · rw [if_neg hx] at h
        exact Option.noConfusion h

/-- The last occurrence of a character that does not occur after position `h.length`. -/
theorem LastIndex_append_cons (c : Char) (h p : List Char) (hp : c ∉ p) :
    LastIndex (h ++ c :: p) c = some h.length := by
  induction h with
  | nil =>
    simp only [List.nil_append, List.length_nil]
    unfold LastIndex
    rw [(LastIndex_none c p).mpr hp]
    simp
  | cons x xs ih =>
    simp only [List.cons_append, List.length_cons]
    unfold LastIndex
    rw [ih]

/-- ExtractHostPort splits the authority at its last ':'. -/
theorem ExtractHostPort_authority (u : String) :
    ExtractHostPort u =
      match LastIndex (authorityOf u).data ':' with
      | some idx => (⟨(authorityOf u).data.take idx⟩, ⟨(authorityOf u).data.drop (idx + 1)⟩)
      | none => (authorityOf u, "") := by
  have h1 : (if HasPrefix u "http://" then TrimPrefix u "http://"
      else if HasPrefix u "https://" then TrimPrefix u "https://" else u) = withoutScheme u := by
    unfold withoutScheme TrimPrefix HasPrefix
    simp only [List.isPrefixOf_iff_prefix]
    by_cases ha : "http://".data <+: u.data
    · simp only [ha, if_true]; rfl
    · simp only [ha, if_false]
      by_cases hb : "https://".data <+: u.data
      · simp only [hb, if_true]; rfl
      · simp only [hb, if_false]
  have h2 : (match Index (withoutScheme u).data '/' with
      | some idx => (⟨(withoutScheme u).data.take idx⟩ : String)
      | none => withoutScheme u) = authorityOf u := by
    unfold authorityOf
    rw [← Index_take '/' (withoutScheme u).data]
    cases Index (withoutScheme u).data '/' <;> rfl
  unfold ExtractHostPort
  simp only [h1, h2]

/-- The run cut before the first occurrence of a character does not contain it. -/
theorem takeWhile_not_mem (c : Char) (l : List Char) : c ∉ l.takeWhile fun x => x ≠ c := by
  intro h
  have := List.mem_takeWhile_imp h
  simp at this

/-- The authority contains no '/'. -/
theorem authorityOf_no_slash (u : String) : '/' ∉ (authorityOf u).data :=
  takeWhile_not_mem '/' _

/-- C30: ExtractHostPort loses nothing of the authority. For every string u, with a the
string u without one leading "http://" or "https://" and cut before its first '/': if a
contains ':' then the host h and the port p returned satisfy h + ":" + p = a and p contains
no ':'; if a contains no ':' then the result is (a, ""); and in every case neither the host
nor the port returned contains '/'. -/
theorem ExtractHostPort_keeps_authority (u : String) :
    (':' ∈ (authorityOf u).data →
      (ExtractHostPort u).1 ++ ":" ++ (ExtractHostPort u).2 = authorityOf u ∧
      ':' ∉ (ExtractHostPort u).2.data) ∧
    (':' ∉ (authorityOf u).data → ExtractHostPort u = (authorityOf u, "")) ∧
    '/' ∉ (ExtractHostPort u).1.data ∧ '/' ∉ (ExtractHostPort u).2.data := by
  have hslash := authorityOf_no_slash u
  rw [ExtractHostPort_authority]
  cases hi : LastIndex (authorityOf u).data ':' with
  | none =>
    have hc := (LastIndex_none ':' _).mp hi
    refine ⟨fun h => absurd h hc, fun _ => rfl, hslash, ?_⟩
    show '/' ∉ "".data
    decide
  | some i =>
    obtain ⟨h1, h2⟩ := LastIndex_some ':' _ i hi
    have hc : ':' ∈ (authorityOf u).data := by
      rw [h1]; simp
    refine ⟨fun _ => ⟨?_, h2⟩, fun h => absurd hc h, ?_, ?_⟩
    · apply String.ext
      simp only [String.data_append]
      conv_rhs => rw [h1]
      simp
    · exact fun h => hslash (List.mem_of_mem_take h)
    · exact fun h => hslash (List.mem_of_mem_drop h)

/-- Witness of C30: a URL with scheme, port and path, and one without port. -/
theorem ExtractHostPort_keeps_authority_witness :
    authorityOf "https://example.com:8443/api/v1" = "example.com:8443" ∧
    ((ExtractHostPort "https://example.com:8443/api/v1").1 ++ ":" ++
        (ExtractHostPort "https://example.com:8443/api/v1").2 =
        authorityOf "https://example.com:8443/api/v1" ∧
      ':' ∉ (ExtractHostPort "https://example.com:8443/api/v1").2.data) ∧
    ExtractHostPort "example.com/x:y" = (authorityOf "example.com/x:y", "") :=
  ⟨by decide,
   (ExtractHostPort_keeps_authority "https://example.com:8443/api/v1").1 (by decide),
   (ExtractHostPort_keeps_authority "example.com/x:y").2.1 (by decide)⟩

theorem takeWhile_cut (c : Char) (a path : List Char) (ha : c ∉ a)
    (hpath : path = [] ∨ path.head? = some c) :
    (a ++ path).takeWhile (fun x => x ≠ c) = a := by
  induction a with
  | nil =>
    rcases hpath with h | h
    · subst h; rfl
    · cases path with
      | nil => simp at h
      | cons x xs =>
        simp only [List.head?_cons, Option.some.injEq] at h
        subst h
        simp
  | cons x xs ih =>
    have hx : x ≠ c := fun e => ha (e ▸ List.mem_cons_self _ _)
    simp only [List.cons_append]
    rw [List.takeWhile_cons_of_pos (by simpa using hx), ih (fun h => ha (List.mem_cons_of_mem _ h))]

/-- The result of ExtractHostPort on a string whose authority is known. -/
theorem ExtractHostPort_of_authority (u : String) (h p : List Char) (hp : ':' ∉ p)
    (ha : (authorityOf u).data = h ++ ':' :: p) : ExtractHostPort u = (⟨h⟩, ⟨p⟩) := by
  rw [ExtractHostPort_authority, ha, LastIndex_append_cons ':' h p hp]
  simp

theorem ExtractHostPort_of_bare_authority (u : String) (h : List Char) (hh : ':' ∉ h)
    (ha : (authorityOf u).data = h) : ExtractHostPort u = (⟨h⟩, "") := by
  rw [ExtractHostPort_authority, ha, (LastIndex_none ':' h).mpr hh]
  simp only
  congr 1
  apply String.ext
  exact ha

theorem withoutScheme_http (rest : String) : withoutScheme ("http://" ++ rest) = rest := by
  unfold withoutScheme
  rw [if_pos (by rw [String.data_append]; exact List.prefix_append _ _)]
  apply String.ext
  simp only [String.data_append]
  rfl

theorem withoutScheme_https (rest : String) : withoutScheme ("https://" ++ rest) = rest := by
  unfold withoutScheme
  rw [if_neg, if_pos (by rw [String.data_append]; exact List.prefix_append _ _)]
  · apply String.ext
    simp only [String.data_append]
    rfl
  · rw [String.data_append]
    intro h
    have := List.prefix_iff_eq_take.mp h
    simp at this

theorem withoutScheme_bare (rest : String) (h1 : HasPrefix rest "http://" = false)
    (h2 : HasPrefix rest "https://" = false) : withoutScheme rest = rest := by
  unfold withoutScheme
  unfold HasPrefix at h1 h2
  rw [if_neg, if_neg]
  · intro h; rw [List.isPrefixOf_iff_prefix.mpr h] at h2; exact Bool.noConfusion h2
  · intro h; rw [List.isPrefixOf_iff_prefix.mpr h] at h1; exact Bool.noConfusion h1

/-- A host without ':' followed by a path never begins with a scheme. -/
theorem no_scheme_in_host_path (h path : List Char) (hh : ':' ∉ h)
    (hslash : '/' ∉ h) (hpath : path = [] ∨ path.head? = some '/') :
    ¬ "http://".data <+: h ++ path ∧ ¬ "https://".data <+: h ++ path := by
  have hcut := takeWhile_cut '/' h path hslash hpath
  constructor
  · rintro ⟨t, ht⟩
    rw [← ht] at hcut
    apply hh
    rw [← hcut]
    simp [List.takeWhile]
  · rintro ⟨t, ht⟩
    rw [← ht] at hcut
    apply hh
    rw [← hcut]
    simp [List.takeWhile]

theorem authorityOf_of_rest (u rest : String) (a path : List Char)
    (hu : withoutScheme u = rest) (hrest : rest.data = a ++ path) (ha : '/' ∉ a)
    (hpath : path = [] ∨ path.head? = some '/') : (authorityOf u).data = a := by
  unfold authorityOf
  rw [hu, hrest]
  exact takeWhile_cut '/' a path ha hpath

/-- The result of ExtractHostPort on a string put together from a scheme, a host, a port and a
path. -/
theorem ExtractHostPort_of_parts (scheme h p path : String)
    (hh : '/' ∉ h.data ∧ ':' ∉ h.data) (hp : '/' ∉ p.data ∧ ':' ∉ p.data)
    (hpath : path = "" ∨ path.data.head? = some '/')
    (hscheme : scheme = "http://" ∨ scheme = "https://" ∨
      (scheme = "" ∧ HasPrefix (h ++ ":" ++ p ++ path) "http://" = false ∧
        HasPrefix (h ++ ":" ++ p ++ path) "https://" = false)) :
    ExtractHostPort (scheme ++ h ++ ":" ++ p ++ path) = (h, p) ∧
    ExtractHostPort (scheme ++ h ++ path) = (h, "") := by
  have hpath1 : path.data = [] ∨ path.data.head? = some '/' := by
    rcases hpath with e | e
    · left; rw [e]
    · right; exact e
  have ha : '/' ∉ h.data ++ ':' :: p.data := by
    simp only [List.mem_append, List.mem_cons, not_or]
    exact ⟨hh.1, by decide, hp.1⟩
  have hrest1 : (h ++ ":" ++ p ++ path).data = (h.data ++ ':' :: p.data) ++ path.data := by
    simp only [String.data_append]
    simp
  have hrest2 : (h ++ path).data = h.data ++ path.data := String.data_append _ _
  have hbare := no_scheme_in_host_path h.data path.data hh.2 hh.1 hpath1
  have hw1 : withoutScheme (scheme ++ h ++ ":" ++ p ++ path) = h ++ ":" ++ p ++ path := by
    rcases hscheme with e | e | ⟨e, h1, h2⟩
    · rw [e]; simp only [String.append_assoc]; exact withoutScheme_http _
    · rw [e]; simp only [String.append_assoc]; exact withoutScheme_https _
    · rw [e, String.empty_append]; exact withoutScheme_bare _ h1 h2
  have hw2 : withoutScheme (scheme ++ h ++ path) = h ++ path := by
    rcases hscheme with e | e | ⟨e, _, _⟩
    · rw [e]; simp only [String.append_assoc]; exact withoutScheme_http _
    · rw [e]; simp only [String.append_assoc]; exact withoutScheme_https _
    · rw [e, String.empty_append]
      unfold withoutScheme
      rw [hrest2, if_neg hbare.1, if_neg hbare.2]
  constructor
  · exact ExtractHostPort_of_authority _ h.data p.data hp.2
      (authorityOf_of_rest _ _ _ _ hw1 hrest1 ha hpath1)
  · exact ExtractHostPort_of_bare_authority _ h.data hh.2
      (authorityOf_of_rest _ _ _ _ hw2 hrest2 hh.1 hpath1)

/-- CreateObserver only appends to the call log. -/
theorem CreateObserver_calls (w : World) (client : Nat) (nodeName : String) (resourceID : Nat) :
    ∃ rest, (CreateObserver w client nodeName resourceID).2.calls = w.calls ++ rest := by
  unfold CreateObserver
  cases w.sysConfig with
  | none => exact ⟨[], (List.append_nil _).symm⟩
  | some cfg =>
    simp only []
    split
    · exact ⟨[], (List.append_nil _).symm⟩
    · simp only [World.issue]
      cases w.fails w.calls.length _ <;> exact ⟨_, rfl⟩

/-- The first call of a Tunnel start that reaches createChain declares the chain
"chain-tunnel-<id>" on the entry node, its one hop relaying to the exit host at the relay port
of the tunnel. -/
theorem TunnelStart_relay_address (w : World) (id : Nat) (tunnel : GostTunnel)
    (entryNode exitNode : GostNode)
    (hfind : TunnelRepository.FindByID w id = some tunnel)
    (hnot : tunnel.Status ≠ TunnelStatusRunning)
    (hentry : NodeRepository.FindByID w tunnel.EntryNodeID = some entryNode)
    (hentryOn : entryNode.Status ≠ NodeStatusOffline)
    (hexit : NodeRepository.FindByID w tunnel.ExitNodeID = some exitNode)
    (hexitOn : exitNode.Status ≠ NodeStatusOffline)
    (hhost : ExtractHost exitNode.APIURL ≠ "") :
    ∃ rest, (TunnelService.Start w id).2.calls = w.calls ++
      .CreateChain entryNode.ID
        { Name := "chain-tunnel-" ++ toString id,
          Hops := [{ Name := "hop-0",
                     Nodes := [{ Name := "exit-relay",
                                 Addr := ExtractHost exitNode.APIURL ++ ":" ++
                                   toString tunnel.RelayPort,
                                 ConnectorType := "relay", DialerType := "tcp" }] }] } ::
        rest := by
  have hid : tunnel.ID = id := findTunnel_ID hfind
  unfold TunnelService.Start
  simp only [hfind, hnot, hentry, hentryOn, hexit, hexitOn, hhost, if_false, hid, World.issue,
    TunnelRepository.UpdateObserverID, TunnelRepository.UpdateStatus,
    TunnelRepository.UpdateServiceInfo, BaseRepository.UpdateField]
  cases w.fails w.calls.length _
  · simp only [Bool.not_false]
    obtain ⟨rest, hrest⟩ := CreateObserver_calls (w.logged (.CreateChain entryNode.ID
        { Name := "chain-tunnel-" ++ toString id,
          Hops := [{ Name := "hop-0",
                     Nodes := [{ Name := "exit-relay",
                                 Addr := ExtractHost exitNode.APIURL ++ ":" ++
                                   toString tunnel.RelayPort,
                                 ConnectorType := "relay", DialerType := "tcp" }] }] }))
      entryNode.ID entryNode.Name id
    rcases hco : CreateObserver (w.logged (.CreateChain entryNode.ID
        { Name := "chain-tunnel-" ++ toString id,
          Hops := [{ Name := "hop-0",
                     Nodes := [{ Name := "exit-relay",
                                 Addr := ExtractHost exitNode.APIURL ++ ":" ++
                                   toString tunnel.RelayPort,
                                 ConnectorType := "relay", DialerType := "tcp" }] }] }))
      entryNode.ID entryNode.Name id with ⟨⟨name, err⟩, w2⟩
    rw [hco] at hrest
    simp only [logged_calls] at hrest
    cases err with
    | some e =>
      simp only [hrest, List.append_assoc, List.singleton_append]
      exact ⟨_, rfl⟩
    | none =>
      simp only []
      split <;> rename_i heq <;> simp only [Prod.mk.injEq] at heq <;>
        obtain ⟨_, rfl⟩ := heq <;>
        simp only [UpdateFields_calls, logged_calls, hrest,
          List.append_assoc, List.singleton_append, List.cons_append, List.nil_append] <;>
        exact ⟨_, rfl⟩
  · simp only [Bool.not_true, UpdateFields_calls, logged_calls, List.append_assoc,
      List.singleton_append]
    exact ⟨_, rfl⟩

/-- C24 (counterexample): with the empty scheme, the host "http", the empty port and the
path "//foo" (host and port without '/' and ':', the path starting with '/'), the string
put together is "http://foo", and ExtractHostPort returns ("foo", ""), not ("http", ""). -/
theorem ExtractHostPort_scheme_like_host_counterexample :
    '/' ∉ "http".data ∧ ':' ∉ "http".data ∧ '/' ∉ "".data ∧ ':' ∉ "".data ∧
    "//foo".data.head? = some '/' ∧
    ExtractHostPort ("" ++ "http" ++ ":" ++ "" ++ "//foo") = ("foo", "") ∧
    ExtractHostPort ("" ++ "http" ++ ":" ++ "" ++ "//foo") ≠ ("http", "") := by
  decide

/-- C24 (amended): for every host h containing neither '/' nor ':', every port p containing
neither '/' nor ':', every path that is empty or starts with '/', and every scheme among
"http://", "https://" and the empty string, where with the empty scheme the string
h + ":" + p + path does not itself begin with "http://" or "https://":
ExtractHostPort(scheme + h + ":" + p + path) = (h, p) and
ExtractHostPort(scheme + h + path) = (h, ""), so ExtractHost returns h on both; and when h
is not empty and the API URL of the exit node has one of these two forms, every Tunnel start
that reaches createChain declares a chain whose hop relays to h + ":" + relay_port. -/
theorem ExtractHostPort_strips_scheme_port_path (scheme h p path : String)
    (hh : '/' ∉ h.data ∧ ':' ∉ h.data) (hp : '/' ∉ p.data ∧ ':' ∉ p.data)
    (hpath : path = "" ∨ path.data.head? = some '/')
    (hscheme : scheme = "http://" ∨ scheme = "https://" ∨
      (scheme = "" ∧ HasPrefix (h ++ ":" ++ p ++ path) "http://" = false ∧
        HasPrefix (h ++ ":" ++ p ++ path) "https://" = false)) :
    ExtractHostPort (scheme ++ h ++ ":" ++ p ++ path) = (h, p) ∧
    ExtractHostPort (scheme ++ h ++ path) = (h, "") ∧
    ExtractHost (scheme ++ h ++ ":" ++ p ++ path) = h ∧
    ExtractHost (scheme ++ h ++ path) = h ∧
    (h ≠ "" →
      ∀ (w : World) (id : Nat) (tunnel : GostTunnel) (entryNode exitNode : GostNode),
        TunnelRepository.FindByID w id = some tunnel →
        tunnel.Status ≠ TunnelStatusRunning →
        NodeRepository.FindByID w tunnel.EntryNodeID = some entryNode →
        entryNode.Status ≠ NodeStatusOffline →
        NodeRepository.FindByID w tunnel.ExitNodeID = some exitNode →
        exitNode.Status ≠ NodeStatusOffline →
        (exitNode.APIURL = scheme ++ h ++ ":" ++ p ++ path ∨
          exitNode.APIURL = scheme ++ h ++ path) →
        ∃ rest, (TunnelService.Start w id).2.calls = w.calls ++
          .CreateChain entryNode.ID
            { Name := "chain-tunnel-" ++ toString id,
              Hops := [{ Name := "hop-0",
                         Nodes := [{ Name := "exit-relay",
                                     Addr := h ++ ":" ++ toString tunnel.RelayPort,
                                     ConnectorType := "relay", DialerType := "tcp" }] }] } ::
            rest) := by
  obtain ⟨h1, h2⟩ := ExtractHostPort_of_parts scheme h p path hh hp hpath hscheme
  have e1 : ExtractHost (scheme ++ h ++ ":" ++ p ++ path) = h := by
    unfold ExtractHost; rw [h1]
  have e2 : ExtractHost (scheme ++ h ++ path) = h := by
    unfold ExtractHost; rw [h2]
  refine ⟨h1, h2, e1, e2, ?_⟩
  intro hne w id tunnel entryNode exitNode hfind hnot hentry hentryOn hexit hexitOn hurl
  have hhost : ExtractHost exitNode.APIURL = h := by
    rcases hurl with e | e <;> rw [e]
    · exact e1
    · exact e2
  have hstart := TunnelStart_relay_address w id tunnel entryNode exitNode hfind hnot hentry
    hentryOn hexit hexitOn (by rw [hhost]; exact hne)
  rw [hhost] at hstart
  exact hstart

/-- Witness of C24: the API URL "http://10.0.0.2:18080/api" of node 2, and the start of
Tunnel 3 from node 1 to node 2 with relay port 8443. -/
theorem ExtractHostPort_strips_scheme_port_path_witness :
    ExtractHostPort ("http://" ++ "10.0.0.2" ++ ":" ++ "18080" ++ "/api") =
      ("10.0.0.2", "18080") ∧
    ExtractHostPort ("http://" ++ "10.0.0.2" ++ "/api") = ("10.0.0.2", "") ∧
    ∃ rest, (TunnelService.Start (worldOn sampleNodes [] [sampleTunnel 3 "stopped"]) 3).2.calls =
      (worldOn sampleNodes [] [sampleTunnel 3 "stopped"]).calls ++
        .CreateChain sampleNode1.ID
          { Name := "chain-tunnel-" ++ toString 3,
            Hops := [{ Name := "hop-0",
                       Nodes := [{ Name := "exit-relay",
                                   Addr := "10.0.0.2" ++ ":" ++
                                     toString (sampleTunnel 3 "stopped").RelayPort,
                                   ConnectorType := "relay", DialerType := "tcp" }] }] } ::
          rest :=
  have h := ExtractHostPort_strips_scheme_port_path "http://" "10.0.0.2" "18080" "/api"
    (by decide) (by decide) (Or.inr (by decide)) (Or.inl rfl)
  ⟨h.1, h.2.1,
   h.2.2.2.2 (by decide) (worldOn sampleNodes [] [sampleTunnel 3 "stopped"]) 3
     (sampleTunnel 3 "stopped") sampleNode1 sampleNode2 (by decide) (by decide) (by decide)
     (by decide) (by decide) (by decide) (Or.inl (by decide))⟩

/-! ### Reconciliation is idempotent -/

/-- A fold whose every step leaves the state alone returns the state. -/
theorem foldl_fixed {σ α : Type} (op : σ → α → σ) (s : σ) (l : List α)
    (h : ∀ x ∈ l, op s x = s) : l.foldl op s = s := by
  induction l with
  | nil => rfl
  | cons x xs ih =>
    rw [List.foldl_cons, h x (List.mem_cons_self _ _)]
    exact ih (fun y hy => h y (List.mem_cons_of_mem _ hy))

/-- In a table without two rows of one key, a row is determined by its key. -/
theorem row_eq_of_key {α : Type} (key : α → Nat) (rows : List α)
    (hnd : (rows.map key).Nodup) {g x : α} (hg : g ∈ rows) (hx : x ∈ rows)
    (h : key g = key x) : g = x :=
  List.inj_on_of_nodup_map hnd hg hx h

/-- The rows after a loop over rows read from the table, each step rewriting the rows of
the key of the row it is given: the rows whose key was met are rewritten, the others are
as they were. -/
theorem foldl_rows {σ α : Type} (key : α → Nat) (new : α → α) (proj : σ → List α)
    (op : σ → α → σ) (inv : σ → Prop) (sel : α → Prop)
    (hkey : ∀ g, key (new g) = key g)
    (hop : ∀ s x, inv s → ((proj s).map key).Nodup → x ∈ proj s → sel x →
      inv (op s x) ∧
      proj (op s x) = (proj s).map fun g => if key g = key x then new g else g) :
    ∀ (l : List α) (s : σ), inv s → ((proj s).map key).Nodup → (l.map key).Nodup →
      (∀ x ∈ l, x ∈ proj s ∧ sel x) →
      inv (l.foldl op s) ∧
      proj (l.foldl op s) = (proj s).map fun g => if key g ∈ l.map key then new g else g := by
  intro l
  induction l with
  | nil =>
    intro s hinv _ _ _
    refine ⟨hinv, ?_⟩
    simp
  | cons x xs ih =>
    intro s hinv hnd hl hmem
    obtain ⟨hinv1, hproj1⟩ := hop s x hinv hnd (hmem x (List.mem_cons_self _ _)).1
      (hmem x (List.mem_cons_self _ _)).2
    have hkeys : (proj (op s x)).map key = (proj s).map key := by
      rw [hproj1, List.map_map]
      apply List.map_congr_left
      intro g _
      simp only [Function.comp]
      split
      · exact hkey g
      · rfl
    rw [List.map_cons, List.nodup_cons] at hl
    have hmem1 : ∀ y ∈ xs, y ∈ proj (op s x) ∧ sel y := by
      intro y hy
      refine ⟨?_, (hmem y (List.mem_cons_of_mem _ hy)).2⟩
      rw [hproj1]
      refine List.mem_map.mpr ⟨y, (hmem y (List.mem_cons_of_mem _ hy)).1, ?_⟩
      have hne : key y ≠ key x := fun e => hl.1 (e ▸ List.mem_map_of_mem key hy)
      rw [if_neg hne]
    obtain ⟨hinv2, hproj2⟩ := ih (op s x) hinv1 (by rw [hkeys]; exact hnd) hl.2 hmem1
    refine ⟨hinv2, ?_⟩
    rw [List.foldl_cons, hproj2, hproj1, List.map_map]
    apply List.map_congr_left
    intro g _
    simp only [Function.comp, List.map_cons, List.mem_cons]
    by_cases hgx : key g = key x
    · rw [if_pos hgx, if_pos (Or.inl hgx), if_neg]
      rw [hkey, hgx]
      exact hl.1
    · rw [if_neg hgx]
      by_cases hgl : key g ∈ xs.map key
      · rw [if_pos hgl, if_pos (Or.inr hgl)]
      · rw [if_neg hgl, if_neg (fun h => h.elim hgx hgl)]

/-- One step of the loop over the forwards of a node. -/
theorem syncForwardStatus_step (acc : World) (f : GostForward) (m : List (String × String))
    (nodeID : Nat) (hrel : acc.storeReliable)
    (hnd : (acc.forwards.map fun g => g.ID).Nodup) (hmem : f ∈ acc.forwards)
    (hsel : f.NodeID = nodeID) :
    (RuleSyncService.syncForwardStatus acc f m).storeReliable ∧
    (RuleSyncService.syncForwardStatus acc f m).tunnels = acc.tunnels ∧
    (RuleSyncService.syncForwardStatus acc f m).forwards =
      acc.forwards.map fun g => if g.ID = f.ID then reconciledForward nodeID m g else g := by
  have hrow : reconciledForward nodeID m f = { f with Status := mappedForwardStatus m f } := by
    unfold reconciledForward; rw [if_pos hsel]
  have hsync : RuleSyncService.syncForwardStatus acc f m =
      if f.Status ≠ mappedForwardStatus m f then
        (ForwardRepository.UpdateStatus acc f.ID (mappedForwardStatus m f)).2
      else acc := rfl
  rw [hsync]
  by_cases hst : f.Status = mappedForwardStatus m f
  · rw [if_neg (not_not.mpr hst)]
    refine ⟨hrel, rfl, ?_⟩
    conv_lhs => rw [← List.map_id acc.forwards]
    apply List.map_congr_left
    intro g hg
    by_cases hgf : g.ID = f.ID
    · have hgeq : g = f := row_eq_of_key (fun g => g.ID) acc.forwards hnd hg hmem hgf
      rw [if_pos hgf, hgeq, hrow, ← hst]
      rfl
    · rw [if_neg hgf]; rfl
  · rw [if_pos hst]
    refine ⟨storeReliable_of_fails (UpdateFields_fails _ _ _ _) hrel,
      UpdateFields_tunnels_other _ _ _, ?_⟩
    rw [UpdateStatus_forwards, hrel, if_neg (by decide)]
    apply List.map_congr_left
    intro g hg
    by_cases hgf : g.ID = f.ID
    · have hgeq : g = f := row_eq_of_key (fun g => g.ID) acc.forwards hnd hg hmem hgf
      rw [if_pos hgf, if_pos hgf, hgeq, hrow]
    · rw [if_neg hgf, if_neg hgf]

/-- One step of the loop over the tunnels of a node. -/
theorem syncTunnelStatus_step (acc : World) (t : GostTunnel) (m : List (String × String))
    (rc : List (String × Bool)) (nodeID : Nat) (hrel : acc.storeReliable)
    (hnd : (acc.tunnels.map fun g => g.ID).Nodup) (hmem : t ∈ acc.tunnels) :
    (if t.EntryNodeID = nodeID then RuleSyncService.syncTunnelStatus acc t m rc
      else acc).storeReliable ∧
    (if t.EntryNodeID = nodeID then RuleSyncService.syncTunnelStatus acc t m rc
      else acc).forwards = acc.forwards ∧
    (if t.EntryNodeID = nodeID then RuleSyncService.syncTunnelStatus acc t m rc
      else acc).tunnels =
      acc.tunnels.map fun g => if g.ID = t.ID then reconciledTunnel nodeID m rc g else g := by
  have hkeep : ∀ row : GostTunnel, reconciledTunnel nodeID m rc t = t →
      acc.tunnels =
        acc.tunnels.map fun g => if g.ID = t.ID then reconciledTunnel nodeID m rc g else g := by
    intro _ hrow
    conv_lhs => rw [← List.map_id acc.tunnels]
    apply List.map_congr_left
    intro g hg
    by_cases hgt : g.ID = t.ID
    · have hgeq : g = t := row_eq_of_key (fun g => g.ID) acc.tunnels hnd hg hmem hgt
      rw [if_pos hgt, hgeq, hrow]
      rfl
    · rw [if_neg hgt]; rfl
  by_cases hsel : t.EntryNodeID = nodeID
  · simp only [if_pos hsel]
    have hrow : reconciledTunnel nodeID m rc t =
        { t with Status := mappedTunnelStatus m rc t } := by
      unfold reconciledTunnel; rw [if_pos hsel]
    have hsync : RuleSyncService.syncTunnelStatus acc t m rc =
        if t.Status ≠ mappedTunnelStatus m rc t then
          (TunnelRepository.UpdateStatus acc t.ID (mappedTunnelStatus m rc t)).2
        else acc := rfl
    rw [hsync]
    by_cases hst : t.Status = mappedTunnelStatus m rc t
    · rw [if_neg (not_not.mpr hst)]
      exact ⟨hrel, rfl, hkeep t (by rw [hrow, ← hst])⟩
    · rw [if_pos hst]
      refine ⟨storeReliable_of_fails (UpdateFields_fails _ _ _ _) hrel,
        UpdateFields_forwards_other _ _ _, ?_⟩
      rw [UpdateStatus_tunnels, hrel, if_neg (by decide)]
      apply List.map_congr_left
      intro g hg
      by_cases hgt : g.ID = t.ID
      · have hgeq : g = t := row_eq_of_key (fun g => g.ID) acc.tunnels hnd hg hmem hgt
        rw [if_pos hgt, if_pos hgt, hgeq, hrow]
      · rw [if_neg hgt, if_neg hgt]
  · rw [if_neg hsel]
    exact ⟨hrel, rfl, hkeep t (by unfold reconciledTunnel; rw [if_neg hsel])⟩

/-- The rows after one reconciliation of a node that is not offline against a fetched
configuration, in a store without two rows of one id that accepts its updates. -/
theorem syncNodeRules_rows (w : World) (node : GostNode) (cfg : Config)
    (hon : node.Status ≠ NodeStatusOffline)
    (hF : (w.forwards.map fun f => f.ID).Nodup) (hT : (w.tunnels.map fun t => t.ID).Nodup)
    (hrel : w.storeReliable) :
    (RuleSyncService.syncNodeRules w node (some cfg)).forwards =
      w.forwards.map (reconciledForward node.ID (buildServiceStates cfg.Services)) ∧
    (RuleSyncService.syncNodeRules w node (some cfg)).tunnels =
      w.tunnels.map (reconciledTunnel node.ID (buildServiceStates cfg.Services)
        (buildRunningChains cfg.Chains)) := by
  unfold RuleSyncService.syncNodeRules
  rw [if_neg hon]
  simp only []
  obtain ⟨⟨hrel1, htun1⟩, hfw1⟩ := foldl_rows (fun f : GostForward => f.ID)
    (reconciledForward node.ID (buildServiceStates cfg.Services))
    (fun s : World => s.forwards)
    (fun acc f => RuleSyncService.syncForwardStatus acc f (buildServiceStates cfg.Services))
    (fun s => s.storeReliable ∧ s.tunnels = w.tunnels) (fun f => f.NodeID = node.ID)
    (fun g => by unfold reconciledForward; split <;> rfl)
    (fun s x hinv hnd hx hsel => by
      obtain ⟨h1, h2, h3⟩ := syncForwardStatus_step s x (buildServiceStates cfg.Services)
        node.ID hinv.1 hnd hx hsel
      exact ⟨⟨h1, h2.trans hinv.2⟩, h3⟩)
    (ForwardRepository.FindByNodeID w node.ID) w ⟨hrel, rfl⟩ hF
    (hF.sublist ((List.filter_sublist _).map _))
    (fun x hx => by
      unfold ForwardRepository.FindByNodeID at hx
      rw [List.mem_filter] at hx
      exact ⟨hx.1, by simpa using hx.2⟩)
  have hfw : (List.foldl
      (fun acc f => RuleSyncService.syncForwardStatus acc f (buildServiceStates cfg.Services))
      w (ForwardRepository.FindByNodeID w node.ID)).forwards =
      w.forwards.map (reconciledForward node.ID (buildServiceStates cfg.Services)) := by
    rw [hfw1]
    apply List.map_congr_left
    intro g hg
    by_cases hk : g.ID ∈ (ForwardRepository.FindByNodeID w node.ID).map fun f => f.ID
    · rw [if_pos hk]
    · rw [if_neg hk]
      unfold reconciledForward
      rw [if_neg]
      intro hsel
      apply hk
      refine List.mem_map.mpr ⟨g, ?_, rfl⟩
      unfold ForwardRepository.FindByNodeID
      rw [List.mem_filter]
      exact ⟨hg, by simpa using hsel⟩
  obtain ⟨⟨_, hfwd2⟩, htun2⟩ := foldl_rows (fun t : GostTunnel => t.ID)
    (reconciledTunnel node.ID (buildServiceStates cfg.Services)
      (buildRunningChains cfg.Chains))
    (fun s : World => s.tunnels)
    (fun acc t =>
      if t.EntryNodeID = node.ID then
        RuleSyncService.syncTunnelStatus acc t (buildServiceStates cfg.Services)
          (buildRunningChains cfg.Chains)
      else acc)
    (fun s => s.storeReliable ∧ s.forwards = (List.foldl
      (fun acc f => RuleSyncService.syncForwardStatus acc f (buildServiceStates cfg.Services))
      w (ForwardRepository.FindByNodeID w node.ID)).forwards) (fun _ => True)
    (fun g => by unfold reconciledTunnel; split <;> rfl)
    (fun s x hinv hnd hx _ => by
      obtain ⟨h1, h2, h3⟩ := syncTunnelStatus_step s x (buildServiceStates cfg.Services)
        (buildRunningChains cfg.Chains) node.ID hinv.1 hnd hx
      exact ⟨⟨h1, h2.trans hinv.2⟩, h3⟩)
    (TunnelRepository.FindByNodeID (List.foldl
      (fun acc f => RuleSyncService.syncForwardStatus acc f (buildServiceStates cfg.Services))
      w (ForwardRepository.FindByNodeID w node.ID)) node.ID)
    (List.foldl
      (fun acc f => RuleSyncService.syncForwardStatus acc f (buildServiceStates cfg.Services))
      w (ForwardRepository.FindByNodeID w node.ID))
    ⟨hrel1, rfl⟩ (by beta_reduce; rw [htun1]; exact hT)
    (by
      unfold TunnelRepository.FindByNodeID
      rw [htun1]
      exact hT.sublist ((List.filter_sublist _).map _))
    (fun x hx => by
      unfold TunnelRepository.FindByNodeID at hx
      rw [List.mem_filter] at hx
      exact ⟨hx.1, trivial⟩)
  refine ⟨hfwd2.trans hfw, ?_⟩
  rw [htun2, htun1]
  apply List.map_congr_left
  intro g hg
  split
  · rfl
  · rename_i hk
    unfold reconciledTunnel
    rw [if_neg]
    intro hsel
    apply hk
    refine List.mem_map.mpr ⟨g, ?_, rfl⟩
    unfold TunnelRepository.FindByNodeID
    rw [List.mem_filter, htun1]
    exact ⟨hg, by simp [hsel]⟩

/-- Reconciling a node whose rules all bear the mapped status already changes nothing: no
call is issued and no row is written. -/
theorem syncNodeRules_fixed (w : World) (node : GostNode) (cfg : Config)
    (hf : ∀ f ∈ w.forwards, f.NodeID = node.ID →
      f.Status = mappedForwardStatus (buildServiceStates cfg.Services) f)
    (ht : ∀ t ∈ w.tunnels, t.EntryNodeID = node.ID →
      t.Status = mappedTunnelStatus (buildServiceStates cfg.Services)
        (buildRunningChains cfg.Chains) t) :
    RuleSyncService.syncNodeRules w node (some cfg) = w := by
  unfold RuleSyncService.syncNodeRules
  split
  · rfl
  · simp only []
    have h1 : List.foldl
        (fun acc f => RuleSyncService.syncForwardStatus acc f (buildServiceStates cfg.Services))
        w (ForwardRepository.FindByNodeID w node.ID) = w := by
      apply foldl_fixed
      intro f hfm
      unfold ForwardRepository.FindByNodeID at hfm
      rw [List.mem_filter] at hfm
      have hst := hf f hfm.1 (by simpa using hfm.2)
      have hsync : RuleSyncService.syncForwardStatus w f (buildServiceStates cfg.Services) =
          if f.Status ≠ mappedForwardStatus (buildServiceStates cfg.Services) f then
            (ForwardRepository.UpdateStatus w f.ID
              (mappedForwardStatus (buildServiceStates cfg.Services) f)).2
          else w := rfl
      rw [hsync, if_neg (not_not.mpr hst)]
    rw [h1]
    apply foldl_fixed
    intro t htm
    unfold TunnelRepository.FindByNodeID at htm
    rw [List.mem_filter] at htm
    split
    · rename_i hsel
      have hst := ht t htm.1 hsel
      have hsync : RuleSyncService.syncTunnelStatus w t (buildServiceStates cfg.Services)
            (buildRunningChains cfg.Chains) =
          if t.Status ≠ mappedTunnelStatus (buildServiceStates cfg.Services)
              (buildRunningChains cfg.Chains) t then
            (TunnelRepository.UpdateStatus w t.ID
              (mappedTunnelStatus (buildServiceStates cfg.Services)
                (buildRunningChains cfg.Chains) t)).2
          else w := rfl
      rw [hsync, if_neg (not_not.mpr hst)]
    · rfl

/-- Reconciling twice: the second pass returns the world of the first, and after the first
the rules of the node bear the status computed from the maps built from the configuration. -/
theorem syncNodeRules_twice (w : World) (node : GostNode) (gostCfg : Option Config)
    (hF : (w.forwards.map fun f => f.ID).Nodup) (hT : (w.tunnels.map fun t => t.ID).Nodup)
    (hrel : w.storeReliable) :
    RuleSyncService.syncNodeRules (RuleSyncService.syncNodeRules w node gostCfg) node gostCfg =
      RuleSyncService.syncNodeRules w node gostCfg ∧
    (RuleSyncService.syncNodeRules (RuleSyncService.syncNodeRules w node gostCfg) node
      gostCfg).calls = (RuleSyncService.syncNodeRules w node gostCfg).calls ∧
    (node.Status ≠ NodeStatusOffline → ∀ cfg, gostCfg = some cfg →
      (RuleSyncService.syncNodeRules w node gostCfg).forwards =
        w.forwards.map (reconciledForward node.ID (buildServiceStates cfg.Services)) ∧
      (RuleSyncService.syncNodeRules w node gostCfg).tunnels =
        w.tunnels.map (reconciledTunnel node.ID (buildServiceStates cfg.Services)
          (buildRunningChains cfg.Chains)) ∧
      (∀ f ∈ (RuleSyncService.syncNodeRules w node gostCfg).forwards, f.NodeID = node.ID →
        f.Status = mappedForwardStatus (buildServiceStates cfg.Services) f) ∧
      (∀ t ∈ (RuleSyncService.syncNodeRules w node gostCfg).tunnels,
        t.EntryNodeID = node.ID →
        t.Status = mappedTunnelStatus (buildServiceStates cfg.Services)
          (buildRunningChains cfg.Chains) t)) := by
  have hmapped : node.Status ≠ NodeStatusOffline → ∀ cfg, gostCfg = some cfg →
      (RuleSyncService.syncNodeRules w node gostCfg).forwards =
        w.forwards.map (reconciledForward node.ID (buildServiceStates cfg.Services)) ∧
      (RuleSyncService.syncNodeRules w node gostCfg).tunnels =
        w.tunnels.map (reconciledTunnel node.ID (buildServiceStates cfg.Services)
          (buildRunningChains cfg.Chains)) ∧
      (∀ f ∈ (RuleSyncService.syncNodeRules w node gostCfg).forwards, f.NodeID = node.ID →
        f.Status = mappedForwardStatus (buildServiceStates cfg.Services) f) ∧
      (∀ t ∈ (RuleSyncService.syncNodeRules w node gostCfg).tunnels,
        t.EntryNodeID = node.ID →
        t.Status = mappedTunnelStatus (buildServiceStates cfg.Services)
          (buildRunningChains cfg.Chains) t) := by
    intro hon cfg hcfg
    subst hcfg
    obtain ⟨hfw, htun⟩ := syncNodeRules_rows w node cfg hon hF hT hrel
    refine ⟨hfw, htun, ?_, ?_⟩
    · intro f hf hsel
      rw [hfw] at hf
      obtain ⟨g, _, rfl⟩ := List.mem_map.mp hf
      unfold reconciledForward at hsel ⊢
      by_cases hg : g.NodeID = node.ID
      · rw [if_pos hg]; rfl
      · rw [if_neg hg] at hsel; exact absurd hsel hg
    · intro t ht hsel
      rw [htun] at ht
      obtain ⟨g, _, rfl⟩ := List.mem_map.mp ht
      unfold reconciledTunnel at hsel ⊢
      by_cases hg : g.EntryNodeID = node.ID
      · rw [if_pos hg]; rfl
      · rw [if_neg hg] at hsel; exact absurd hsel hg
  have hidem : RuleSyncService.syncNodeRules (RuleSyncService.syncNodeRules w node gostCfg)
      node gostCfg = RuleSyncService.syncNodeRules w node gostCfg := by
    by_cases hon : node.Status = NodeStatusOffline
    · have hid : ∀ w1 : World, RuleSyncService.syncNodeRules w1 node gostCfg = w1 := by
        intro w1; unfold RuleSyncService.syncNodeRules; rw [if_pos hon]
      rw [hid, hid]
    · cases gostCfg with
      | none =>
        have hid : ∀ w1 : World, RuleSyncService.syncNodeRules w1 node none = w1 := by
          intro w1; unfold RuleSyncService.syncNodeRules; rw [if_neg hon]
        rw [hid, hid]
      | some cfg =>
        obtain ⟨_, _, h3, h4⟩ := hmapped hon cfg rfl
        exact syncNodeRules_fixed _ node cfg h3 h4
  exact ⟨hidem, by rw [hidem], hmapped⟩

/-! ### The service name that Start derives -/

theorem createdServices_append (a b : List Call) :
    createdServices (a ++ b) = createdServices a ++ createdServices b :=
  List.filterMap_append _ _ _

/-- Binding an observer leaves the name of the service as it is. -/
theorem attachObserver_Name (svc : ServiceConfig) (observerName : String) :
    (attachObserver svc observerName).Name = svc.Name := by
  unfold attachObserver
  split <;> rfl

/-- CreateObserver appends to the call log, and no `createService` call. -/
theorem CreateObserver_created (w : World) (client : Nat) (nodeName : String)
    (resourceID : Nat) :
    ∃ pre, (CreateObserver w client nodeName resourceID).2.calls = w.calls ++ pre ∧
      createdServices pre = [] := by
  unfold CreateObserver
  cases w.sysConfig with
  | none => exact ⟨[], (List.append_nil _).symm, rfl⟩
  | some cfg =>
    simp only []
    split
    · exact ⟨[], (List.append_nil _).symm, rfl⟩
    · simp only [World.issue]
      cases w.fails w.calls.length _ <;> exact ⟨_, rfl, rfl⟩

/-- The calls of a Forward start: whatever the world, Start appends to the call log, and the
`createService` calls it appends are none, or one for the service named "forward-<id>". -/
theorem ForwardStart_createdServices (w : World) (id : Nat) :
    ∃ extra, (ForwardService.Start w id).2.calls = w.calls ++ extra ∧
      (createdServices extra = [] ∨ createdServices extra = ["forward-" ++ toString id]) := by
  have hstay : ∃ extra, w.calls = w.calls ++ extra ∧
      (createdServices extra = [] ∨ createdServices extra = ["forward-" ++ toString id]) :=
    ⟨[], (List.append_nil _).symm, Or.inl rfl⟩
  unfold ForwardService.Start
  cases hfind : ForwardRepository.FindByID w id with
  | none => exact hstay
  | some forward =>
    have hid : forward.ID = id := findForward_ID hfind
    simp only []
    split
    · exact hstay
    · cases hnode : NodeRepository.FindByID w forward.NodeID with
      | none => exact hstay
      | some node =>
        simp only []
        split
        · exact hstay
        · obtain ⟨pre, hpre, hnone⟩ := CreateObserver_created w node.ID node.Name forward.ID
          rcases hco : CreateObserver w node.ID node.Name forward.ID with ⟨⟨name, err⟩, w1⟩
          rw [hco] at hpre
          simp only at hpre
          cases err with
          | some e => exact ⟨pre, hpre, Or.inl hnone⟩
          | none =>
            simp only [World.issue, ForwardRepository.UpdateObserverID,
              ForwardRepository.UpdateStatus, ForwardRepository.UpdateServiceID,
              BaseRepository.UpdateField]
            split <;> rename_i heq <;> simp only [Prod.mk.injEq] at heq <;>
              obtain ⟨_, rfl⟩ := heq <;>
              simp only [UpdateFields_calls, logged_calls, hpre, List.append_assoc] <;>
              refine ⟨_, rfl, Or.inr ?_⟩ <;>
              simp only [createdServices_append, hnone, List.nil_append] <;>
              simp only [createdServices, List.filterMap_cons, List.filterMap_nil,
                List.singleton_append, attachObserver_Name, hid] <;>
              split <;> rfl

/-- The calls of a Tunnel start: whatever the world, Start appends to the call log, and the
`createService` calls it appends are none, or one for the service named "tunnel-<id>". -/
theorem TunnelStart_createdServices (w : World) (id : Nat) :
    ∃ extra, (TunnelService.Start w id).2.calls = w.calls ++ extra ∧
      (createdServices extra = [] ∨ createdServices extra = ["tunnel-" ++ toString id]) := by
  have hstay : ∃ extra, w.calls = w.calls ++ extra ∧
      (createdServices extra = [] ∨ createdServices extra = ["tunnel-" ++ toString id]) :=
    ⟨[], (List.append_nil _).symm, Or.inl rfl⟩
  unfold TunnelService.Start
  cases hfind : TunnelRepository.FindByID w id with
  | none => exact hstay
  | some tunnel =>
    have hid : tunnel.ID = id := findTunnel_ID hfind
    simp only []
    split
    · exact hstay
    · cases hentry : NodeRepository.FindByID w tunnel.EntryNodeID with
      | none => exact hstay
      | some entryNode =>
        simp only []
        split
        · exact hstay
        · cases hexit : NodeRepository.FindByID w tunnel.ExitNodeID with
          | none => exact hstay
          | some exitNode =>
            simp only []
            split
            · exact hstay
            · split
              · simp only [TunnelRepository.UpdateStatus, BaseRepository.UpdateField,
                  UpdateFields_calls]
                exact ⟨_, rfl, Or.inl rfl⟩
              · simp only [World.issue]
                split <;> rename_i heq <;> simp only [Prod.mk.injEq] at heq <;>
                  obtain ⟨_, rfl⟩ := heq
                · simp only [TunnelRepository.UpdateStatus, BaseRepository.UpdateField,
                    UpdateFields_calls, logged_calls, List.append_assoc]
                  exact ⟨_, rfl, Or.inl rfl⟩
                · obtain ⟨pre, hpre, hnone⟩ := CreateObserver_created
                    (w.logged (.CreateChain entryNode.ID
                      { Name := "chain-tunnel-" ++ toString tunnel.ID,
                        Hops := [{ Name := "hop-0",
                                   Nodes := [{ Name := "exit-relay",
                                               Addr := ExtractHost exitNode.APIURL ++ ":" ++
                                                 toString tunnel.RelayPort,
                                               ConnectorType := "relay",
                                               DialerType := "tcp" }] }] }))
                    entryNode.ID entryNode.Name tunnel.ID
                  rcases hco : CreateObserver
                    (w.logged (.CreateChain entryNode.ID
                      { Name := "chain-tunnel-" ++ toString tunnel.ID,
                        Hops := [{ Name := "hop-0",
                                   Nodes := [{ Name := "exit-relay",
                                               Addr := ExtractHost exitNode.APIURL ++ ":" ++
                                                 toString tunnel.RelayPort,
                                               ConnectorType := "relay",
                                               DialerType := "tcp" }] }] }))
                    entryNode.ID entryNode.Name tunnel.ID with ⟨⟨name, err⟩, w2⟩
                  rw [hco] at hpre
                  simp only [logged_calls] at hpre
                  cases err with
                  | some e =>
                    simp only [hpre, List.append_assoc]
                    refine ⟨_, rfl, Or.inl ?_⟩
                    simp only [createdServices_append, hnone, List.append_nil]
                    rfl
                  | none =>
                    simp only [TunnelRepository.UpdateObserverID, TunnelRepository.UpdateStatus,
                      TunnelRepository.UpdateServiceInfo, BaseRepository.UpdateField]
                    split <;> rename_i heq <;> simp only [Prod.mk.injEq] at heq <;>
                      obtain ⟨_, rfl⟩ := heq <;>
                      simp only [UpdateFields_calls, logged_calls, hpre, List.append_assoc] <;>
                      refine ⟨_, rfl, Or.inr ?_⟩ <;>
                      simp only [createdServices_append, hnone, List.nil_append] <;>
                      simp only [createdServices, List.filterMap_cons, List.filterMap_nil,
                        List.singleton_append, List.nil_append, attachObserver_Name, hid] <;>
                      split <;> rfl

/-- A Forward start that gets past observer creation issues createService: with the rule
stored and not running, its node registered and not offline, the panel URL configured and
createObserver accepted, the one service created is named "forward-<id>", whether the node
accepts it or not. -/
theorem ForwardStart_creates_service (w : World) (id : Nat) (forward : GostForward)
    (node : GostNode) (cfg : SystemConfig)
    (hfind : ForwardRepository.FindByID w id = some forward)
    (hnot : forward.Status ≠ ForwardStatusRunning)
    (hnode : NodeRepository.FindByID w forward.NodeID = some node)
    (havail : node.Status ≠ NodeStatusOffline)
    (hcfg : w.sysConfig = some cfg) (hurl : cfg.PanelURL ≠ "")
    (hobs : ∀ k nd o, w.fails k (.CreateObserver nd o) = false) :
    createdServices ((ForwardService.Start w id).2.calls.drop w.calls.length) =
      ["forward-" ++ toString id] := by
  have hid : forward.ID = id := findForward_ID hfind
  unfold ForwardService.Start
  simp only [hfind, hnot, hnode, havail, CreateObserver, hcfg, hurl, World.issue, hobs,
    logged_fails, UpdateFields_fails, if_false, Bool.not_false,
    ForwardRepository.UpdateObserverID, ForwardRepository.UpdateStatus,
    ForwardRepository.UpdateServiceID, BaseRepository.UpdateField, hid]
  split <;> rename_i heq <;> simp only [Prod.mk.injEq] at heq <;>
    obtain ⟨_, rfl⟩ := heq <;>
    simp only [UpdateFields_calls, logged_calls, List.append_assoc, List.drop_left] <;>
    simp only [createdServices, List.filterMap_cons, List.filterMap_nil,
      List.singleton_append, List.nil_append, List.cons_append, attachObserver_Name] <;>
    split <;> rfl

/-- A Tunnel start that gets past createChain and observer creation issues createService for
the one service named "tunnel-<id>", whether the node accepts it or not. -/
theorem TunnelStart_creates_service (w : World) (id : Nat) (tunnel : GostTunnel)
    (entryNode exitNode : GostNode) (cfg : SystemConfig)
    (hfind : TunnelRepository.FindByID w id = some tunnel)
    (hnot : tunnel.Status ≠ TunnelStatusRunning)
    (hentry : NodeRepository.FindByID w tunnel.EntryNodeID = some entryNode)
    (hentryOn : entryNode.Status ≠ NodeStatusOffline)
    (hexit : NodeRepository.FindByID w tunnel.ExitNodeID = some exitNode)
    (hexitOn : exitNode.Status ≠ NodeStatusOffline)
    (hhost : ExtractHost exitNode.APIURL ≠ "")
    (hcfg : w.sysConfig = some cfg) (hurl : cfg.PanelURL ≠ "")
    (hchain : ∀ k nd c, w.fails k (.CreateChain nd c) = false)
    (hobs : ∀ k nd o, w.fails k (.CreateObserver nd o) = false) :
    createdServices ((TunnelService.Start w id).2.calls.drop w.calls.length) =
      ["tunnel-" ++ toString id] := by
  have hid : tunnel.ID = id := findTunnel_ID hfind
  unfold TunnelService.Start
  simp only [hfind, hnot, hentry, hentryOn, hexit, hexitOn, hhost, CreateObserver, hcfg, hurl,
    World.issue, hchain, hobs, logged_fails, logged_sysConfig, UpdateFields_fails,
    if_false, Bool.not_false, TunnelRepository.UpdateObserverID,
    TunnelRepository.UpdateStatus, TunnelRepository.UpdateServiceInfo,
    BaseRepository.UpdateField, hid]
  split <;> rename_i heq <;> simp only [Prod.mk.injEq] at heq <;>
    obtain ⟨_, rfl⟩ := heq <;>
    simp only [UpdateFields_calls, logged_calls, List.append_assoc, List.drop_left] <;>
    simp only [createdServices, List.filterMap_cons, List.filterMap_nil,
      List.singleton_append, List.nil_append, List.cons_append, attachObserver_Name] <;>
    split <;> rfl

/-- C23: the naming convention round-trips. For every rule id n with n < 2^63, parseServiceID
applied to "forward-" followed by n in decimal, with prefix "forward-", reports success with
no error and yields exactly n, and so for "tunnel-"; hence the stats event for the service
of rule n is exactly one `UpdateStats` on row n of the table of that kind, and the counters
of every other row of either table are left as they were. These are the names Start derives:
in every world, every service that Start of Forward n sends to createService bears a name
that parses, with prefix "forward-", to exactly n, and a stats event under that name is
`UpdateStats` on Forward n; likewise Start of Tunnel n with prefix "tunnel-" and Tunnel n.
And a start that gets past observer creation (for a Tunnel, past createChain too) does send
one such service, named "forward-<n>" or "tunnel-<n>". -/
theorem naming_convention_round_trip (n : Nat) (hn : n < 2 ^ 63) :
    (∀ r, parseServiceID ("forward-" ++ toString n) "forward-" r = ((true, none), n)) ∧
    (∀ r, parseServiceID ("tunnel-" ++ toString n) "tunnel-" r = ((true, none), n)) ∧
    (∀ (w : World) (table : Table) (i o c : Int),
      ObserverService.processEvent w (statsEvent table n i o c) =
        BaseRepository.UpdateFields w table n (statsFields i o c) ∧
      ∀ (table1 : Table) (j : Nat), ¬ (table1 = table ∧ j = n) →
        rowStats (ObserverService.processEvent w (statsEvent table n i o c)).2 table1 j =
          rowStats w table1 j) ∧
    (∀ (w : World),
      ∀ name ∈ createdServices ((ForwardService.Start w n).2.calls.drop w.calls.length),
        (∀ r, parseServiceID name "forward-" r = ((true, none), n)) ∧
        ∀ (w2 : World) (i o c : Int),
          ObserverService.processEvent w2
              { Type_ := "stats", Service := name,
                Stats := some { InputBytes := i, OutputBytes := o, TotalConns := c } } =
            BaseRepository.UpdateFields w2 .gost_forwards n (statsFields i o c)) ∧
    (∀ (w : World),
      ∀ name ∈ createdServices ((TunnelService.Start w n).2.calls.drop w.calls.length),
        (∀ r, parseServiceID name "tunnel-" r = ((true, none), n)) ∧
        ∀ (w2 : World) (i o c : Int),
          ObserverService.processEvent w2
              { Type_ := "stats", Service := name,
                Stats := some { InputBytes := i, OutputBytes := o, TotalConns := c } } =
            BaseRepository.UpdateFields w2 .gost_tunnels n (statsFields i o c)) ∧
    (∀ (w : World) (forward : GostForward) (node : GostNode) (cfg : SystemConfig),
      ForwardRepository.FindByID w n = some forward →
      forward.Status ≠ ForwardStatusRunning →
      NodeRepository.FindByID w forward.NodeID = some node →
      node.Status ≠ NodeStatusOffline →
      w.sysConfig = some cfg → cfg.PanelURL ≠ "" →
      (∀ k nd o, w.fails k (.CreateObserver nd o) = false) →
      createdServices ((ForwardService.Start w n).2.calls.drop w.calls.length) =
        ["forward-" ++ toString n]) ∧
    (∀ (w : World) (tunnel : GostTunnel) (entryNode exitNode : GostNode) (cfg : SystemConfig),
      TunnelRepository.FindByID w n = some tunnel →
      tunnel.Status ≠ TunnelStatusRunning →
      NodeRepository.FindByID w tunnel.EntryNodeID = some entryNode →
      entryNode.Status ≠ NodeStatusOffline →
      NodeRepository.FindByID w tunnel.ExitNodeID = some exitNode →
      exitNode.Status ≠ NodeStatusOffline →
      ExtractHost exitNode.APIURL ≠ "" →
      w.sysConfig = some cfg → cfg.PanelURL ≠ "" →
      (∀ k nd c, w.fails k (.CreateChain nd c) = false) →
      (∀ k nd o, w.fails k (.CreateObserver nd o) = false) →
      createdServices ((TunnelService.Start w n).2.calls.drop w.calls.length) =
        ["tunnel-" ++ toString n]) := by
  have hn64 : n < 2 ^ 64 := lt_trans hn (by norm_num)
  have hmod : n % 2 ^ 64 = n := Nat.mod_eq_of_lt hn64
  have hname : ∀ (pfx : String) (l : List String) (name : String),
      (l = [] ∨ l = [pfx ++ toString n]) → name ∈ l → name = pfx ++ toString n := by
    intro pfx l name hl hmem
    rcases hl with h | h
    · rw [h] at hmem; cases hmem
    · rw [h] at hmem; exact List.mem_singleton.mp hmem
  refine ⟨fun r => ?_, fun r => ?_, fun w table i o c => ⟨?_, fun table1 j hne => ?_⟩,
    fun w name hmem => ?_, fun w name hmem => ?_,
    fun w forward node cfg h1 h2 h3 h4 h5 h6 h7 =>
      ForwardStart_creates_service w n forward node cfg h1 h2 h3 h4 h5 h6 h7,
    fun w tunnel entryNode exitNode cfg h1 h2 h3 h4 h5 h6 h7 h8 h9 h10 h11 =>
      TunnelStart_creates_service w n tunnel entryNode exitNode cfg h1 h2 h3 h4 h5 h6 h7 h8 h9
        h10 h11⟩
  · rw [parseServiceID_toString, hmod]
  · rw [parseServiceID_toString, hmod]
  · exact processEvent_statsEvent w table n hn64 i o c
  · rw [processEvent_statsEvent w table n hn64 i o c]
    exact rowStats_UpdateFields_other w table n _ table1 j hne
  · obtain ⟨extra, hcalls, hshape⟩ := ForwardStart_createdServices w n
    rw [hcalls, List.drop_left] at hmem
    have hnm : name = "forward-" ++ toString n := hname "forward-" _ name hshape hmem
    subst hnm
    refine ⟨fun r => ?_, fun w2 i o c => ?_⟩
    · rw [parseServiceID_toString, hmod]
    · exact processEvent_statsEvent w2 .gost_forwards n hn64 i o c
  · obtain ⟨extra, hcalls, hshape⟩ := TunnelStart_createdServices w n
    rw [hcalls, List.drop_left] at hmem
    have hnm : name = "tunnel-" ++ toString n := hname "tunnel-" _ name hshape hmem
    subst hnm
    refine ⟨fun r => ?_, fun w2 i o c => ?_⟩
    · rw [parseServiceID_toString, hmod]
    · exact processEvent_statsEvent w2 .gost_tunnels n hn64 i o c

/-- Witness of C23: rule id 42, the largest id below 2^63, and the services created by the
starts of Forward 42 and of Tunnel 3 in a world where every call succeeds. -/
theorem naming_convention_round_trip_witness :
    parseServiceID ("forward-" ++ toString 42) "forward-" 0 = ((true, none), 42) ∧
    parseServiceID ("tunnel-" ++ toString 9223372036854775807) "tunnel-" 0 =
      ((true, none), 9223372036854775807) ∧
    createdServices
        ((ForwardService.Start (worldOn sampleNodes [sampleForward 42 "stopped"] []) 42).2.calls.drop
          (worldOn sampleNodes [sampleForward 42 "stopped"] []).calls.length) =
      ["forward-" ++ toString 42] ∧
    parseServiceID "forward-42" "forward-" 0 = ((true, none), 42) ∧
    createdServices
        ((TunnelService.Start (worldOn sampleNodes [] [sampleTunnel 3 "stopped"]) 3).2.calls.drop
          (worldOn sampleNodes [] [sampleTunnel 3 "stopped"]).calls.length) =
      ["tunnel-" ++ toString 3] ∧
    parseServiceID "tunnel-3" "tunnel-" 0 = ((true, none), 3) :=
  ⟨(naming_convention_round_trip 42 (by norm_num)).1 0,
   (naming_convention_round_trip 9223372036854775807 (by norm_num)).2.1 0,
   (naming_convention_round_trip 42 (by norm_num)).2.2.2.2.2.1
     (worldOn sampleNodes [sampleForward 42 "stopped"] []) (sampleForward 42 "stopped")
     sampleNode1 { PanelURL := "http://panel.example" } (by decide) (by decide) (by decide)
     (by decide) rfl (by decide) (fun _ _ _ => rfl),
   ((naming_convention_round_trip 42 (by norm_num)).2.2.2.1
     (worldOn sampleNodes [sampleForward 42 "stopped"] []) "forward-42" (by decide)).1 0,
   (naming_convention_round_trip 3 (by norm_num)).2.2.2.2.2.2
     (worldOn sampleNodes [] [sampleTunnel 3 "stopped"]) (sampleTunnel 3 "stopped")
     sampleNode1 sampleNode2 { PanelURL := "http://panel.example" } (by decide) (by decide)
     (by decide) (by decide) (by decide) (by decide) (by decide) rfl (by decide)
     (fun _ _ _ => rfl) (fun _ _ _ => rfl),
   ((naming_convention_round_trip 3 (by norm_num)).2.2.2.2.1
     (worldOn sampleNodes [] [sampleTunnel 3 "stopped"]) "tunnel-3" (by decide)).1 0⟩

/-! ### What reconciliation reads from the fetched configuration -/

/-- Reading a key from a map right after an assignment to it. -/
theorem lookup_mapSet_self {β : Type} (m : List (String × β)) (k : String) (v : β) :
    (mapSet m k v).lookup k = some v := by
  induction m with
  | nil => simp [mapSet, List.lookup]
  | cons kv rest ih =>
    obtain ⟨k0, v0⟩ := kv
    simp only [mapSet]
    by_cases h0 : k0 = k
    · rw [if_pos h0]
      simp [List.lookup]
    · rw [if_neg h0]
      have hb : (k == k0) = false := beq_false_of_ne (fun e => h0 e.symm)
      simp only [List.lookup, hb]
      exact ih

/-- The service-state map built by syncNodeRules binds every name to the state the
configuration reports for it. -/
theorem buildServiceStates_reads (services : List ReportedService) (k : String) :
    mapGet "" (buildServiceStates services) k = reportedState services k := by
  have key : ∀ (l : List ReportedService) (m0 : List (String × String)),
      (l.foldl (fun m svc =>
        mapSet m svc.Name (match svc.Status with | some st => st | none => "stopped"))
        m0).lookup k =
      match l.reverse.find? fun svc => svc.Name = k with
      | some svc => some (match svc.Status with | some st => st | none => "stopped")
      | none => m0.lookup k := by
    intro l
    induction l with
    | nil => intro m0; rfl
    | cons x xs ih =>
      intro m0
      rw [List.foldl_cons, ih, List.reverse_cons, List.find?_append]
      cases hfind : xs.reverse.find? fun svc => svc.Name = k with
      | some svc => rfl
      | none =>
        simp only [Option.none_or, List.find?_cons, List.find?_nil]
        by_cases hx : x.Name = k
        · simp only [hx, decide_True]
          exact lookup_mapSet_self _ _ _
        · simp only [hx, decide_False]
          exact lookup_mapSet_ne _ _ _ _ (fun e => hx e.symm)
  unfold mapGet buildServiceStates reportedState
  rw [key services []]
  cases services.reverse.find? fun svc => svc.Name = k <;> rfl

/-- The chain map built by syncNodeRules binds exactly the names of the reported chains. -/
theorem buildRunningChains_reads (chains : List String) (k : String) :
    mapGet false (buildRunningChains chains) k = decide (k ∈ chains) := by
  have key : ∀ (l : List String) (m0 : List (String × Bool)),
      (l.foldl (fun m name => mapSet m name true) m0).lookup k =
        if k ∈ l then some true else m0.lookup k := by
    intro l
    induction l with
    | nil => intro m0; simp
    | cons x xs ih =>
      intro m0
      rw [List.foldl_cons, ih]
      by_cases hxs : k ∈ xs
      · rw [if_pos hxs, if_pos (List.mem_cons_of_mem _ hxs)]
      · rw [if_neg hxs]
        by_cases hx : k = x
        · rw [if_pos (hx ▸ List.mem_cons_self _ _), hx]
          exact lookup_mapSet_self _ _ _
        · rw [if_neg (fun h => (List.mem_cons.mp h).elim hx hxs)]
          exact lookup_mapSet_ne _ _ _ _ hx
  unfold mapGet buildRunningChains
  rw [key chains []]
  by_cases h : k ∈ chains
  · simp [h]
  · simp [h]

/-- C25: reconciliation is idempotent. For every store without two rows of one id that
accepts its updates, every node and every result of fetching the node configuration,
reconciling the node a second time against the same configuration returns the world the
first reconciliation left: no call is issued, so no status is written and every row is as
after the first. And after one reconciliation of a node that is not offline against a
fetched configuration, every other row being as it was, every Forward of the node bears
the status mapped from the state the configuration reports for its service (the stored
service_id, or "forward-<id>" when that is empty), and every Tunnel entering at the node the
status mapped from the state reported for its stored service_id and from whether its stored
chain_id is among the reported chains. -/
theorem syncNodeRules_idempotent (w : World) (node : GostNode) (gostCfg : Option Config)
    (hF : (w.forwards.map fun f => f.ID).Nodup) (hT : (w.tunnels.map fun t => t.ID).Nodup)
    (hrel : w.storeReliable) :
    RuleSyncService.syncNodeRules (RuleSyncService.syncNodeRules w node gostCfg) node gostCfg =
      RuleSyncService.syncNodeRules w node gostCfg ∧
    (RuleSyncService.syncNodeRules (RuleSyncService.syncNodeRules w node gostCfg) node
      gostCfg).calls = (RuleSyncService.syncNodeRules w node gostCfg).calls ∧
    (node.Status ≠ NodeStatusOffline → ∀ cfg, gostCfg = some cfg →
      (RuleSyncService.syncNodeRules w node gostCfg).forwards =
        w.forwards.map (fun f =>
          if f.NodeID = node.ID then
            { f with
              Status := GostStateToForwardStatus (reportedState cfg.Services
                (if f.ServiceID = "" then "forward-" ++ toString f.ID else f.ServiceID)) }
          else f) ∧
      (RuleSyncService.syncNodeRules w node gostCfg).tunnels =
        w.tunnels.map (fun t =>
          if t.EntryNodeID = node.ID then
            { t with
              Status := GostStateToTunnelStatus (reportedState cfg.Services t.ServiceID)
                (decide (t.ChainID ∈ cfg.Chains)) }
          else t) ∧
      (∀ f ∈ (RuleSyncService.syncNodeRules w node gostCfg).forwards, f.NodeID = node.ID →
        f.Status = GostStateToForwardStatus (reportedState cfg.Services
          (if f.ServiceID = "" then "forward-" ++ toString f.ID else f.ServiceID))) ∧
      (∀ t ∈ (RuleSyncService.syncNodeRules w node gostCfg).tunnels,
        t.EntryNodeID = node.ID →
        t.Status = GostStateToTunnelStatus (reportedState cfg.Services t.ServiceID)
          (decide (t.ChainID ∈ cfg.Chains)))) := by
  obtain ⟨hidem, hcalls, hmapped⟩ := syncNodeRules_twice w node gostCfg hF hT hrel
  refine ⟨hidem, hcalls, ?_⟩
  intro hon cfg hcfg
  have hfs : ∀ f : GostForward,
      mappedForwardStatus (buildServiceStates cfg.Services) f =
        GostStateToForwardStatus (reportedState cfg.Services
          (if f.ServiceID = "" then "forward-" ++ toString f.ID else f.ServiceID)) := by
    intro f
    unfold mappedForwardStatus
    rw [buildServiceStates_reads]
  have hts : ∀ t : GostTunnel,
      mappedTunnelStatus (buildServiceStates cfg.Services) (buildRunningChains cfg.Chains) t =
        GostStateToTunnelStatus (reportedState cfg.Services t.ServiceID)
          (decide (t.ChainID ∈ cfg.Chains)) := by
    intro t
    unfold mappedTunnelStatus
    rw [buildServiceStates_reads, buildRunningChains_reads]
  obtain ⟨h1, h2, h3, h4⟩ := hmapped hon cfg hcfg
  refine ⟨?_, ?_, ?_, ?_⟩
  · rw [h1]
    apply List.map_congr_left
    intro f _
    unfold reconciledForward
    rw [hfs]
  · rw [h2]
    apply List.map_congr_left
    intro t _
    unfold reconciledTunnel
    rw [hts]
  · intro f hf hsel
    rw [h3 f hf hsel, hfs]
  · intro t ht hsel
    rw [h4 t ht hsel, hts]

/-- Witness of C25: node 1 reporting the services "forward-7" ready, "tunnel-3" running and
"tunnel-4" running, and the one chain "chain-tunnel-3"; in the first pass the stopped
Forward 7 and the stopped Tunnel 3 become running and the running Tunnel 4, whose chain is
not reported, becomes error; the second pass changes nothing. -/
theorem syncNodeRules_idempotent_witness :
    RuleSyncService.syncNodeRules
        (RuleSyncService.syncNodeRules
          (sampleWorld [sampleForward 7 "stopped"]
            [sampleTunnel 3 "stopped", sampleTunnel 4 "running"] none)
          sampleNode1 (some reportedConfig))
        sampleNode1 (some reportedConfig) =
      RuleSyncService.syncNodeRules
        (sampleWorld [sampleForward 7 "stopped"]
          [sampleTunnel 3 "stopped", sampleTunnel 4 "running"] none)
        sampleNode1 (some reportedConfig) ∧
    (RuleSyncService.syncNodeRules
        (sampleWorld [sampleForward 7 "stopped"]
          [sampleTunnel 3 "stopped", sampleTunnel 4 "running"] none)
        sampleNode1 (some reportedConfig)).forwards =
      [sampleForward 7 "running"] ∧
    (RuleSyncService.syncNodeRules
        (sampleWorld [sampleForward 7 "stopped"]
          [sampleTunnel 3 "stopped", sampleTunnel 4 "running"] none)
        sampleNode1 (some reportedConfig)).tunnels =
      [sampleTunnel 3 "running", sampleTunnel 4 "error"] ∧
    (RuleSyncService.syncNodeRules
        (sampleWorld [sampleForward 7 "stopped"]
          [sampleTunnel 3 "stopped", sampleTunnel 4 "running"] none)
        sampleNode1 (some reportedConfig)).calls.length = 3 :=
  have h := syncNodeRules_idempotent
    (sampleWorld [sampleForward 7 "stopped"]
      [sampleTunnel 3 "stopped", sampleTunnel 4 "running"] none)
    sampleNode1 (some reportedConfig) (by decide) (by decide) (fun _ _ _ _ => rfl)
  ⟨h.1,
   (h.2.2 (by decide) reportedConfig rfl).1.trans (by decide),
   (h.2.2 (by decide) reportedConfig rfl).2.1.trans (by decide),
   by decide⟩

/-! ### The store on insertion: column defaults and keys -/

/-- An insertion that leaves the strategy empty stores "round", and a key is not given a
second time: after Forward 7 (Tunnel 7) has been deleted, the next row created gets key 8. -/
theorem Create_defaults_and_keys :
    ((ForwardService.Create (worldOn sampleNodes [] [])
        { sampleCreateForwardReq 1 with Strategy := "" }).1.toOption.map
      fun f => (f.ID, f.Strategy)) = some (1, "round") ∧
    ((ForwardService.Create
        (ForwardService.Delete (worldOn sampleNodes [sampleForward 7 "stopped"] []) 7).2
        (sampleCreateForwardReq 1)).1.toOption.map fun f => f.ID) = some 8 ∧
    ((TunnelService.Create (worldOn sampleNodes [] [])
        { sampleCreateTunnelReq 1 2 with Strategy := "" }).1.toOption.map
      fun t => (t.ID, t.Strategy, t.RelayPort)) = some (1, "round", 8443) ∧
    ((TunnelService.Create
        (TunnelService.Delete (worldOn sampleNodes [] [sampleTunnel 7 "stopped"]) 7).2
        (sampleCreateTunnelReq 1 2)).1.toOption.map fun t => t.ID) = some 8 := by
  decide

end GostPanel
